import Mathlib

/-! # SafeScale cluster blueprint: a shallow embedding

Source: `deploy/cluster/controller/blueprint.go`.

Conventions of the embedding

* a Go `error` is an `Option String`: `none` is `nil`, `some msg` is an error
  whose `Error()` text is `msg`;
* Go `int` values that are only copied and compared are `Int`; the hostname
  counters and the loop counters, which are incremented, are `Int` wrapped to
  64 bits (`wrapInt`); a loop on such a counter is run with fuel;
* a `float32`, which is only copied and compared with a constant, is a finite
  value (a rational number), an infinity or NaN (`Float32`), with the
  comparisons of Go;
* a goroutine that reports on a one-shot channel is represented by the value
  it reports; the orchestrator's own actions are recorded in a trace of
  events, in program order.
-/

namespace SafeScale

/-! ## Host sizing -/

/-- A Go `float32` as far as the comparisons of Go tell: a finite value (the two zeros, which
no comparison tells apart, are one value), an infinity, or NaN. The code embedded here does no
arithmetic on these values: it compares them with zero and copies them. -/
inductive Float32 where
  | finite (q : ℚ)
  | posInf
  | negInf
  | nan
  deriving DecidableEq, Repr

/-- Go `a < b` on `float32`: false as soon as an operand is NaN. -/
def Float32.lt : Float32 → Float32 → Bool
  | .finite a, .finite b => decide (a < b)
  | .finite _, .posInf => true
  | .negInf, .finite _ => true
  | .negInf, .posInf => true
  | _, _ => false

/-- Go `a <= b` on `float32`: false as soon as an operand is NaN. -/
def Float32.le : Float32 → Float32 → Bool
  | .finite a, .finite b => decide (a ≤ b)
  | .finite _, .posInf => true
  | .negInf, .finite _ => true
  | .negInf, .posInf => true
  | .posInf, .posInf => true
  | .negInf, .negInf => true
  | _, _ => false

instance : LT Float32 := ⟨fun a b => Float32.lt a b = true⟩

instance : LE Float32 := ⟨fun a b => Float32.le a b = true⟩

instance (a b : Float32) : Decidable (a < b) :=
  inferInstanceAs (Decidable (Float32.lt a b = true))

instance (a b : Float32) : Decidable (a ≤ b) :=
  inferInstanceAs (Decidable (Float32.le a b = true))

instance (n : Nat) : OfNat Float32 n := ⟨.finite n⟩

/-- The fields of `model.HostDefinition` used by the orchestrator. -/
structure HostDefinition where
  Cores : Int
  RAMSize : Float32
  DiskSize : Int
  GPUNumber : Int
  CPUFreq : Float32
  ImageID : String
  deriving DecidableEq, Repr

/-- Embedding of `complementHostDefinition` (blueprint.go, lines 445-483): `req` is the
pointer argument (`none` is `nil`), `def_` the tier default. -/
def complementHostDefinition (req : Option HostDefinition) (def_ : HostDefinition) :
    HostDefinition :=
  match req with
  | none => def_
  | some r =>
    let finalDef := r
    let finalDef :=
      if finalDef.Cores ≤ 0 ∧ def_.Cores > 0 then { finalDef with Cores := def_.Cores } else finalDef
    let finalDef :=
      if finalDef.RAMSize ≤ 0 ∧ def_.RAMSize > 0 then { finalDef with RAMSize := def_.RAMSize }
      else finalDef
    let finalDef :=
      if finalDef.DiskSize ≤ 0 ∧ def_.DiskSize > 0 then { finalDef with DiskSize := def_.DiskSize }
      else finalDef
    let finalDef :=
      if finalDef.ImageID = "" then { finalDef with ImageID := def_.ImageID } else finalDef
    let finalDef := if finalDef.Cores ≤ 0 then { finalDef with Cores := 4 } else finalDef
    let finalDef := if finalDef.RAMSize ≤ 0 then { finalDef with RAMSize := 15 } else finalDef
    let finalDef := if finalDef.DiskSize ≤ 0 then { finalDef with DiskSize := 100 } else finalDef
    finalDef

/-- The node sizing computed at the start of `Construct` (blueprint.go, lines 156-170):
`defaultNodeSizing` is the result of the actor `DefaultNodeSizing` when that actor is
defined, `imageID` the default image, `nodesDef` the request's `NodesDef`. -/
def Construct.nodeSizing (defaultNodeSizing : Option HostDefinition) (imageID : String)
    (nodesDef : Option HostDefinition) : HostDefinition :=
  let nodeDef : HostDefinition :=
    { Cores := 4, RAMSize := 15, DiskSize := 100, GPUNumber := 0, CPUFreq := 0,
      ImageID := imageID }
  let nodeDef :=
    match defaultNodeSizing with
    | some d => { d with ImageID := imageID }
    | none => nodeDef
  let nodeDef := complementHostDefinition nodesDef nodeDef
  if nodeDef.ImageID = "" then { nodeDef with ImageID := imageID } else nodeDef

/-! ## Go primitives used by the orchestrator -/

/-- A Go `error`: `none` is `nil`, `some msg` an error whose `Error()` text is `msg`. -/
abbrev Err := Option String

/-- Go `int` arithmetic on a 64-bit platform wraps around in two's complement. -/
def wrapInt (x : Int) : Int := (x + 2 ^ 63) % 2 ^ 64 - 2 ^ 63

/-- Largest value of a Go `int` (64 bits). -/
def maxInt : Int := 2 ^ 63 - 1

/-- The decimal digit `d` as a character. -/
def digitChar (d : Nat) : Char := Char.ofNat (d + 48)

/-- Decimal digits of `n`, most significant first, pushed in front of `acc`; `fuel` bounds the
number of digits produced. -/
def formatDigits : Nat → Nat → List Char → List Char
  | 0, _, acc => acc
  | fuel + 1, n, acc =>
    if n / 10 = 0 then digitChar (n % 10) :: acc
    else formatDigits fuel (n / 10) (digitChar (n % 10) :: acc)

/-- Decimal representation of a natural number. -/
def formatNat (n : Nat) : List Char := formatDigits (n + 1) n []

/-- Go `strconv.Itoa`: decimal text of an `int`, with a leading minus sign for a negative
value. -/
def Itoa (i : Int) : String :=
  if i < 0 then ⟨'-' :: formatNat i.natAbs⟩ else ⟨formatNat i.natAbs⟩

/-! ## Formatting with `fmt` when no operand is given

`fmt.Errorf(format)` and `fmt.Sprintf(format)` called with a format and no operand still
interpret the format: each `%` starts a directive. The definitions below follow `doPrintf` of
the Go standard library for an empty operand list. Strings are valid UTF-8, so that a list of
characters stands for the bytes of the string. -/

/-- Go `fmt.tooLarge`. -/
def fmt.tooLarge (x : Nat) : Bool := decide (x > 1000000)

/-- Go `fmt.parsenum` on the slice of the format that starts at the current position: the
number read, whether one was read, and the rest of the slice (empty after an overflow). -/
def fmt.parsenum : List Char → Nat → Bool → Nat × Bool × List Char
  | [], num, isnum => (num, isnum, [])
  | c :: cs, num, isnum =>
    if '0' ≤ c ∧ c ≤ '9' then
      if fmt.tooLarge num then (0, false, [])
      else fmt.parsenum cs (num * 10 + (c.toNat - 48)) true
    else (num, isnum, c :: cs)

/-- Go `fmt.parseArgNumber` on a format that starts with an opening bracket: whether a
well-formed index `[n]` was read, and the format after what was consumed (after the closing
bracket when there is one, after the opening bracket otherwise). -/
def fmt.parseArgNumber (format : List Char) : Bool × List Char :=
  if (String.mk format).utf8ByteSize < 3 then (false, format.drop 1)
  else
    let inner := (format.drop 1).takeWhile (fun c => c ≠ ']')
    match (format.drop 1).dropWhile (fun c => c ≠ ']') with
    | [] => (false, format.drop 1)
    | _ :: after =>
      let (_, ok, rest) := fmt.parsenum inner 0 false
      if !ok || !rest.isEmpty then (false, after) else (true, after)

/-- Go `pp.argNumber` with no operand: an index can never designate an operand, so a bracket
always clears `goodArgNum`. Result: rest of the format, `found`, `goodArgNum`. -/
def fmt.argNumber (format : List Char) (goodArgNum : Bool) : List Char × Bool × Bool :=
  match format with
  | '[' :: _ =>
    let (ok, rest) := fmt.parseArgNumber format
    (rest, ok, false)
  | _ => (format, false, goodArgNum)

/-- One directive of `doPrintf` with no operand, from the character after the `%`: the text
written and the rest of the format. -/
def fmt.directive (format : List Char) : List Char × List Char :=
  -- flags
  let format := format.dropWhile (fun c => c = '#' ∨ c = '0' ∨ c = '+' ∨ c = '-' ∨ c = ' ')
  -- explicit argument index
  let (format, afterIndex, goodArgNum) := fmt.argNumber format true
  -- width
  let (out1, format, afterIndex, goodArgNum) :=
    match format with
    | '*' :: rest => ("%!(BADWIDTH)".data, rest, false, goodArgNum)
    | _ =>
      let (_, widPresent, rest) := fmt.parsenum format 0 false
      ([], rest, afterIndex, if afterIndex && widPresent then false else goodArgNum)
  -- precision
  let (out2, format, afterIndex, goodArgNum) :=
    match format with
    | '.' :: rest =>
      let goodArgNum := if afterIndex then false else goodArgNum
      let (rest, afterIndex, goodArgNum) := fmt.argNumber rest goodArgNum
      match rest with
      | '*' :: rest => ("%!(BADPREC)".data, rest, false, goodArgNum)
      | _ =>
        let (_, _, rest) := fmt.parsenum rest 0 false
        ([], rest, afterIndex, goodArgNum)
    | _ => ([], format, afterIndex, goodArgNum)
  let (format, _, goodArgNum) :=
    if !afterIndex then fmt.argNumber format goodArgNum else (format, afterIndex, goodArgNum)
  match format with
  | [] => (out1 ++ out2 ++ "%!(NOVERB)".data, [])
  | verb :: rest =>
    if verb = '%' then (out1 ++ out2 ++ ['%'], rest)
    else if !goodArgNum then (out1 ++ out2 ++ "%!".data ++ [verb] ++ "(BADINDEX)".data, rest)
    else (out1 ++ out2 ++ "%!".data ++ [verb] ++ "(MISSING)".data, rest)

/-- The loop of `doPrintf` with no operand; every round consumes at least the `%` it stops
at, `fuel` bounds the number of rounds. -/
def fmt.doPrintf : Nat → List Char → List Char
  | 0, _ => []
  | fuel + 1, format =>
    let literal := format.takeWhile (fun c => c ≠ '%')
    match format.dropWhile (fun c => c ≠ '%') with
    | [] => literal
    | _ :: rest =>
      let (out, rest) := fmt.directive rest
      literal ++ out ++ fmt.doPrintf fuel rest

/-- Go `fmt.Sprintf(format)` with no operand. -/
def fmt.Sprintf (format : String) : String :=
  ⟨fmt.doPrintf (format.length + 1) format.data⟩

/-- Go `fmt.Errorf(format)` with no operand: the text of the error built. -/
def fmt.Errorf (format : String) : String := fmt.Sprintf format

/-- Go `strings.Join`. -/
def strings.Join (elems : List String) (sep : String) : String := sep.intercalate elems

/-! ## Fan-out of master creation -/

/-- The loop `for i := 1; i <= count; i++` of the fan-out helpers (blueprint.go, lines 869
and 1048), from the value `i` of its counter on: the values of the counter for which the
body is run, in order, and `none` when `fuel` turns do not end the loop. The counter is a Go
`int`: `i++` wraps around. -/
def fanOut.indices : Nat → Int → Int → Option (List Int)
  | 0, _, _ => none
  | fuel + 1, i, count =>
    if i ≤ count then
      (fanOut.indices fuel (wrapInt (i + 1)) count).map (fun rest => i :: rest)
    else some []

/-- Embedding of `Blueprint.asyncCreateMasters` (blueprint.go, lines 853-891): `task i` is the
value that the task `asyncCreateMaster(i, ...)` sends on its channel; the result is the value
sent on `done`, and `none` when `fuel` turns do not end the loop that launches the tasks. -/
def asyncCreateMasters (fuel : Nat) (count : Int) (task : Nat → Err) : Option Err :=
  if count ≤ 0 then some none
  else
    match fanOut.indices fuel 1 count with
    | none => none
    | some indices =>
      let dones : List Err := indices.map (fun i => task i.toNat)
      let errors : List String := dones.filterMap id
      if errors.length > 0 then
        let msg := strings.Join errors "\n"
        some (some (fmt.Errorf msg))
      else some none

/-! ## Property groups and lock scopes -/

/-- Modelled from the spec: the release of one write-lock scope
`LockForWrite(group).ThenUse(fn)` of the property store, whose source is not among the files
at hand. The scope acquires the lock, hands the payload to `fn` and on release persists the
mutation `fn` performed; persisting either succeeds or fails, after `fn` has run (the callers
compensate that case by hand, blueprint.go lines 1137-1150). -/
inductive LockOutcome where
  | ok
  | failedAfter (msg : String)
  deriving DecidableEq, Repr

/-- Modelled from the spec: `LockForWrite(group).ThenUse(fn)` for a callback `fn` that returns
`nil`; the result is the error of the scope and the payload after it. -/
def LockForWrite.ThenUse {σ : Type} (out : LockOutcome) (fn : σ → σ) (v : σ) : Err × σ :=
  match out with
  | .ok => (none, fn v)
  | .failedAfter msg => (some msg, fn v)

/-- Modelled from the spec: `LockForRead(group).ThenUse(fn)`. The scope acquires the lock and
hands the payload to `fn`; nothing is persisted on release, so a scope that succeeds gives
what `fn` returns: its error and the values it leaves in the variables it captures. `out` is
the error of the scope itself, which the callers test also for a callback that returns `nil`
(blueprint.go, lines 1274-1282): the callback has then not run, and `unset` is what the
captured variables hold. -/
def LockForRead.ThenUse {σ α ε : Type} (out : Option ε) (fn : σ → Option ε × α) (unset : α)
    (v : σ) : Option ε × α :=
  match out with
  | some err => (some err, unset)
  | none => fn v

/-- The enumeration `NodeType.Enum`. -/
inductive NodeType where
  | Gateway
  | Master
  | PrivateNode
  | PublicNode
  deriving DecidableEq, Repr

/-- Text of a node type, as printed by the verb `%v`. -/
def NodeType.String : NodeType → String
  | .Gateway => "Gateway"
  | .Master => "Master"
  | .PrivateNode => "PrivateNode"
  | .PublicNode => "PublicNode"

/-- A node record `clusterpropsv1.Node`. -/
structure Node where
  ID : String
  PrivateIP : String
  PublicIP : String
  deriving DecidableEq, Repr

/-- The payload `clusterpropsv1.Nodes` of the property group Nodes. -/
structure Nodes where
  Masters : List Node
  PublicNodes : List Node
  PrivateNodes : List Node
  MasterLastIndex : Int
  PrivateLastIndex : Int
  PublicLastIndex : Int
  deriving DecidableEq, Repr

/-! ## Hostname allocation -/

/-- The callback run by `buildHostname` inside the write-lock scope on the Nodes group
(blueprint.go, lines 1439-1453): it increments the counter of the node type. -/
def buildHostname.scope (nodeType : NodeType) (nodesV1 : Nodes) : Nodes :=
  match nodeType with
  | .PublicNode => { nodesV1 with PublicLastIndex := wrapInt (nodesV1.PublicLastIndex + 1) }
  | .PrivateNode => { nodesV1 with PrivateLastIndex := wrapInt (nodesV1.PrivateLastIndex + 1) }
  | .Master => { nodesV1 with MasterLastIndex := wrapInt (nodesV1.MasterLastIndex + 1) }
  | .Gateway => nodesV1

/-- The value the callback of `buildHostname` leaves in the captured variable `index`
(zero when the callback was not run). -/
def buildHostname.index (nodeType : NodeType) (ran : Bool) (nodesV1 : Nodes) : Int :=
  if ran then
    match nodeType with
    | .PublicNode => nodesV1.PublicLastIndex
    | .PrivateNode => nodesV1.PrivateLastIndex
    | .Master => nodesV1.MasterLastIndex
    | .Gateway => 0
  else 0

/-- Embedding of `Blueprint.buildHostname` (blueprint.go, lines 1421-1458). `clusterName` is
`b.Cluster.Name`, `lock` the outcome of the write-lock scope, `nodesV1` the payload of the
Nodes group; the result is the pair returned by the Go function and the payload afterwards. -/
def buildHostname (clusterName core : String) (nodeType : NodeType) (lock : LockOutcome)
    (nodesV1 : Nodes) : (String × Err) × Nodes :=
  let coreName : Option String :=
    match nodeType with
    | .PublicNode => some ("pub" ++ core)
    | .PrivateNode => some core
    | .Master => some core
    | .Gateway => none
  match coreName with
  | none => (("", some ("Invalid Node Type \x27" ++ nodeType.String ++ "\x27")), nodesV1)
  | some coreName =>
    let (outerErr, nodesV1') := LockForWrite.ThenUse lock (buildHostname.scope nodeType) nodesV1
    match outerErr with
    | some e => (("", some e), nodesV1')
    | none =>
      let index := buildHostname.index nodeType true nodesV1'
      ((clusterName ++ "-" ++ coreName ++ "-" ++ Itoa index, none), nodesV1')

/-- The two places that allocate a hostname: `asyncCreateMaster` calls
`buildHostname("master", NodeType.Master)` (line 901) and `asyncCreateNode` calls
`buildHostname("node", nodeType)` (line 1100) with the node type chosen by `asyncCreateNodes`
(lines 1030-1036) from its flag `public`. -/
inductive Creation where
  | master
  | node (public_ : Bool)
  deriving DecidableEq, Repr

/-- First argument of `buildHostname` at the call site. -/
def Creation.core : Creation → String
  | .master => "master"
  | .node _ => "node"

/-- Second argument of `buildHostname` at the call site. -/
def Creation.nodeType : Creation → NodeType
  | .master => .Master
  | .node true => .PublicNode
  | .node false => .PrivateNode

/-- One hostname handed out: who asked, the index and the name. -/
structure Allocation where
  creation : Creation
  index : Int
  name : String
  deriving DecidableEq, Repr

/-- The counter of the Nodes group that a creation increments. -/
def Creation.counter (c : Creation) (nodesV1 : Nodes) : Int :=
  match c with
  | .master => nodesV1.MasterLastIndex
  | .node true => nodesV1.PublicLastIndex
  | .node false => nodesV1.PrivateLastIndex

/-- A sequence of hostname allocations, each one a complete write-lock scope on the Nodes
group: the hostnames handed out, in order. Calls whose lock scope fails hand out nothing. -/
def allocate (clusterName : String) : List (Creation × LockOutcome) → Nodes → List Allocation
  | [], _ => []
  | (c, lock) :: rest, nodesV1 =>
    match buildHostname clusterName c.core c.nodeType lock nodesV1 with
    | ((name, none), nodesV1') =>
      { creation := c, index := c.counter nodesV1', name := name }
        :: allocate clusterName rest nodesV1'
    | ((_, some _), nodesV1') => allocate clusterName rest nodesV1'

/-- The hostname `Cluster.Name-coreName-index` expected for a creation and an index. -/
def hostname (clusterName : String) (c : Creation) (index : Int) : String :=
  clusterName ++ "-"
    ++ (match c with
        | .master => "master"
        | .node true => "pub" ++ "node"
        | .node false => "node")
    ++ "-" ++ Itoa index

/-- No counter leaves the range of a Go `int` during the calls: every counter starts in the
range and has room for one increment per call of its kind. -/
def NoOverflow (nodesV1 : Nodes) (calls : List (Creation × LockOutcome)) : Prop :=
  ∀ c : Creation, -2 ^ 63 ≤ c.counter nodesV1
    ∧ c.counter nodesV1 + ((calls.filter (fun x => x.1 = c)).length : Int) ≤ maxInt

/-- The indices handed out to one kind of creation, in order. -/
def indicesOf (c : Creation) (l : List Allocation) : List Int :=
  (l.filter (fun a => a.creation = c)).map Allocation.index

/-! ## Construction of a cluster

`Blueprint.Construct` is embedded as a function of the outcomes of everything it calls (a
`World`) to the value it returns and the trace of its own actions, in program order. The Go
function is cut at the places where it may return; each piece ends with a `return` or goes
on with the next piece. -/

/-- The goroutines launched by `Construct`. -/
inductive Task where
  | installGateway
  | createMasters
  | createNodes (public_ : Bool)
  | configureGateway
  | configureMasters
  | configureNodes (public_ : Bool)
  deriving DecidableEq, Repr

/-- The states of a cluster named by `Construct`. -/
inductive ClusterState where
  | Unknown
  | Creating
  | Created
  deriving DecidableEq, Repr

/-- The actions of `Construct` that are observed. -/
inductive Event where
  /-- the call `broker.Network.Create(def, ...)` (line 183) -/
  | createNetwork (name cidr : String)
  /-- the call `svc.CreateKeyPair(kpName)` (line 239) -/
  | createKeyPair (name : String)
  /-- the write of the Defaults group (lines 253-260) -/
  | writeDefaults (gatewayDef masterDef nodeDef : HostDefinition) (image : String)
  /-- an assignment of the State group (lines 266 and 438) -/
  | setState (state : ClusterState)
  /-- the write of the Composite group (line 274) -/
  | writeTenants (tenants : List String)
  /-- the write of the Network group (lines 282-288) -/
  | writeNetwork (networkID gatewayID cidr : String)
  /-- a `go` statement -/
  | start (task : Task)
  /-- a receive from the channel of a task, with the value received -/
  | receive (task : Task) (status : Err)
  /-- the call of `configureCluster` (line 430) -/
  | configureCluster
  /-- the call `broker.Network.Delete` (line 193) -/
  | deleteNetwork (networkID : String)
  /-- the call `b.Cluster.DeleteMetadata()` (line 297) -/
  | deleteMetadata
  /-- the call `Host.Delete(b.Cluster.ListMasterIDs())` (line 342) -/
  | deleteMasters (ids : List String)
  /-- the calls `Host.Delete(b.Cluster.ListNodeIDs(public))` (lines 376 and 380) -/
  | deleteNodes (public_ : Bool) (ids : List String)
  deriving DecidableEq, Repr

/-- Whether an event is a deletion of a resource or of the metadata. -/
def Event.isDeletion : Event → Bool
  | .deleteNetwork _ => true
  | .deleteMetadata => true
  | .deleteMasters _ => true
  | .deleteNodes _ _ => true
  | _ => false

/-- Whether an event belongs to the part of `Construct` that precedes the launch of tasks. -/
def Event.isSetup : Event → Bool
  | .createNetwork _ _ => true
  | .createKeyPair _ => true
  | .writeDefaults _ _ _ _ => true
  | .setState .Creating => true
  | .writeTenants _ => true
  | .writeNetwork _ _ _ => true
  | _ => false

/-- The part of `Construct` that performs an event: 1 for the setup up to the seeding of the
metadata, 2 for steps 1 and 2 (lines 316-334), 3 for steps 4 and 5 and the join of the node
creations (lines 349-367), 4 for step 6 (lines 387-407), 5 for the cluster-wide configuration
(lines 428-441), 6 for the deferred deletions. -/
def Event.phase : Event → Nat
  | .createNetwork _ _ => 1
  | .createKeyPair _ => 1
  | .writeDefaults _ _ _ _ => 1
  | .setState .Creating => 1
  | .writeTenants _ => 1
  | .writeNetwork _ _ _ => 1
  | .start .installGateway => 2
  | .start .createMasters => 2
  | .start (.createNodes _) => 2
  | .receive .installGateway _ => 2
  | .receive .createMasters _ => 2
  | .start .configureGateway => 3
  | .start .configureMasters => 3
  | .receive .configureGateway _ => 3
  | .receive .configureMasters _ => 3
  | .receive (.createNodes _) _ => 3
  | .start (.configureNodes _) => 4
  | .receive (.configureNodes _) _ => 4
  | .configureCluster => 5
  | .setState .Created => 5
  | .deleteNetwork _ => 6
  | .deleteMetadata => 6
  | .deleteMasters _ => 6
  | .deleteNodes _ _ => 6
  | .setState .Unknown => 0

/-- Every occurrence of `b` in the trace has an occurrence of `a` before it. -/
def precededBy (a b : Event) : List Event → Bool
  | [] => true
  | e :: rest => if e = a then true else if e = b then false else precededBy a b rest

/-- Modelled from the spec: what `Controller.UpdateMetadata` does besides running its
callback. The spec only says that it persists the metadata of the cluster; it may fail on its
own before the callback is run (loading the metadata) or after it (writing them). -/
inductive UpdateOutcome where
  | ok
  | failedBefore (msg : String)
  | failedAfter (msg : String)
  deriving DecidableEq, Repr

/-- Modelled from the spec: `Controller.UpdateMetadata(updatefn)`, whose source is not among
the files at hand, runs the callback and persists the metadata of the cluster. It returns the
error of the callback when the callback fails, and may fail on its own before the callback
is run or when persisting after it. `s` holds the variables the callback assigns, as they
are when it is not run; `updatefn` is the result of the callback: its error, the events it
performed and the variables it assigned. -/
def UpdateMetadata {σ : Type} (out : UpdateOutcome) (s : σ) (updatefn : Err × List Event × σ) :
    Err × List Event × σ :=
  match out with
  | .failedBefore msg => (some msg, [], s)
  | .ok => updatefn
  | .failedAfter msg =>
    match updatefn with
    | (some e, evs, s') => (some e, evs, s')
    | (none, evs, s') => (some msg, evs, s')

/-- The fields of the request read by `Construct`. -/
structure Request where
  Name : String
  CIDR : String
  Tenant : String
  NodesDef : Option HostDefinition
  KeepOnFailure : Bool

/-- The outcome of everything `Construct` calls during one run. A field is read only if the
run reaches the call. -/
structure World where
  /-- the function `strings.ToLower` -/
  ToLower : String → String
  /-- the function `brokerclient.DecorateError`, on the text of a non-nil error -/
  DecorateError : String → String
  /-- error of `utils.GeneratePassword` -/
  GeneratePassword : Err
  /-- result of the actor `DefaultImage`, when defined -/
  DefaultImage : Option String
  /-- result of the actor `DefaultGatewaySizing`, when defined -/
  DefaultGatewaySizing : Option HostDefinition
  /-- result of the actor `DefaultMasterSizing`, when defined -/
  DefaultMasterSizing : Option HostDefinition
  /-- result of the actor `DefaultNodeSizing`, when defined -/
  DefaultNodeSizing : Option HostDefinition
  /-- result of `broker.Network.Create`: an error, or the ID of the network -/
  NetworkCreate : Except String String
  /-- error of `broker.Tenant.Get` -/
  TenantGet : Err
  /-- error of `providers.GetService` -/
  GetService : Err
  /-- error of `providermetadata.NewGateway` -/
  NewGateway : Err
  /-- result of `m.Read()` on the gateway metadata -/
  GatewayRead : Bool × Err
  /-- ID of the gateway, `m.Get().ID` -/
  GatewayID : String
  /-- error of `broker.Ssh.WaitReady` -/
  WaitReady : Err
  /-- error of `svc.CreateKeyPair` -/
  CreateKeyPair : Err
  /-- the metadata update and the four lock scopes of lines 252-290 -/
  seedUpdate : UpdateOutcome
  seedDefaults : LockOutcome
  seedState : LockOutcome
  seedComposite : LockOutcome
  seedNetwork : LockOutcome
  /-- the metadata update of lines 316-334 -/
  topologyUpdate : UpdateOutcome
  /-- values sent by the tasks launched at lines 318-328 -/
  installGateway : Err
  createMasters : Err
  createNodes : Bool → Err
  /-- the metadata update of lines 349-367 -/
  configurationUpdate : UpdateOutcome
  /-- values sent by the tasks launched at lines 353 and 360 -/
  configureGateway : Err
  configureMasters : Err
  /-- the metadata update of lines 387-407 -/
  nodesUpdate : UpdateOutcome
  /-- values sent by the tasks launched at lines 393 and 397 -/
  configureNodes : Bool → Err
  /-- the metadata update of lines 428-441, the result of `configureCluster` and the lock
  scope of lines 436-440 -/
  finalUpdate : UpdateOutcome
  configureCluster : Err
  finalState : LockOutcome
  /-- results of `b.Cluster.ListMasterIDs()` and `b.Cluster.ListNodeIDs(public)` when the deferred
  functions run -/
  ListMasterIDs : List String
  ListNodeIDs : Bool → List String

/-- What a run of `Construct` returns and does. -/
structure Run where
  result : Err
  trace : List Event

/-- The events `evs`, then the run `r`. -/
def Run.after (evs : List Event) (r : Run) : Run := { r with trace := evs ++ r.trace }

/-- The deferred functions registered by `Construct`. -/
inductive Deferred where
  /-- lines 191-198 -/
  | network (networkID : String)
  /-- lines 295-302 -/
  | metadata
  /-- lines 340-347 -/
  | masters
  /-- lines 373-385 -/
  | nodes
  deriving DecidableEq, Repr

/-- One deferred function, run with the value `err` of the local variable `err`. -/
def Construct.deferred (w : World) (req : Request) (err : Err) : Deferred → List Event
  | .network networkID =>
    if err ≠ none ∧ ¬ req.KeepOnFailure then [.deleteNetwork networkID] else []
  | .metadata =>
    if err ≠ none ∧ ¬ req.KeepOnFailure then [.deleteMetadata] else []
  | .masters =>
    if err ≠ none ∧ ¬ req.KeepOnFailure then [.deleteMasters w.ListMasterIDs] else []
  | .nodes =>
    if err ≠ none ∧ ¬ req.KeepOnFailure then
      [.deleteNodes false (w.ListNodeIDs false), .deleteNodes true (w.ListNodeIDs true)]
    else []

/-- The deferred functions, last registered first (`defers` is the stack, top first). -/
def Construct.runDeferred (w : World) (req : Request) (err : Err) : List Deferred → List Event
  | [] => []
  | d :: rest => Construct.deferred w req err d ++ Construct.runDeferred w req err rest

/-- A `return ret` of `Construct`: `Construct` has no named result, so the deferred functions
see the local variable `err`, whose value is `err`, and not the value returned. -/
def Construct.leave (w : World) (req : Request) (defers : List Deferred) (err ret : Err) : Run :=
  { result := ret, trace := Construct.runDeferred w req err defers }

/-- A write-lock scope of `Construct` whose callback performs `evs` and returns `nil`: the
error of the scope and the events performed. -/
def Construct.scope (out : LockOutcome) (evs : List Event) : Err × List Event :=
  LockForWrite.ThenUse out (fun done => done ++ evs) []

/-- The callback of lines 428-441: `configureCluster`, then the write of State = Created. -/
def Construct.clusterConfiguration.updatefn (w : World) : Err × List Event × Unit :=
  match w.configureCluster with
  | some e => (some e, [.configureCluster], ())
  | none =>
    let (e, evs) := Construct.scope w.finalState [.setState .Created]
    (e, .configureCluster :: evs, ())

/-- Lines 428-441: cluster-wide configuration and State = Created. The local `err` is `nil`
here and is not assigned: the callback declares its own `err`. -/
def Construct.clusterConfiguration (w : World) (req : Request) (defers : List Deferred) : Run :=
  let (ret, evs, _) :=
    UpdateMetadata w.finalUpdate () (Construct.clusterConfiguration.updatefn w)
  Run.after evs (Construct.leave w req defers none ret)

/-- Lines 411-426: the first status that is not `nil` is assigned to `err` and returned. -/
def Construct.propagateStatus (w : World) (req : Request) (defers : List Deferred)
    (gatewayStatus mastersStatus privateNodesStatus publicNodesStatus : Err) : Run :=
  if gatewayStatus ≠ none then Construct.leave w req defers gatewayStatus gatewayStatus
  else if mastersStatus ≠ none then Construct.leave w req defers mastersStatus mastersStatus
  else if privateNodesStatus ≠ none then
    Construct.leave w req defers privateNodesStatus privateNodesStatus
  else if publicNodesStatus ≠ none then
    Construct.leave w req defers publicNodesStatus publicNodesStatus
  else Construct.clusterConfiguration w req defers

/-- The callback of lines 387-407 (step 6): its events and the values it leaves in
`privateNodesStatus` and `publicNodesStatus`; it returns `nil`. -/
def Construct.nodesConfiguration.updatefn (w : World)
    (gatewayStatus mastersStatus privateNodesStatus publicNodesStatus : Err) :
    Err × List Event × Err × Err :=
  if gatewayStatus = none ∧ mastersStatus = none then
    let evs1 := if privateNodesStatus = none then [Event.start (.configureNodes false)] else []
    let evs2 := if publicNodesStatus = none then [Event.start (.configureNodes true)] else []
    let (evs3, privateNodesStatus') :=
      if privateNodesStatus = none then
        ([Event.receive (.configureNodes false) (w.configureNodes false)],
          w.configureNodes false)
      else ([], privateNodesStatus)
    let (evs4, publicNodesStatus') :=
      if publicNodesStatus = none then
        ([Event.receive (.configureNodes true) (w.configureNodes true)],
          w.configureNodes true)
      else ([], publicNodesStatus)
    (none, evs1 ++ evs2 ++ evs3 ++ evs4, privateNodesStatus', publicNodesStatus')
  else (none, [], privateNodesStatus, publicNodesStatus)

/-- Lines 372-410: the deferred deletion of the nodes is registered, then step 6. -/
def Construct.nodesConfiguration (w : World) (req : Request) (defers : List Deferred)
    (gatewayStatus mastersStatus privateNodesStatus publicNodesStatus : Err) : Run :=
  let defers := Deferred.nodes :: defers
  let (err, evs, privateNodesStatus, publicNodesStatus) :=
    UpdateMetadata w.nodesUpdate (privateNodesStatus, publicNodesStatus)
      (Construct.nodesConfiguration.updatefn w gatewayStatus mastersStatus privateNodesStatus
        publicNodesStatus)
  Run.after evs <|
    if err ≠ none then Construct.leave w req defers err err
    else Construct.propagateStatus w req defers gatewayStatus mastersStatus privateNodesStatus
      publicNodesStatus

/-- The callback of lines 349-367 (steps 4 and 5 and the join of the node creations): its
events and the values it leaves in the four status variables; it returns `nil`. -/
def Construct.configuration.updatefn (w : World) (gatewayStatus mastersStatus : Err) :
    Err × List Event × Err × Err × Err × Err :=
  let (evs1, gatewayStatus) :=
    if gatewayStatus = none ∧ mastersStatus = none then
      ([Event.start .configureGateway, Event.receive .configureGateway w.configureGateway],
        w.configureGateway)
    else ([], gatewayStatus)
  let (evs2, mastersStatus) :=
    if gatewayStatus = none ∧ mastersStatus = none then
      ([Event.start .configureMasters, Event.receive .configureMasters w.configureMasters],
        w.configureMasters)
    else ([], mastersStatus)
  (none,
    evs1 ++ evs2 ++ [Event.receive (.createNodes false) (w.createNodes false),
      Event.receive (.createNodes true) (w.createNodes true)],
    gatewayStatus, mastersStatus, w.createNodes false, w.createNodes true)

/-- Lines 339-370: the deferred deletion of the masters is registered, then steps 4 and 5 and
the join of the node creations. -/
def Construct.configuration (w : World) (req : Request) (defers : List Deferred)
    (gatewayStatus mastersStatus : Err) : Run :=
  let defers := Deferred.masters :: defers
  let (err, evs, gatewayStatus, mastersStatus, privateNodesStatus, publicNodesStatus) :=
    UpdateMetadata w.configurationUpdate (gatewayStatus, mastersStatus, none, none)
      (Construct.configuration.updatefn w gatewayStatus mastersStatus)
  Run.after evs <|
    if err ≠ none then Construct.leave w req defers err err
    else Construct.nodesConfiguration w req defers gatewayStatus mastersStatus
      privateNodesStatus publicNodesStatus

/-- The callback of lines 316-334 (steps 1 and 2): the four tasks are launched, the gateway
installation and the master creation are awaited; it returns `nil`. -/
def Construct.topology.updatefn (w : World) : Err × List Event × Err × Err :=
  (none,
    [.start .installGateway, .start .createMasters, .start (.createNodes false),
      .start (.createNodes true), .receive .installGateway w.installGateway,
      .receive .createMasters w.createMasters],
    w.installGateway, w.createMasters)

/-- Lines 304-337: steps 1 and 2. -/
def Construct.topology (w : World) (req : Request) (defers : List Deferred) : Run :=
  let (err, evs, gatewayStatus, mastersStatus) :=
    UpdateMetadata w.topologyUpdate (none, none) (Construct.topology.updatefn w)
  Run.after evs <|
    if err ≠ none then Construct.leave w req defers err err
    else Construct.configuration w req defers gatewayStatus mastersStatus

/-- The callback of lines 252-290: four write-lock scopes, the second one sets State to
Creating. -/
def Construct.seedMetadata.updatefn (w : World) (req : Request) (networkID imageID : String)
    (gatewayDef masterDef nodeDef : HostDefinition) : Err × List Event × Unit :=
  let (e, evs1) :=
    Construct.scope w.seedDefaults [.writeDefaults gatewayDef masterDef nodeDef imageID]
  if e ≠ none then (e, evs1, ())
  else
    let (e, evs2) := Construct.scope w.seedState [.setState .Creating]
    if e ≠ none then (e, evs1 ++ evs2, ())
    else
      let (e, evs3) := Construct.scope w.seedComposite [.writeTenants [req.Tenant]]
      if e ≠ none then (e, evs1 ++ evs2 ++ evs3, ())
      else
        let (e, evs4) :=
          Construct.scope w.seedNetwork [.writeNetwork networkID w.GatewayID req.CIDR]
        (e, evs1 ++ evs2 ++ evs3 ++ evs4, ())

/-- Lines 244-302: the metadata of the cluster is seeded, with State = Creating, and the
deferred deletion of the metadata is registered. `name` is the lowered name of the request. -/
def Construct.seedMetadata (w : World) (req : Request) (defers : List Deferred)
    (name networkID imageID : String) (gatewayDef masterDef nodeDef : HostDefinition) : Run :=
  let (err, evs, _) :=
    UpdateMetadata w.seedUpdate ()
      (Construct.seedMetadata.updatefn w req networkID imageID gatewayDef masterDef nodeDef)
  Run.after evs <|
    match err with
    | some e =>
      Construct.leave w req defers err (some ("[cluster " ++ name ++ "] creation failed: " ++ e))
    | none => Construct.topology w req (Deferred.metadata :: defers)

/-- Lines 200-242: tenant, service, gateway metadata, SSH readiness and key pair. -/
def Construct.gateway (w : World) (req : Request) (defers : List Deferred)
    (name networkID imageID : String) (gatewayDef masterDef nodeDef : HostDefinition) : Run :=
  match w.TenantGet with
  | some e => Construct.leave w req defers (some e) (some e)
  | none =>
  match w.GetService with
  | some e => Construct.leave w req defers (some e) (some e)
  | none =>
  match w.NewGateway with
  | some e => Construct.leave w req defers (some e) (some e)
  | none =>
  match w.GatewayRead with
  | (_, some e) => Construct.leave w req defers (some e) (some e)
  | (false, none) =>
    Construct.leave w req defers none
      (some ("[cluster " ++ name ++ "] failed to load gateway metadata"))
  | (true, none) =>
  match w.WaitReady with
  | some e => Construct.leave w req defers (some e) (some (w.DecorateError e))
  | none =>
  Run.after [.createKeyPair ("cluster_" ++ name ++ "_cladm_key")] <|
  match w.CreateKeyPair with
  | some e =>
    Construct.leave w req defers (some e)
      (some ("[cluster " ++ name ++ "] failed to create Key Pair: " ++ e))
  | none => Construct.seedMetadata w req defers name networkID imageID gatewayDef masterDef nodeDef

/-- Embedding of `Blueprint.Construct` (blueprint.go, lines 105-442). -/
def Construct (w : World) (req : Request) : Run :=
  match w.GeneratePassword with
  | some e =>
    Construct.leave w req [] (some e)
      (some ("[cluster " ++ req.Name ++ "] failed to generate password for user cladm: " ++ e))
  | none =>
  let imageID := match w.DefaultImage with
    | some image => image
    | none => "Ubuntu 18.04"
  let gatewayDef : HostDefinition :=
    match w.DefaultGatewaySizing with
    | some d => { d with ImageID := imageID }
    | none =>
      { Cores := 2, RAMSize := 7, DiskSize := 60, GPUNumber := 0, CPUFreq := 0,
        ImageID := imageID }
  let masterDef : HostDefinition :=
    match w.DefaultMasterSizing with
    | some d => { d with ImageID := imageID }
    | none =>
      { Cores := 4, RAMSize := 15, DiskSize := 100, GPUNumber := 0, CPUFreq := 0,
        ImageID := imageID }
  let nodeDef := Construct.nodeSizing w.DefaultNodeSizing imageID req.NodesDef
  let name := w.ToLower req.Name
  let networkName := "net-" ++ name
  Run.after [.createNetwork networkName req.CIDR] <|
  match w.NetworkCreate with
  | .error e =>
    let err := some ("[cluster " ++ name ++ "] failed to create Network \x27" ++ networkName
      ++ "\x27: " ++ e)
    Construct.leave w req [] err err
  | .ok networkID =>
    Construct.gateway w req [Deferred.network networkID] name networkID imageID gatewayDef
      masterDef nodeDef

/-- A run that either returns an error after events of the setup only, or reaches the launch
of the tasks (line 316) after having set State to Creating, with the deferred deletions of the
network and of the metadata registered. -/
def Construct.SetupThen (w : World) (req : Request) (r : Run) : Prop :=
  ∃ evs, (∀ e ∈ evs, e.isSetup = true) ∧
    ((∃ defers err ret, ret ≠ none ∧
        r = Run.after evs (Construct.leave w req defers err ret))
      ∨ (∃ networkID, Event.setState .Creating ∈ evs ∧
        r = Run.after evs (Construct.topology w req [.metadata, .network networkID])))

/-- Every task of the run reported success and `configureCluster` succeeded. -/
def World.AllSucceeded (w : World) : Prop :=
  w.installGateway = none ∧ w.createMasters = none ∧ w.configureGateway = none
    ∧ w.configureMasters = none ∧ (∀ p, w.createNodes p = none)
    ∧ (∀ p, w.configureNodes p = none) ∧ w.configureCluster = none

/-- Persisting the last write failed after the callback had run: the lock scope that sets
State to Created (lines 436-440) or the metadata update around it (line 428). -/
def World.PersistFailed (w : World) : Prop :=
  (∃ m, w.finalState = .failedAfter m) ∨ (∃ m, w.finalUpdate = .failedAfter m)

/-- A world in which every call succeeds: two masters, one private and one public node. -/
def World.success : World where
  ToLower := fun s => s
  DecorateError := fun s => s
  GeneratePassword := none
  DefaultImage := none
  DefaultGatewaySizing := none
  DefaultMasterSizing := none
  DefaultNodeSizing := none
  NetworkCreate := .ok "net-id"
  TenantGet := none
  GetService := none
  NewGateway := none
  GatewayRead := (true, none)
  GatewayID := "gw-id"
  WaitReady := none
  CreateKeyPair := none
  seedUpdate := .ok
  seedDefaults := .ok
  seedState := .ok
  seedComposite := .ok
  seedNetwork := .ok
  topologyUpdate := .ok
  installGateway := none
  createMasters := none
  createNodes := fun _ => none
  configurationUpdate := .ok
  configureGateway := none
  configureMasters := none
  nodesUpdate := .ok
  configureNodes := fun _ => none
  finalUpdate := .ok
  configureCluster := none
  finalState := .ok
  ListMasterIDs := ["master-1", "master-2"]
  ListNodeIDs := fun public_ => if public_ then ["pubnode-1"] else ["node-1"]

/-- A request for a cluster named `c1`, with the given keep-on-failure flag. -/
def Request.sample (keepOnFailure : Bool) : Request where
  Name := "c1"
  CIDR := "192.168.0.0/24"
  Tenant := "tenant"
  NodesDef := none
  KeepOnFailure := keepOnFailure

/-- The run reaches line 372 with the four deferred functions registered: the setup and the
seeding of the metadata succeed, for the network `networkID`, and so do the metadata updates
around steps 1 to 5. -/
def World.Reaches (w : World) (networkID : String) : Prop :=
  w.GeneratePassword = none ∧ w.NetworkCreate = .ok networkID ∧ w.TenantGet = none
    ∧ w.GetService = none ∧ w.NewGateway = none ∧ w.GatewayRead = (true, none)
    ∧ w.WaitReady = none ∧ w.CreateKeyPair = none ∧ w.seedUpdate = .ok ∧ w.seedDefaults = .ok
    ∧ w.seedState = .ok ∧ w.seedComposite = .ok ∧ w.seedNetwork = .ok
    ∧ w.topologyUpdate = .ok ∧ w.configurationUpdate = .ok

/-- The first error in a list of statuses. -/
def firstError : List Err → Err
  | [] => none
  | none :: rest => firstError rest
  | some e :: _ => some e

/-- The error of the first task that failed, in the order in which `Construct` looks at the
tasks: gateway installation, master creation, gateway configuration, master configuration,
then creation and configuration of the private nodes, then of the public nodes. -/
def World.firstFailure (w : World) : Err :=
  firstError [w.installGateway, w.createMasters, w.configureGateway, w.configureMasters,
    w.createNodes false, w.configureNodes false, w.createNodes true, w.configureNodes true]

/-- The run, having reached line 372, ends with a non-nil `err`: the metadata update of step 6
fails, or a task has reported an error. -/
def World.EndsWithErr (w : World) : Prop := w.nodesUpdate ≠ .ok ∨ w.firstFailure ≠ none

/-- What a fan-out helper does with its tasks and channels: the launch of the task of index
`i`, the receipt of the value task `i` sent on its channel `result`, the receipt of the value
task `i` sent on its channel `done`, and the value the helper sends on its own channel. -/
inductive FanEvent where
  | launch (i : Nat)
  | receiveResult (i : Nat)
  | receiveDone (i : Nat)
  | send (state : Err)
  deriving DecidableEq, Repr

/-- Tells the event that reports to the caller. -/
def FanEvent.isSend : FanEvent → Bool
  | .send _ => true
  | _ => false

/-- The part of `asyncCreateMasters` that follows the launch of the tasks `dones` (lines
873-890): the communications of the helper, the launches included, and the value sent on
`done`. -/
def asyncCreateMasters.collect (dones : List Nat) (task : Nat → Err) : List FanEvent × Err :=
  let launched : List FanEvent := dones.map .launch
  let states : List Err := dones.map task
  let received : List FanEvent := dones.map .receiveDone
  let errors : List String := states.filterMap id
  if errors.length > 0 then
    let msg := strings.Join errors "\n"
    (launched ++ received ++ [.send (some (fmt.Errorf msg))], some (fmt.Errorf msg))
  else (launched ++ received ++ [.send none], none)

/-- Embedding of `Blueprint.asyncCreateMasters` (blueprint.go, lines 853-891) with its
communications: `task i` is the value that the task `asyncCreateMaster(i, ...)` sends on its
channel. The result is the list of the communications, in the order of the program, and the
value sent on `done`; it is `none` when `fuel` turns do not end the loop that launches the
tasks. -/
def asyncCreateMasters.run (fuel : Nat) (count : Int) (task : Nat → Err) :
    Option (List FanEvent × Err) :=
  if count ≤ 0 then some ([.send none], none)
  else
    (fanOut.indices fuel 1 count).map
      (fun indices => asyncCreateMasters.collect (indices.map Int.toNat) task)

/-- The part of `asyncCreateNodes` that follows the launch of the tasks `dones` (lines
1057-1071). -/
def asyncCreateNodes.collect (dones : List Nat) (nodeType : NodeType)
    (task : Nat → NodeType → Err) : List FanEvent × Err :=
  let launched : List FanEvent := dones.map .launch
  let states : List Err := dones.map (fun i => task i nodeType)
  let received : List FanEvent := dones.flatMap (fun i => [.receiveResult i, .receiveDone i])
  let errors : List String := states.filterMap id
  if errors.length > 0 then
    (launched ++ received ++ [.send (some (fmt.Errorf (strings.Join errors "\n")))],
      some (fmt.Errorf (strings.Join errors "\n")))
  else (launched ++ received ++ [.send none], none)

/-- Embedding of `Blueprint.asyncCreateNodes` (blueprint.go, lines 1023-1072) with its
communications: `task i nodeType` is the value that the task `asyncCreateNode(i, nodeType, ...)`
sends on its channel `done` (on its channel `result` it always sends the empty string). The
result is the list of the communications, in the order of the program, and the value sent on
`done`; it is `none` when `fuel` turns do not end the loop that launches the tasks. -/
def asyncCreateNodes.run (fuel : Nat) (count : Int) (public_ : Bool)
    (task : Nat → NodeType → Err) : Option (List FanEvent × Err) :=
  let nodeType : NodeType := if public_ then .PublicNode else .PrivateNode
  if count ≤ 0 then some ([.send none], none)
  else
    (fanOut.indices fuel 1 count).map
      (fun indices => asyncCreateNodes.collect (indices.map Int.toNat) nodeType task)

/-- Embedding of `Blueprint.asyncCreateNodes`: the value sent on `done`. -/
def asyncCreateNodes (fuel : Nat) (count : Int) (public_ : Bool)
    (task : Nat → NodeType → Err) : Option Err :=
  (asyncCreateNodes.run fuel count public_ task).map (fun r => r.2)

/-! ## Optional features -/

/-- Modelled from the spec: the payload `clusterpropsv1.Features` of the property group
Features, of which the orchestrator uses the set `Disabled` (a Go map from feature name to
the empty struct, here the list of its keys). -/
structure Features where
  Disabled : List String
  deriving DecidableEq, Repr

/-- The assignment of the empty struct to `Disabled[key]`, a Go map used as a set. -/
def Features.disable (key : String) (v : Features) : Features :=
  { v with Disabled := v.Disabled.insert key }

/-- The Go expression `_, disabled = Disabled[key]`: tells whether `key` is a key of the
map. -/
def Features.isDisabled (key : String) (v : Features) : Bool := decide (key ∈ v.Disabled)

/-- Modelled from the spec: what `feature.Add(target, ...)` of the Feature Installer gives:
results that are successful, an error, or results that are not successful, with the text of
`results.AllErrorMessages()`. -/
inductive AddOutcome where
  | ok
  | failed (msg : String)
  | unsuccessful (msgs : String)
  deriving DecidableEq, Repr

/-- Modelled from the spec: the Feature Installer (package `install`), whose source is not
among the files at hand, as the outcomes of its calls: `NewFeature name` is the error of
`install.NewFeature(name)`, `Add name` the outcome of `feature.Add` for that feature. -/
structure Installer where
  NewFeature : String → Err
  Add : String → AddOutcome

/-- A call into the Feature Installer. -/
inductive InstallCall where
  | NewFeature (name : String)
  | Add (name : String)
  deriving DecidableEq, Repr

/-- The run of one of the functions that install an optional feature: the error returned, the
calls made into the Feature Installer, in order, and the payload of the Features group
afterwards. -/
structure FeatureRun where
  result : Err
  calls : List InstallCall
  features : Features
  deriving DecidableEq, Repr

/-- Embedding of `Blueprint.installReverseProxy` (blueprint.go, lines 1271-1306): `read` is
the error of the read-lock scope on the Features group. -/
def installReverseProxy (inst : Installer) (hostLabel : String) (read : Err)
    (features : Features) : FeatureRun :=
  let scope : Err × Bool :=
    LockForRead.ThenUse read (fun v : Features => (none, v.isDisabled "reverseproxy")) false
      features
  match scope.1 with
  | some err => { result := some err, calls := [], features := features }
  | none =>
    let disabled := scope.2
    if !disabled then
      match inst.NewFeature "reverseproxy" with
      | some err =>
        let msg := "[" ++ hostLabel ++ "] failed to prepare feature \x27reverseproxy\x27: " ++ err
        { result := some (fmt.Errorf msg), calls := [.NewFeature "reverseproxy"],
          features := features }
      | none =>
        match inst.Add "reverseproxy" with
        | .failed err =>
          let msg :=
            "[" ++ hostLabel ++ "] failed to install feature \x27reverseproxy\x27: " ++ err
          { result := some (fmt.Errorf msg),
            calls := [.NewFeature "reverseproxy", .Add "reverseproxy"], features := features }
        | .unsuccessful msgs =>
          let msg :=
            "[" ++ hostLabel ++ "] failed to install feature \x27reverseproxy\x27: " ++ msgs
          { result := some (fmt.Errorf msg),
            calls := [.NewFeature "reverseproxy", .Add "reverseproxy"], features := features }
        | .ok =>
          { result := none, calls := [.NewFeature "reverseproxy", .Add "reverseproxy"],
            features := features }
    else { result := none, calls := [], features := features }

/-- Embedding of `Blueprint.installRemoteDesktop` (blueprint.go, lines 735-776): `read` is
the error of the read-lock scope on the Features group. -/
def installRemoteDesktop (inst : Installer) (read : Err) (features : Features) : FeatureRun :=
  let scope : Err × Bool :=
    LockForRead.ThenUse read (fun v : Features => (none, v.isDisabled "remotedesktop")) false
      features
  match scope.1 with
  | some err => { result := some err, calls := [], features := features }
  | none =>
    let disabled := scope.2
    if !disabled then
      match inst.NewFeature "remotedesktop" with
      | some err =>
        { result := some err, calls := [.NewFeature "remotedesktop"], features := features }
      | none =>
        match inst.Add "remotedesktop" with
        | .failed err =>
          { result := some err, calls := [.NewFeature "remotedesktop", .Add "remotedesktop"],
            features := features }
        | .unsuccessful msg =>
          { result := some (fmt.Errorf msg),
            calls := [.NewFeature "remotedesktop", .Add "remotedesktop"], features := features }
        | .ok =>
          { result := none, calls := [.NewFeature "remotedesktop", .Add "remotedesktop"],
            features := features }
    else { result := none, calls := [], features := features }

/-- The body shared, up to the name of the feature, by `installProxyCacheClient` and
`installProxyCacheServer`: `lock` is the outcome of the write-lock scope on the Features
group, `read` the error of the read-lock scope that follows, `hostName` is `pbHost.Name`. -/
def installProxyCache (name : String) (inst : Installer) (hostName : String)
    (lock : LockOutcome) (read : Err) (features : Features) : FeatureRun :=
  let written : Err × Features :=
    LockForWrite.ThenUse lock (Features.disable "proxycache") features
  match written.1 with
  | some err => { result := some err, calls := [], features := written.2 }
  | none =>
    let scope : Err × Bool :=
      LockForRead.ThenUse read (fun v : Features => (none, v.isDisabled "proxycache")) false
        written.2
    match scope.1 with
    | some err => { result := some err, calls := [], features := written.2 }
    | none =>
      let disabled := scope.2
      if !disabled then
        match inst.NewFeature name with
        | some err =>
          { result := some ("failed to install feature \x27" ++ name ++ "\x27: " ++ err),
            calls := [.NewFeature name], features := written.2 }
        | none =>
          match inst.Add name with
          | .failed err =>
            { result := some ("failed to install feature \x27" ++ name ++ "\x27 on host \x27"
                ++ hostName ++ "\x27: " ++ err),
              calls := [.NewFeature name, .Add name], features := written.2 }
          | .unsuccessful msg =>
            { result := some (fmt.Errorf msg), calls := [.NewFeature name, .Add name],
              features := written.2 }
          | .ok =>
            { result := none, calls := [.NewFeature name, .Add name], features := written.2 }
      else { result := none, calls := [], features := written.2 }

/-- Embedding of `Blueprint.installProxyCacheClient` (blueprint.go, lines 1309-1351). -/
def installProxyCacheClient (inst : Installer) (hostName : String) (lock : LockOutcome)
    (read : Err) (features : Features) : FeatureRun :=
  installProxyCache "proxycache-client" inst hostName lock read features

/-- Embedding of `Blueprint.installProxyCacheServer` (blueprint.go, lines 1354-1396). -/
def installProxyCacheServer (inst : Installer) (hostName : String) (lock : LockOutcome)
    (read : Err) (features : Features) : FeatureRun :=
  installProxyCache "proxycache-server" inst hostName lock read features

/-! ## Creation of one master or node -/

/-- The fields of a host `pb.Host` that the creation tasks use. -/
structure Host where
  ID : String
  Name : String
  PrivateIP : String
  PublicIP : String
  deriving DecidableEq, Repr

/-- What `brokerHost.Create(def, timeout)` returns: a host or an error. -/
inductive HostCreated where
  | ok (pbHost : Host)
  | error (msg : String)
  deriving DecidableEq, Repr

/-- Outcomes of the calls made by one task `asyncCreateMaster` or `asyncCreateNode`:
`hostnameLock` is the write-lock scope of `buildHostname`, `HostCreate name` what
`brokerHost.Create` returns for a definition of that name, `DecorateError` is
`brokerclient.DecorateError`, `appendLock` the write-lock scope that appends the record,
`removeLock` the one that removes it again, `featuresLock` the write-lock scope of
`installProxyCacheClient` and `featuresRead` the error of its read-lock scope, `installer`
the Feature Installer, `installNodeRequirements` what `installNodeRequirements` returns (it
does not write to the property groups). -/
structure TaskWorld where
  hostnameLock : LockOutcome
  HostCreate : String → HostCreated
  DecorateError : String → String
  appendLock : LockOutcome
  removeLock : LockOutcome
  featuresLock : LockOutcome
  featuresRead : Err
  installer : Installer
  installNodeRequirements : Err

/-- The run of one creation task: the value sent on `done`, and the payloads of the Nodes
group and of the Features group afterwards. -/
structure TaskRun where
  done : Err
  nodes : Nodes
  features : Features
  deriving DecidableEq, Repr

/-- The record `clusterpropsv1.Node` built from a host (blueprint.go, lines 927-931 and
1125-1129). -/
def Host.node (pbHost : Host) : Node :=
  { ID := pbHost.ID, PrivateIP := pbHost.PrivateIP, PublicIP := pbHost.PublicIP }

/-- The callback of the write-lock scope of `asyncCreateMaster` (blueprint.go, lines
924-934). -/
def asyncCreateMaster.append (node : Node) (nodesV1 : Nodes) : Nodes :=
  { nodesV1 with Masters := nodesV1.Masters ++ [node] }

/-- The callback of the first write-lock scope of `asyncCreateNode` (blueprint.go, lines
1122-1135). -/
def asyncCreateNode.append (nodeType : NodeType) (node : Node) (nodesV1 : Nodes) : Nodes :=
  if nodeType = .PublicNode then
    { nodesV1 with PublicNodes := nodesV1.PublicNodes ++ [node] }
  else
    { nodesV1 with PrivateNodes := nodesV1.PrivateNodes ++ [node] }

/-- The callback of the second write-lock scope of `asyncCreateNode` (blueprint.go, lines
1138-1146): the list loses its last element (the lists it is applied to are not empty, the
first callback has just appended to them). -/
def asyncCreateNode.remove (nodeType : NodeType) (nodesV1 : Nodes) : Nodes :=
  if nodeType = .PublicNode then
    { nodesV1 with PublicNodes := nodesV1.PublicNodes.dropLast }
  else
    { nodesV1 with PrivateNodes := nodesV1.PrivateNodes.dropLast }

/-- Embedding of `Blueprint.asyncCreateNode` (blueprint.go, lines 1076-1174); before each
value sent on `done` the task sends the empty string on `result`. -/
def asyncCreateNode (w : TaskWorld) (clusterName : String) (nodeType : NodeType)
    (nodesV1 : Nodes) (features : Features) : TaskRun :=
  let named := buildHostname clusterName "node" nodeType w.hostnameLock nodesV1
  match named.1.2 with
  | some err => { done := some err, nodes := named.2, features := features }
  | none =>
    match w.HostCreate named.1.1 with
    | .error err =>
      { done := some (w.DecorateError err), nodes := named.2, features := features }
    | .ok pbHost =>
      let appended := LockForWrite.ThenUse w.appendLock
        (asyncCreateNode.append nodeType pbHost.node) named.2
      match appended.1 with
      | some err =>
        let removed := LockForWrite.ThenUse w.removeLock
          (asyncCreateNode.remove nodeType) appended.2
        { done := some ("failed to create node: " ++ err), nodes := removed.2,
          features := features }
      | none =>
        let proxy := installProxyCacheClient w.installer pbHost.Name w.featuresLock w.featuresRead
          features
        match proxy.result with
        | some err => { done := some err, nodes := appended.2, features := proxy.features }
        | none =>
          match w.installNodeRequirements with
          | some err => { done := some err, nodes := appended.2, features := proxy.features }
          | none => { done := none, nodes := appended.2, features := proxy.features }

/-- A payload of the Nodes group without any record. -/
def Nodes.empty : Nodes :=
  { Masters := [], PublicNodes := [], PrivateNodes := [],
    MasterLastIndex := 0, PrivateLastIndex := 0, PublicLastIndex := 0 }

/-- Outcomes of a task in which every call succeeds, but the installation of the system
requirements. -/
def TaskWorld.requirementsFail : TaskWorld where
  hostnameLock := .ok
  HostCreate := fun name =>
    .ok { ID := "id-" ++ name, Name := name, PrivateIP := "10.0.0.5", PublicIP := "" }
  DecorateError := fun s => s
  appendLock := .ok
  removeLock := .ok
  featuresLock := .ok
  featuresRead := none
  installer := { NewFeature := fun _ => none, Add := fun _ => .ok }
  installNodeRequirements := some "failed to install system requirements"

/-! ## Creation of a network by the broker -/

/-- What a call that returns a value and an error gives: the value, or the error `msg`. -/
inductive Returned (α : Type) where
  | ok (value : α)
  | error (msg : String)
  deriving DecidableEq, Repr

/-- The fields of `api.Network` that `NetworkService.Create` uses. -/
structure api.Network where
  ID : String
  Name : String
  deriving DecidableEq, Repr

/-- The request `api.GWRequest` built by `NetworkService.Create`. -/
structure api.GWRequest where
  ImageID : String
  NetworkID : String
  KeyPair : String
  TemplateID : String
  GWName : String
  deriving DecidableEq, Repr

/-- A call to the provider made by `NetworkService.Create`, with the arguments the function
chooses. -/
inductive ProviderCall where
  | CreateNetwork (name cidr : String)
  | DeleteNetwork (id : String)
  | SelectTemplatesBySize (cpu : Int) (ram : ℚ) (disk : Int)
  | SearchImage (os : String)
  | DeleteKeyPair (name : String)
  | CreateKeyPair (name : String)
  | CreateGateway (req : api.GWRequest)
  | GetNetwork (ref : String)
  deriving DecidableEq, Repr

/-- Tells the calls of `DeleteNetwork`. -/
def ProviderCall.isDeleteNetwork : ProviderCall → Bool
  | .DeleteNetwork _ => true
  | _ => false

/-- Outcomes of the calls that `NetworkService.Create` makes to the provider: templates,
images and key pairs are represented by their identifiers. `Quote` is the text the Go library
prints for a string under the verb `%q`, `FormatFloat` the text it prints for a `float32`
under `%v`. -/
structure NetworkProvider where
  CreateNetwork : Returned api.Network
  SelectTemplatesBySize : Returned (List String)
  SearchImage : Returned String
  CreateKeyPair : Returned String
  CreateGateway : Err
  GetNetwork : Option api.Network × Err
  Quote : String → String
  FormatFloat : ℚ → String

/-- The value given to `panic`: a string (line 81) or an error (lines 78, 85, 93, 106). -/
inductive PanicValue where
  | string (t : String)
  | error (t : String)
  deriving DecidableEq, Repr

/-- How the body of a function ends: by a `return` statement, or by a panic. -/
inductive Completion where
  | returned (rv : Option api.Network) (err : Err)
  | panicked (r : PanicValue)
  deriving DecidableEq, Repr

/-- Embedding of the statements of `NetworkService.Create` that follow the registration of
the deferred function (network.go, lines 71-109): the calls made to the provider, in order,
and how the body ends. -/
def NetworkService.Create.body (p : NetworkProvider) (network : api.Network) (net : String)
    (cpu : Int) (ram : ℚ) (disk : Int) (os gwname : String) :
    List ProviderCall × Completion :=
  match p.SelectTemplatesBySize with
  | .error err => ([.SelectTemplatesBySize cpu ram disk], .panicked (.error err))
  | .ok tpls =>
    match tpls with
    | [] =>
      ([.SelectTemplatesBySize cpu ram disk],
        .panicked (.string ("No template found for " ++ Itoa cpu ++ " cpu, "
          ++ p.FormatFloat ram ++ " ram, " ++ Itoa disk ++ " disk")))
    | tpl :: _ =>
      match p.SearchImage with
      | .error err =>
        ([.SelectTemplatesBySize cpu ram disk, .SearchImage os], .panicked (.error err))
      | .ok img =>
        let keypairName := "kp_" ++ network.Name
        match p.CreateKeyPair with
        | .error err =>
          ([.SelectTemplatesBySize cpu ram disk, .SearchImage os, .DeleteKeyPair keypairName,
            .CreateKeyPair keypairName], .panicked (.error err))
        | .ok keypair =>
          let gwRequest : api.GWRequest :=
            { ImageID := img, NetworkID := network.ID, KeyPair := keypair, TemplateID := tpl,
              GWName := gwname }
          match p.CreateGateway with
          | some err =>
            ([.SelectTemplatesBySize cpu ram disk, .SearchImage os,
              .DeleteKeyPair keypairName, .CreateKeyPair keypairName,
              .CreateGateway gwRequest], .panicked (.error err))
          | none =>
            ([.SelectTemplatesBySize cpu ram disk, .SearchImage os,
              .DeleteKeyPair keypairName, .CreateKeyPair keypairName,
              .CreateGateway gwRequest, .GetNetwork net],
              .returned p.GetNetwork.1 p.GetNetwork.2)

/-- The results of `NetworkService.Create` and the calls it made to the provider. -/
structure NetworkService.CreateRun where
  apinetwork : Option api.Network
  err : Err
  calls : List ProviderCall
  deriving DecidableEq, Repr

/-- Embedding of `NetworkService.Create` (network.go, lines 49-112). The function has the
named results `apinetwork` and `err`; when the body panics, the deferred function (lines
60-70) recovers, calls `DeleteNetwork` and assigns `err`, and `apinetwork` keeps its zero
value. -/
def NetworkService.Create (p : NetworkProvider) (net cidr : String) (cpu : Int) (ram : ℚ)
    (disk : Int) (os gwname : String) : NetworkService.CreateRun :=
  match p.CreateNetwork with
  | .error err => { apinetwork := none, err := some err, calls := [.CreateNetwork net cidr] }
  | .ok network =>
    let body := NetworkService.Create.body p network net cpu ram disk os gwname
    match body.2 with
    | .returned rv err =>
      { apinetwork := rv, err := err, calls := .CreateNetwork net cidr :: body.1 }
    | .panicked r =>
      { apinetwork := none,
        err := (match r with
          | .string t => some (p.Quote t)
          | .error t => some t),
        calls := .CreateNetwork net cidr :: body.1 ++ [.DeleteNetwork network.ID] }

/-- One of the steps that follow the creation of the network fails: the selection of the
templates returns an error or no template, or the search of the image, the creation of the
key pair or the creation of the gateway returns an error. -/
def NetworkProvider.LaterStepFails (p : NetworkProvider) : Prop :=
  (∃ e, p.SelectTemplatesBySize = .error e) ∨ p.SelectTemplatesBySize = .ok []
    ∨ (∃ e, p.SearchImage = .error e) ∨ (∃ e, p.CreateKeyPair = .error e)
    ∨ p.CreateGateway ≠ none

/-- A provider whose calls all succeed, but the creation of the gateway. -/
def NetworkProvider.gatewayFails : NetworkProvider where
  CreateNetwork := .ok { ID := "net-1", Name := "net" }
  SelectTemplatesBySize := .ok ["tpl-1"]
  SearchImage := .ok "img-1"
  CreateKeyPair := .ok "key"
  CreateGateway := some "no floating IP left"
  GetNetwork := (some { ID := "net-1", Name := "net" }, none)
  Quote := fun s => "\"" ++ s ++ "\""
  FormatFloat := fun _ => "1"

/-! ## Shares -/

/-- A Go `error` value with its dynamic type, for the code that tests the type of an error:
`errorString` is made by `errors.New` and `fmt.Errorf`, `ErrNotFound` is `utils.ErrNotFound`,
`ErrResourceNotFound` is made by `resources.ResourceNotFoundError(resource, name)`,
`ErrResourceDuplicate` by `resources.ResourceDuplicateError(resource, name)`; `withStack` and
`withMessage` are the wrappers of the package `github.com/pkg/errors`. -/
inductive GoError where
  | errorString (msg : String)
  | ErrNotFound (msg : String)
  | ErrResourceNotFound (resource name : String)
  | ErrResourceDuplicate (resource name : String)
  | withStack (inner : GoError)
  | withMessage (inner : GoError) (msg : String)
  deriving DecidableEq, Repr

/-- The type assertion `err.(resources.ErrResourceNotFound)`: its second result. -/
def GoError.isErrResourceNotFound : GoError → Bool
  | .ErrResourceNotFound _ _ => true
  | _ => false

/-- The type assertion `err.(utils.ErrNotFound)`: its second result. -/
def GoError.isErrNotFound : GoError → Bool
  | .ErrNotFound _ => true
  | _ => false

/-- The function `errors.WithStack`: nil for nil. -/
def errors.WithStack (err : Option GoError) : Option GoError := err.map .withStack

/-- The function `errors.Wrap`: nil for nil, else the error annotated with the message and
with a stack. -/
def errors.Wrap (err : Option GoError) (message : String) : Option GoError :=
  err.map (fun e => .withStack (.withMessage e message))

/-- Embedding of `infraErr` (logsetup.go, lines 58-66). -/
def infraErr (err : Option GoError) : Option GoError :=
  match err with
  | none => none
  | some e => errors.WithStack (some e)

/-- Embedding of `throwErr` (logsetup.go, lines 49-51). -/
def throwErr (err : Option GoError) : Option GoError := err

/-- Embedding of `logicErr` (logsetup.go, lines 82-88). -/
def logicErr (err : Option GoError) : Option GoError :=
  match err with
  | none => none
  | some e => some e

/-- Embedding of `logicErrf` (logsetup.go, lines 91-98), the message being formatted. -/
def logicErrf (err : Option GoError) (message : String) : Option GoError :=
  match err with
  | none => none
  | some e => errors.Wrap (some e) message

/-- The fields of a share `propsv1.HostShare` that the handler sets in `Create`. -/
structure HostShare where
  ID : String
  Name : String
  Path : String
  Type_ : String
  deriving DecidableEq, Repr

/-- The payload `propsv1.HostShares` of the property group Shares of a host: two Go maps,
here lists of pairs of a key and a value with at most one pair for a key. -/
structure HostShares where
  ByID : List (String × HostShare)
  ByName : List (String × String)
  deriving DecidableEq, Repr

/-- The assignment `m[k] = v` of a Go map. -/
def GoMap.set {α : Type} (m : List (String × α)) (k : String) (v : α) : List (String × α) :=
  (k, v) :: m.filter (fun kv => kv.1 ≠ k)

/-- The statement `delete(m, k)` of a Go map. -/
def GoMap.delete {α : Type} (m : List (String × α)) (k : String) : List (String × α) :=
  m.filter (fun kv => kv.1 ≠ k)

/-- The expression `m[k]` of a Go map, with the flag that tells whether the key is there. -/
def GoMap.get {α : Type} (m : List (String × α)) (k : String) : Option α := m.lookup k

/-- The fields of a host `resources.Host` that the share handler uses, with the payload of
its property group Shares. -/
structure resources.Host where
  ID : String
  Name : String
  Shares : HostShares
  deriving DecidableEq, Repr

/-- Outcomes of the calls made by `ShareHandler.Create` from the export of the path onwards:
`NewV4` is `uuid.NewV4()`, `sharesUpdate` the write-lock scope that records the share,
`sharesRollback` the one that removes it again, `Write` is `mh.Write()`, `Delete` is
`ms.Delete()`, and `cancelled` tells whether the channel `ctx.Done()` is ready at the
checkpoint. -/
structure ShareWorld where
  AddShare : Option GoError
  NewV4 : Returned String
  sharesUpdate : LockOutcome
  SaveHost : Option GoError
  SaveShare : Option GoError
  cancelled : Bool
  RemoveShare : Option GoError
  sharesRollback : LockOutcome
  Write : Option GoError
  Delete : Option GoError

/-- The callback of the write-lock scope that records the share (share.go, lines 163-181):
its error, the payload afterwards and the variable `share` it assigns. -/
def ShareHandler.Create.record (w : ShareWorld) (shareName sharePath : String)
    (serverSharesV1 : HostShares) : (Option GoError × HostShares) × HostShare :=
  match w.NewV4 with
  | .error err =>
    ((logicErrf (some (.errorString err)) "Error creating UUID for share", serverSharesV1),
      { ID := "", Name := shareName, Path := "", Type_ := "" })
  | .ok shareID =>
    let share : HostShare := { ID := shareID, Name := shareName, Path := sharePath, Type_ := "nfs" }
    ((none, { ByID := GoMap.set serverSharesV1.ByID share.ID share,
              ByName := GoMap.set serverSharesV1.ByName share.Name share.ID }), share)

/-- The callback of the write-lock scope of the second deferred function (share.go, lines
191-196). -/
def ShareHandler.Create.forget (share : HostShare) (serverSharesV1 : HostShares) : HostShares :=
  { ByID := GoMap.delete serverSharesV1.ByID share.ID,
    ByName := GoMap.delete serverSharesV1.ByName share.Name }

/-- A remote mount `propsv1.HostRemoteMount`; `ShareHandler.Inspect` sets `Path` and
`FileSystem` only. -/
structure HostRemoteMount where
  ShareID : String
  Export : String
  Path : String
  FileSystem : String
  deriving DecidableEq, Repr

/-- Outcomes of the calls made by `ShareHandler.Inspect`: `LoadShare` is the pair returned
by `metadata.LoadShare`, `ForceInspect` the host or the error returned by
`hostSvc.ForceInspect`, `sharesRead` the error of the read-lock scope on the group Shares of
the host, and `Mounts` the map built by the loop over the clients of the share (share.go,
lines 719-745), where a failure is logged and skipped. -/
structure InspectWorld where
  LoadShare : String × Option GoError
  ForceInspect : Except GoError resources.Host
  sharesRead : Option GoError
  Mounts : List (String × HostRemoteMount)

/-- How `ShareHandler.Inspect` ends: with its four results, or by a panic. -/
inductive Inspected where
  | returned (host : Option resources.Host) (share : Option HostShare)
      (mounts : Option (List (String × HostRemoteMount))) (err : Option GoError)
  | panicked
  deriving Repr

/-- The callback of the read-lock scope of `ShareHandler.Inspect` (share.go, lines 701-714):
its error, and the variables `shareID` and `share` it assigns. -/
def ShareHandler.Inspect.find (shareName : String) (serverSharesV1 : HostShares) :
    Option GoError × String × Option HostShare :=
  let byName := GoMap.get serverSharesV1.ByName shareName
  let shareID : String :=
    match byName with
    | some id => id
    | none => shareName
  let found : Bool :=
    match byName with
    | some _ => true
    | none => (GoMap.get serverSharesV1.ByID shareName).isSome
  if !found then
    (infraErr (some (.ErrResourceNotFound "share"
      ("no share named \x27" ++ shareName ++ "\x27"))), shareID, none)
  else (none, shareID, GoMap.get serverSharesV1.ByID shareID)

/-- Embedding of `ShareHandler.Inspect` (share.go, lines 673-747). When the callback leaves
`share` nil without an error (the name is in `ByName` and its identifier is not in `ByID`),
the loop over `share.ClientsByName` panics. -/
def ShareHandler.Inspect (w : InspectWorld) (shareName : String) : Inspected :=
  match w.LoadShare.2 with
  | some err =>
    if err.isErrNotFound then
      .returned none none none (some (.ErrResourceNotFound "share" shareName))
    else
      .returned none none none (infraErr (errors.Wrap (some err) "error loading share metadata"))
  | none =>
    if w.LoadShare.1 = "" then
      .returned none none none
        (infraErr (errors.Wrap none ("failed to find host sharing \x27" ++ shareName ++ "\x27")))
    else
      match w.ForceInspect with
      | .error err => .returned none none none (throwErr (some err))
      | .ok server =>
        let scope := LockForRead.ThenUse w.sharesRead (ShareHandler.Inspect.find shareName)
          ("", none) server.Shares
        match scope.1 with
        | some err => .returned none none none (some err)
        | none =>
          match scope.2.2 with
          | none => .panicked
          | some share => .returned (some server) (some share) (some w.Mounts) none

/-- How the check for a share of the same name, at the start of `ShareHandler.Create`, ends:
`Create` returns a nil share and the error, or goes on, or `Inspect` has panicked. -/
inductive DuplicateCheck where
  | rejected (err : Option GoError)
  | proceeds
  | panicked
  deriving DecidableEq, Repr

/-- Embedding of the check for a share of the same name at the start of
`ShareHandler.Create` (share.go, lines 81-90), given how the call of `Inspect` ended. -/
def ShareHandler.Create.duplicateCheck (inspected : Inspected) (shareName : String) :
    DuplicateCheck :=
  match inspected with
  | .panicked => .panicked
  | .returned server _ _ err =>
    match err with
    | some e =>
      if !e.isErrResourceNotFound then .rejected (infraErr (some e))
      else
        match server with
        | some _ => .rejected (logicErr (some (.ErrResourceDuplicate "share" shareName)))
        | none => .proceeds
    | none =>
      match server with
      | some _ => .rejected (logicErr (some (.ErrResourceDuplicate "share" shareName)))
      | none => .proceeds

/-- The error that `ShareHandler.Inspect` returns, nil when it panics. -/
def Inspected.err : Inspected → Option GoError
  | .returned _ _ _ err => err
  | .panicked => none

/-- Outcomes of the calls of `Inspect` in which the metadata of the share name the host
`h1`, whose property group Shares holds no share. -/
def InspectWorld.missingOnHost : InspectWorld where
  LoadShare := ("h1", none)
  ForceInspect := .ok { ID := "host-1", Name := "h1", Shares := { ByID := [], ByName := [] } }
  sharesRead := none
  Mounts := []

/-! ## Status propagation -/

/-- The values of the variables `gatewayStatus`, `mastersStatus`, `privateNodesStatus` and
`publicNodesStatus` of `Construct` at line 411, when the metadata updates of steps 1 to 6
succeed: what the callbacks of lines 316-334, 349-367 and 387-407 leave in them. -/
def World.statuses (w : World) : Err × Err × Err × Err :=
  let topology := Construct.topology.updatefn w
  let configuration := Construct.configuration.updatefn w topology.2.2.1 topology.2.2.2
  let nodes := Construct.nodesConfiguration.updatefn w configuration.2.2.1
    configuration.2.2.2.1 configuration.2.2.2.2.1 configuration.2.2.2.2.2
  (configuration.2.2.1, configuration.2.2.2.1, nodes.2.2.1, nodes.2.2.2)

/-- The first status that is not nil, in the order gateway, masters, private nodes, public
nodes. -/
def World.firstStatus (w : World) : Err :=
  firstError [w.statuses.1, w.statuses.2.1, w.statuses.2.2.1, w.statuses.2.2.2]

/-- A payload of the Nodes group whose counter of masters is the largest Go `int`. -/
def Nodes.lastMaster : Nodes :=
  { Masters := [], PublicNodes := [], PrivateNodes := [],
    MasterLastIndex := 2 ^ 63 - 1, PrivateLastIndex := 0, PublicLastIndex := 0 }

/-! ## Configuration tasks -/

/-- The actors of a blueprint that configure a master or a node: `none` is a nil function
value; a defined actor is represented by the error it returns, as a function of the index
(and, for a node, of the node type and of its label). -/
structure Actors where
  ConfigureMaster : Option (Int → Err)
  ConfigureNode : Option (Int → NodeType → String → Err)

/-- A call of an actor. -/
inductive ActorCall where
  | ConfigureMaster (index : Int)
  | ConfigureNode (index : Int) (nodeType : NodeType) (nodeTypeStr : String)
  deriving DecidableEq, Repr

/-- How a function that returns an error ends: by a `return`, or by a panic. -/
inductive Ended where
  | returned (err : Err)
  | panicked
  deriving DecidableEq, Repr

/-- The run of `configureMaster` or `configureNode`: how it ends and the actors it called. -/
structure ActorRun where
  ended : Ended
  calls : List ActorCall
  deriving DecidableEq, Repr

/-- Embedding of `Blueprint.configureNode` (blueprint.go, lines 521-527). -/
def configureNode (actors : Actors) (index : Int) (nodeType : NodeType)
    (nodeTypeStr : String) : ActorRun :=
  match actors.ConfigureNode with
  | some actor =>
    { ended := .returned (actor index nodeType nodeTypeStr),
      calls := [.ConfigureNode index nodeType nodeTypeStr] }
  | none => { ended := .returned none, calls := [] }

/-- Embedding of `Blueprint.configureMaster` (blueprint.go, lines 538-545): the actor tested
is `ConfigureNode`, the actor called is `ConfigureMaster`; the call of a nil function value
panics. -/
def configureMaster (actors : Actors) (index : Int) : ActorRun :=
  if actors.ConfigureNode.isSome then
    match actors.ConfigureMaster with
    | some actor => { ended := .returned (actor index), calls := [.ConfigureMaster index] }
    | none => { ended := .panicked, calls := [] }
  else { ended := .returned none, calls := [] }

/-- Embedding of `Blueprint.asyncConfigureMaster` (blueprint.go, lines 1000-1021), given
what `installDocker` and `configureMaster` return: the values of the send statements on
`done` that the function executes, in order (a send completes when the value is received). -/
def asyncConfigureMaster (installDocker configureMaster : Err) : List Err :=
  match installDocker with
  | some err => [some err]
  | none =>
    match configureMaster with
    | some err => [some err, none]
    | none => [none]

/-- Embedding of `Blueprint.asyncConfigureNode` (blueprint.go, lines 1242-1269), given what
`installDocker` and `configureNode` return: the values of the send statements on `done` that
the function executes, in order. -/
def asyncConfigureNode (installDocker configureNode : Err) : List Err :=
  match installDocker with
  | some err => [some err]
  | none =>
    match configureNode with
    | some err => [some err]
    | none => [none]

/-- Embedding of `Blueprint.asyncInstallGateway` (blueprint.go, lines 780-821), given what
its five calls return: the values of the send statements on `done` that the function
executes, in order. -/
def asyncInstallGateway (SSHConfig WaitServerReady installProxyCacheServer
    installNodeRequirements installReverseProxy : Err) : List Err :=
  match SSHConfig with
  | some err => [some err]
  | none =>
    match WaitServerReady with
    | some err => [some err]
    | none =>
      match installProxyCacheServer with
      | some err => [some err]
      | none =>
        match installNodeRequirements with
        | some err => [some err]
        | none =>
          match installReverseProxy with
          | some err => [some err]
          | none => [none]

/-- Embedding of `Blueprint.asyncConfigureGateway` (blueprint.go, lines 825-849), given what
`installDocker` returns and, when the actor `ConfigureGateway` is defined, what it returns:
the values of the send statements on `done` that the function executes, in order. -/
def asyncConfigureGateway (installDocker : Err) (ConfigureGateway : Option Err) : List Err :=
  match installDocker with
  | some err => [some err]
  | none =>
    match ConfigureGateway with
    | some (some err) => [some err]
    | some none => [none]
    | none => [none]

/-- A task `asyncConfigureNode` launched by `asyncConfigureNodes` or by
`configureNodesFromList`, with the arguments it is given. -/
structure NodeLaunch where
  index : Int
  pbHost : Host
  nodeType : NodeType
  nodeTypeStr : String
  deriving DecidableEq, Repr

/-- The loop that inspects the hosts and launches one task for each (blueprint.go, lines
1212-1219 and 643-650), from the position `i` of the list on: the tasks launched, and the
host and the error at which the loop broke, if it did. -/
def configureNodes.launch (Inspect : String → HostCreated) (nodeType : NodeType)
    (nodeTypeStr : String) : Int → List String → List NodeLaunch × Option (String × String)
  | _, [] => ([], none)
  | i, hostID :: rest =>
    match Inspect hostID with
    | .error err => ([], some (hostID, err))
    | .ok pbHost =>
      ({ index := i + 1, pbHost := pbHost, nodeType := nodeType, nodeTypeStr := nodeTypeStr }
          :: (configureNodes.launch Inspect nodeType nodeTypeStr (i + 1) rest).1,
        (configureNodes.launch Inspect nodeType nodeTypeStr (i + 1) rest).2)

/-- The strings collected in `errors` after the loop of the launches (lines 1221-1231 and
652-662): for a failed inspection, the three operands of `append`, then the messages of the
tasks that failed. -/
def configureNodes.errors (launched : List NodeLaunch × Option (String × String))
    (task : NodeLaunch → Err) : List String :=
  (match launched.2 with
    | some (hostID, err) => ["failed to get metadata of host \x27%s\x27: %s", hostID, err]
    | none => [])
  ++ (launched.1.map task).filterMap id

/-- Embedding of `Blueprint.asyncConfigureNodes` (blueprint.go, lines 1177-1239): `list` is
`b.Cluster.ListNodeIDs(public)`, `Inspect` is `brokerHost.Inspect`, `task` the value that a
launched task sends. The result is the list of the tasks launched and the value sent on
`done`. -/
def asyncConfigureNodes (public_ : Bool) (list : List String) (Inspect : String → HostCreated)
    (task : NodeLaunch → Err) : List NodeLaunch × Err :=
  let nodeType : NodeType := if public_ then .PrivateNode else .PublicNode
  let nodeTypeStr : String := if public_ then "public" else "private"
  if list.length ≤ 0 then ([], none)
  else
    let launched := configureNodes.launch Inspect nodeType nodeTypeStr 0 list
    let errors := configureNodes.errors launched task
    if errors.length > 0 then (launched.1, some (fmt.Errorf (strings.Join errors "\n")))
    else (launched.1, none)

/-- Embedding of `Blueprint.configureNodesFromList` (blueprint.go, lines 618-667): the list
of the tasks launched and the error returned. -/
def configureNodesFromList (public_ : Bool) (hosts : List String)
    (Inspect : String → HostCreated) (task : NodeLaunch → Err) : List NodeLaunch × Err :=
  let nodeType : NodeType := if public_ then .PrivateNode else .PublicNode
  let nodeTypeStr : String := if public_ then "public" else "private"
  let launched := configureNodes.launch Inspect nodeType nodeTypeStr 0 hosts
  let errors := configureNodes.errors launched task
  if errors.length > 0 then (launched.1, some (fmt.Errorf (strings.Join errors "\n")))
  else (launched.1, none)

/-- An inspection that succeeds for every host. -/
def Inspect.sample (hostID : String) : HostCreated :=
  .ok { ID := hostID, Name := "host-" ++ hostID, PrivateIP := "10.0.0.5", PublicIP := "" }

/-! ## Export paths and remote mounts -/

/-- The pieces of a list of characters between the occurrences of `sep`. -/
def splitChars (sep : Char) : List Char → List (List Char)
  | [] => [[]]
  | c :: cs =>
    if c = sep then [] :: splitChars sep cs
    else
      match splitChars sep cs with
      | [] => [[c]]
      | piece :: pieces => (c :: piece) :: pieces

/-- The function `strings.Split` of the Go library, for a separator of one character. -/
def strings.Split (s : String) (sep : Char) : List String :=
  (splitChars sep s.data).map String.mk

/-- The position of the first occurrence of `substr` in `s` at or after the position `off`,
and -1 when there is none. -/
def strings.Index.from (substr : List Char) : List Char → Int → Int
  | [], off => if substr = [] then off else -1
  | c :: cs, off =>
    if substr.isPrefixOf (c :: cs) then off else strings.Index.from substr cs (off + 1)

/-- The function `strings.Index` of the Go library; positions are counted in characters,
which is the count in bytes of Go for ASCII texts and for the position 0. -/
def strings.Index (s substr : String) : Int := strings.Index.from substr.data s.data 0

/-- One element of a path in `path.Clean`: empty elements and `.` are dropped, `..` removes
the element before it, or is dropped at the root, or is kept at the start of a path that is
not rooted. The elements kept so far are in `stack`, last first. -/
def path.Clean.step (rooted : Bool) (stack : List (List Char)) (element : List Char) :
    List (List Char) :=
  if element = [] ∨ element = ['.'] then stack
  else if element = ['.', '.'] then
    match stack with
    | top :: rest => if top = ['.', '.'] then element :: stack else rest
    | [] => if rooted then [] else [element]
  else element :: stack

/-- The function `path.Clean` of the Go library, computed on the elements of the path. -/
def path.Clean (p : String) : String :=
  if p.data = [] then "."
  else
    let rooted : Bool := p.data.head? = some '/'
    let stack := (splitChars '/' p.data).foldl (path.Clean.step rooted) []
    let body : String := "/".intercalate (stack.reverse.map String.mk)
    if rooted then "/" ++ body else if stack = [] then "." else body

/-- The function `path.IsAbs` of the Go library. -/
def path.IsAbs (p : String) : Bool := p.data.head? = some '/'

/-- Embedding of `sanitize` (share.go, lines 66-72). -/
def sanitize (in_ : String) : String × Option GoError :=
  let sanitized := path.Clean in_
  if !path.IsAbs sanitized then
    ("", logicErr (some (.errorString (fmt.Errorf "Exposed path must be absolute"))))
  else (sanitized, none)

/-- The remote-mount maps of the payload `propsv1.HostMounts` of the property group Mounts
of a host: Go maps, here lists of pairs of a key and a value. -/
structure HostMounts where
  RemoteMountsByPath : List (String × HostRemoteMount)
  RemoteMountsByShareID : List (String × String)
  RemoteMountsByExport : List (String × String)
  deriving DecidableEq, Repr

/-- The callback of the read-lock scope of `ShareHandler.Create` that checks the path to
export against the remote mounts of the host (share.go, lines 105-117): `path` is the path
given to `Create`, `sharePath` the sanitized one. The order in which Go iterates over a map
is not specified; here it is the order of the list, which chooses the mount named in the
message. -/
def ShareHandler.Create.checkMounts (path sharePath : String) (serverMountsV1 : HostMounts) :
    Option GoError :=
  if (GoMap.get serverMountsV1.RemoteMountsByPath path).isSome then
    logicErr (some (.errorString
      ("path to export \x27" ++ sharePath ++ "\x27 is a mounted share")))
  else
    match serverMountsV1.RemoteMountsByPath.find? (fun kv => strings.Index sharePath kv.1 = 0)
    with
    | some kv =>
      logicErr (some (.errorString ("export path \x27" ++ sharePath
        ++ "\x27 contains a share mounted in \x27" ++ kv.1 ++ "\x27")))
    | none => none

/-- Modelled from the spec: `HostMounts.Reset()`, which leaves the maps empty. -/
def HostMounts.Reset (_ : HostMounts) : HostMounts :=
  { RemoteMountsByPath := [], RemoteMountsByShareID := [], RemoteMountsByExport := [] }

/-- The callback of the write-lock scope of `ShareHandler.Mount` that records the mount in
the group Mounts of the target host (share.go, lines 474-489): `lookup` is the result of
`target.Properties.Lookup(HostProperty.MountsV1)`. The result is the payload afterwards and
the variable `mount`. -/
def ShareHandler.Mount.record (lookup : Bool) (shareID export_ mountPath : String)
    (targetMountsV1 : HostMounts) : HostMounts × HostRemoteMount :=
  let targetMountsV1 := if !lookup then targetMountsV1.Reset else targetMountsV1
  let mount : HostRemoteMount :=
    { ShareID := shareID, Export := export_, Path := mountPath, FileSystem := "nfs" }
  ({ RemoteMountsByPath := GoMap.set targetMountsV1.RemoteMountsByPath mount.Path mount,
     RemoteMountsByShareID :=
       GoMap.set targetMountsV1.RemoteMountsByShareID mount.ShareID mount.Path,
     RemoteMountsByExport :=
       GoMap.set targetMountsV1.RemoteMountsByExport mount.Export mount.Path }, mount)

/-- The callback of the write-lock scope of the last deferred function of
`ShareHandler.Mount` (share.go, lines 525-531), which removes the mount again. -/
def ShareHandler.Mount.forget (mount : HostRemoteMount) (targetMountsV1 : HostMounts) :
    HostMounts :=
  { RemoteMountsByShareID := GoMap.delete targetMountsV1.RemoteMountsByShareID mount.ShareID,
    RemoteMountsByPath := GoMap.delete targetMountsV1.RemoteMountsByPath mount.Path,
    RemoteMountsByExport := GoMap.delete targetMountsV1.RemoteMountsByExport mount.Export }

/-- Outcomes of the calls made inside the write-lock scope of `ShareHandler.Unmount`. -/
structure UnmountWorld where
  GetConfig : Option GoError
  NewNFSClient : Option GoError
  Unmount : Option GoError

/-- The callback of the write-lock scope of `ShareHandler.Unmount` on the group Mounts of
the target host (share.go, lines 588-615): its error, the payload afterwards and the
variable `mountPath`. -/
def ShareHandler.Unmount.forget (w : UnmountWorld) (targetName shareID : String)
    (targetMountsV1 : HostMounts) : Option GoError × HostMounts × String :=
  let key : String := (GoMap.get targetMountsV1.RemoteMountsByShareID shareID).getD ""
  match GoMap.get targetMountsV1.RemoteMountsByPath key with
  | none =>
    (logicErr (some (.errorString ("not mounted on host \x27" ++ targetName ++ "\x27"))),
      targetMountsV1, "")
  | some mount =>
    match w.GetConfig with
    | some err => (infraErr (some err), targetMountsV1, "")
    | none =>
      match w.NewNFSClient with
      | some err => (infraErr (some err), targetMountsV1, "")
      | none =>
        match w.Unmount with
        | some err => (infraErr (some err), targetMountsV1, "")
        | none =>
          let mountPath := mount.Path
          (none,
            { targetMountsV1 with
              RemoteMountsByShareID :=
                GoMap.delete targetMountsV1.RemoteMountsByShareID mount.ShareID,
              RemoteMountsByPath := GoMap.delete targetMountsV1.RemoteMountsByPath mountPath },
            mountPath)

/-- Outcomes in which every call of the scope of `Unmount` succeeds. -/
def UnmountWorld.success : UnmountWorld :=
  { GetConfig := none, NewNFSClient := none, Unmount := none }

/-- A payload of the group Mounts without any remote mount. -/
def HostMounts.empty : HostMounts :=
  { RemoteMountsByPath := [], RemoteMountsByShareID := [], RemoteMountsByExport := [] }

/-- A payload of the group Mounts with one remote mount, at `path`. -/
def HostMounts.single (path : String) : HostMounts :=
  { RemoteMountsByPath :=
      [(path, { ShareID := "share-1", Export := "10.0.0.1:/export", Path := path,
                FileSystem := "nfs" })],
    RemoteMountsByShareID := [("share-1", path)],
    RemoteMountsByExport := [("10.0.0.1:/export", path)] }

/-! ## Conversion of SSH configurations -/

/-- The conversion `int32(x)` of a Go `int`: the value wraps around in two's complement. -/
def wrapInt32 (x : Int) : Int := (x + 2 ^ 31) % 2 ^ 32 - 2 ^ 31

/-- The fields of `system.SSHConfig` that the converters use; `Port` is a Go `int`,
`GatewayConfig` a pointer to the configuration of the gateway (`none` is `nil`). -/
inductive system.SSHConfig where
  | mk (User Host PrivateKey : String) (Port : Int) (GatewayConfig : Option system.SSHConfig)

/-- The message `pb.SshConfig`; `Port` is a Go `int32`, `Gateway` a pointer (`none` is
`nil`). -/
inductive pb.SshConfig where
  | mk (Gateway : Option pb.SshConfig) (Host : String) (Port : Int) (PrivateKey User : String)

/-- Embedding of `ToPBSshConfig` (converters.go, lines 27-40), for an argument that is not
nil. -/
def ToPBSshConfig : system.SSHConfig → pb.SshConfig
  | .mk user host privateKey port none => .mk none host (wrapInt32 port) privateKey user
  | .mk user host privateKey port (some gatewayConfig) =>
    .mk (some (ToPBSshConfig gatewayConfig)) host (wrapInt32 port) privateKey user

/-- The number of configurations in a chain of gateways, the configuration itself
included. -/
def system.SSHConfig.chainLength : system.SSHConfig → Nat
  | .mk _ _ _ _ none => 1
  | .mk _ _ _ _ (some gatewayConfig) => gatewayConfig.chainLength + 1

/-- The number of messages in a chain of gateways, the message itself included. -/
def pb.SshConfig.chainLength : pb.SshConfig → Nat
  | .mk none _ _ _ _ => 1
  | .mk (some gateway) _ _ _ _ => gateway.chainLength + 1

/-- The ports of the message and of every gateway of its chain are values of the type
`int32`. -/
def pb.SshConfig.WellTyped : pb.SshConfig → Prop
  | .mk none _ port _ _ => -2 ^ 31 ≤ port ∧ port < 2 ^ 31
  | .mk (some gateway) _ port _ _ => (-2 ^ 31 ≤ port ∧ port < 2 ^ 31) ∧ gateway.WellTyped

/-! ## Networks of the libvirt stack -/

/-- An IPv4 address or mask: its four bytes. -/
structure net.IP where
  b0 : Nat
  b1 : Nat
  b2 : Nat
  b3 : Nat
  deriving DecidableEq, Repr

/-- What `net.ParseCIDR` of the Go library returns for the text `b0.b1.b2.b3/ones` of an
IPv4 network: the address (the bytes 12 to 15 of its 16-byte form) and the length of the
prefix. -/
structure ParsedCIDR where
  IP : net.IP
  ones : Nat
  deriving DecidableEq, Repr

/-- One byte of the mask `net.CIDRMask(ones, 32)`: the byte of index `i`. -/
def net.CIDRMask.byte (ones i : Nat) : Nat := 256 - 2 ^ (8 - min 8 (ones - 8 * i))

/-- The function `net.CIDRMask(ones, 32)` of the Go library. -/
def net.CIDRMask (ones : Nat) : net.IP :=
  { b0 := net.CIDRMask.byte ones 0, b1 := net.CIDRMask.byte ones 1,
    b2 := net.CIDRMask.byte ones 2, b3 := net.CIDRMask.byte ones 3 }

/-- The method `IP.Mask` of the Go library: the bytes of the address and of the mask are
combined with `and`. -/
def net.IP.Mask (ip mask : net.IP) : net.IP :=
  { b0 := ip.b0 &&& mask.b0, b1 := ip.b1 &&& mask.b1, b2 := ip.b2 &&& mask.b2,
    b3 := ip.b3 &&& mask.b3 }

/-- The text of four bytes under the format `%d.%d.%d.%d`, which is also the text given by
`IP.String` for an IPv4 address. -/
def net.IP.String (ip : net.IP) : String :=
  Itoa ip.b0 ++ "." ++ Itoa ip.b1 ++ "." ++ Itoa ip.b2 ++ "." ++ Itoa ip.b3

/-- The sum of two Go `byte` values. -/
def byteAdd (a b : Nat) : Nat := (a + b) % 256

/-- The difference of two Go `byte` values. -/
def byteSub (a b : Nat) : Nat := (a + 256 - b % 256) % 256

/-- Embedding of `infoFromCidr` (libvirt/network.go, lines 38-51), given what
`net.ParseCIDR(cidr)` returns: the four texts returned (the address of the network, the
mask, the start and the end of the DHCP range) and the error. -/
def infoFromCidr (parsed : Returned ParsedCIDR) : (String × String × String × String) × Err :=
  match parsed with
  | .error err => (("", "", "", ""), some ("Failed to parse cidr : " ++ err))
  | .ok p =>
    let IP := p.IP
    let Mask := net.CIDRMask p.ones
    let IPNetIP := IP.Mask Mask
    if Mask.b3 ≥ 63 then
      (("", "", "", ""), some (fmt.Errorf "Please use a wider network range"))
    else
      let mask := Mask.String
      let dhcpStart :=
        net.IP.String { b0 := IP.b0, b1 := IP.b1, b2 := IPNetIP.b2, b3 := byteAdd IPNetIP.b3 2 }
      let dhcpEnd :=
        net.IP.String
          { b0 := IP.b0, b1 := IP.b1, b2 := byteAdd IPNetIP.b2 (byteSub 255 Mask.b2),
            b3 := byteAdd IPNetIP.b3 (byteSub (byteSub 255 Mask.b3) 1) }
      ((IPNetIP.String, mask, dhcpStart, dhcpEnd), none)

/-- The value of a text of decimal digits, `none` when a character is not a digit. -/
def strconv.Atoi.digits : List Char → Nat → Option Nat
  | [], acc => some acc
  | c :: cs, acc =>
    if 48 ≤ c.toNat ∧ c.toNat ≤ 57 then strconv.Atoi.digits cs (acc * 10 + (c.toNat - 48))
    else none

/-- The function `strconv.Atoi` of the Go library: the value, and whether the error is not
nil (the value is then 0 for a text that is no number, and the nearest `int` for a number
out of range). -/
def strconv.Atoi (s : String) : Int × Bool :=
  let signed : Bool × List Char :=
    match s.data with
    | '-' :: rest => (true, rest)
    | '+' :: rest => (false, rest)
    | rest => (false, rest)
  if signed.2 = [] then (0, true)
  else
    match strconv.Atoi.digits signed.2 0 with
    | none => (0, true)
    | some n =>
      let value : Int := if signed.1 then -(n : Int) else n
      if value > maxInt then (maxInt, true)
      else if value < -2 ^ 63 then (-2 ^ 63, true)
      else (value, false)

/-- The number of binary digits of `n`; `fuel` bounds the number of digits counted. -/
def bitLength : Nat → Nat → Nat
  | 0, _ => 0
  | fuel + 1, n => if n = 0 then 0 else bitLength fuel (n / 2) + 1

/-- How the computation of the CIDR in `getNetworkFromLibvirtNetwork` ends: with the text of
the CIDR, with an error, by a panic, or in a way that the Go specification leaves to the
implementation (the conversion to `int` of a floating-point value that is not a number). -/
inductive CidrComputed where
  | cidr (text : String)
  | error (msg : String)
  | panicked
  | unspecified
  deriving DecidableEq, Repr

/-- The state of the loop of `getNetworkFromLibvirtNetwork` (lines 94-106): the blocks of
the address computed so far and the sum `netmaskInt`, or how the function ended. -/
inductive CidrLoop where
  | going (ipBloc : List Int) (netmaskInt : Int)
  | ended (how : CidrComputed)
  deriving DecidableEq, Repr

/-- One turn of the loop of `getNetworkFromLibvirtNetwork` (libvirt/network.go, lines
94-106), for the index `i`. The error of the first `Atoi` is overwritten by the second one.
For `0 < value < 256` the expression `int(math.Log2(float64(value)) + 1)` is the number of
binary digits of `value` (the floating-point logarithm of such a value is exact enough);
for `value >= 256` that number is at least 9, `math.Pow(2, float64(8-nbBits))` is less than
1, its conversion to `int` is 0 and the remainder panics; for `value < 0` the logarithm is
not a number. -/
def getNetworkFromLibvirtNetwork.step (netmaskBloc ipBlocstring : List String)
    (state : CidrLoop) (i : Nat) : CidrLoop :=
  match state with
  | .ended how => .ended how
  | .going ipBloc netmaskInt =>
    match netmaskBloc.get? i, ipBlocstring.get? i with
    | none, _ => .ended .panicked
    | some _, none => .ended .panicked
    | some netmaskText, some ipText =>
      let value := (strconv.Atoi netmaskText).1
      let bloc := (strconv.Atoi ipText).1
      if (strconv.Atoi ipText).2 then
        .ended (.error (fmt.Errorf "Failed to convert x.x.x.x nemask to [0-32] netmask"))
      else if value < 0 then .ended .unspecified
      else if value ≥ 256 then .ended .panicked
      else
        let nbBits : Nat := if value ≠ 0 then bitLength 8 value.toNat else 0
        .going (ipBloc ++ [bloc - Int.tmod bloc (2 ^ (8 - nbBits))]) (netmaskInt + nbBits)

/-- Embedding of the computation of the CIDR of an IPv4 network in
`getNetworkFromLibvirtNetwork` (libvirt/network.go, lines 88-110), for the texts `Address`
and `Netmask` of the description of the network. -/
def getNetworkFromLibvirtNetwork.cidr (Address Netmask : String) : CidrComputed :=
  let netmaskBloc := strings.Split Netmask '.'
  let ipBlocstring := strings.Split Address '.'
  match [0, 1, 2, 3].foldl (getNetworkFromLibvirtNetwork.step netmaskBloc ipBlocstring)
    (.going [] 0) with
  | .ended how => how
  | .going ipBloc netmaskInt =>
    .cidr (Itoa (ipBloc.getD 0 0) ++ "." ++ Itoa (ipBloc.getD 1 0) ++ "."
      ++ Itoa (ipBloc.getD 2 0) ++ "." ++ Itoa (ipBloc.getD 3 0) ++ "/" ++ Itoa netmaskInt)

/-! ## Theorems -/

theorem ite_Cores (c : Prop) [Decidable c] (a b : HostDefinition) :
    (if c then a else b).Cores = if c then a.Cores else b.Cores := by
  split <;> rfl

theorem ite_RAMSize (c : Prop) [Decidable c] (a b : HostDefinition) :
    (if c then a else b).RAMSize = if c then a.RAMSize else b.RAMSize := by
  split <;> rfl

theorem ite_DiskSize (c : Prop) [Decidable c] (a b : HostDefinition) :
    (if c then a else b).DiskSize = if c then a.DiskSize else b.DiskSize := by
  split <;> rfl

theorem ite_ImageID (c : Prop) [Decidable c] (a b : HostDefinition) :
    (if c then a else b).ImageID = if c then a.ImageID else b.ImageID := by
  split <;> rfl

/-- The two successive tests made on one field (default, then baseline) amount to a
three-level choice. -/
theorem fallback_eq {α : Type} [LinearOrder α] (z x d b : α) :
    (if (if x ≤ z ∧ d > z then d else x) ≤ z then b else (if x ≤ z ∧ d > z then d else x))
      = if z < x then x else if z < d then d else b := by
  rcases le_or_lt x z with h | h <;> rcases le_or_lt d z with h' | h'
  · simp [h, h', not_lt.mpr h, not_lt.mpr h']
  · simp [h, h', not_lt.mpr h, not_le.mpr h']
  · simp [h, not_le.mpr h]
  · simp [h, not_le.mpr h]

/-- A positive `float32` is not at most zero. -/
theorem Float32.not_le_zero_of_pos (d : Float32) (h : 0 < d) : ¬ d ≤ 0 := by
  cases d with
  | finite q =>
    have h1 : ((0 : ℕ) : ℚ) < q := of_decide_eq_true h
    intro h2
    have h3 : q ≤ ((0 : ℕ) : ℚ) := of_decide_eq_true h2
    exact absurd h1 (not_lt.mpr h3)
  | posInf => intro h2; cases h2
  | negInf => cases h
  | nan => cases h

/-- A `float32` other than NaN is positive exactly when it is not at most zero. -/
theorem Float32.not_le_zero_iff (x : Float32) (h : x ≠ .nan) : ¬ x ≤ 0 ↔ 0 < x := by
  cases x with
  | finite q =>
    constructor
    · intro h1
      have h2 : ¬ q ≤ ((0 : ℕ) : ℚ) := fun h3 => h1 (decide_eq_true h3)
      exact decide_eq_true (not_le.mp h2)
    · exact Float32.not_le_zero_of_pos _
  | posInf =>
    constructor
    · intro _; rfl
    · exact Float32.not_le_zero_of_pos _
  | negInf =>
    constructor
    · intro h1; exact absurd rfl h1
    · exact Float32.not_le_zero_of_pos _
  | nan => exact absurd rfl h

/-- The two successive tests made on RAMSize (default, then baseline). -/
theorem fallback_float32 (x d b : Float32) :
    (if (if x ≤ 0 ∧ d > 0 then d else x) ≤ 0 then b else (if x ≤ 0 ∧ d > 0 then d else x))
      = if x ≤ 0 then (if 0 < d then d else b) else x := by
  by_cases hx : x ≤ 0
  · by_cases hd : 0 < d
    · have hd2 : d > 0 := hd
      simp only [hx, hd, hd2, and_self, if_true, Float32.not_le_zero_of_pos d hd, if_false]
    · have hd2 : ¬ d > 0 := hd
      simp only [hx, hd, hd2, and_false, if_false, if_true]
  · simp only [hx, false_and, if_false]

/-- Field-by-field value of `complementHostDefinition` on a present request. -/
theorem complementHostDefinition_some (req def_ : HostDefinition) :
    (complementHostDefinition (some req) def_).Cores
        = (if 0 < req.Cores then req.Cores else if 0 < def_.Cores then def_.Cores else 4)
    ∧ (complementHostDefinition (some req) def_).RAMSize
        = (if req.RAMSize ≤ 0 then (if 0 < def_.RAMSize then def_.RAMSize else 15)
            else req.RAMSize)
    ∧ (complementHostDefinition (some req) def_).DiskSize
        = (if 0 < req.DiskSize then req.DiskSize
            else if 0 < def_.DiskSize then def_.DiskSize else 100)
    ∧ (complementHostDefinition (some req) def_).ImageID
        = (if req.ImageID ≠ "" then req.ImageID else def_.ImageID) := by
  unfold complementHostDefinition
  simp -zeta only []
  lift_lets
  intro f0 f1 f2 f3 f4 f5 f6 f7
  have c1 : f1.Cores = if req.Cores ≤ 0 ∧ def_.Cores > 0 then def_.Cores else req.Cores := by
    simp only [f1, f0, ite_Cores]
  have r1 : f1.RAMSize = req.RAMSize := by simp only [f1, f0, ite_RAMSize, ite_self]
  have d1 : f1.DiskSize = req.DiskSize := by simp only [f1, f0, ite_DiskSize, ite_self]
  have i1 : f1.ImageID = req.ImageID := by simp only [f1, f0, ite_ImageID, ite_self]
  have c2 : f2.Cores = f1.Cores := by simp only [f2, ite_Cores, ite_self]
  have r2 : f2.RAMSize
      = if req.RAMSize ≤ 0 ∧ def_.RAMSize > 0 then def_.RAMSize else req.RAMSize := by
    simp only [f2, ite_RAMSize, r1]
  have d2 : f2.DiskSize = f1.DiskSize := by simp only [f2, ite_DiskSize, ite_self]
  have i2 : f2.ImageID = f1.ImageID := by simp only [f2, ite_ImageID, ite_self]
  have c3 : f3.Cores = f2.Cores := by simp only [f3, ite_Cores, ite_self]
  have r3 : f3.RAMSize = f2.RAMSize := by simp only [f3, ite_RAMSize, ite_self]
  have d3 : f3.DiskSize
      = if req.DiskSize ≤ 0 ∧ def_.DiskSize > 0 then def_.DiskSize else req.DiskSize := by
    simp only [f3, ite_DiskSize, d2, d1]
  have i3 : f3.ImageID = f2.ImageID := by simp only [f3, ite_ImageID, ite_self]
  have c4 : f4.Cores = f3.Cores := by simp only [f4, ite_Cores, ite_self]
  have r4 : f4.RAMSize = f3.RAMSize := by simp only [f4, ite_RAMSize, ite_self]
  have d4 : f4.DiskSize = f3.DiskSize := by simp only [f4, ite_DiskSize, ite_self]
  have i4 : f4.ImageID = if req.ImageID ≠ "" then req.ImageID else def_.ImageID := by
    simp only [f4, ite_ImageID, i3, i2, i1]; split_ifs <;> simp_all
  have c5 : f5.Cores = if f4.Cores ≤ 0 then 4 else f4.Cores := by simp only [f5, ite_Cores]
  have r5 : f5.RAMSize = f4.RAMSize := by simp only [f5, ite_RAMSize, ite_self]
  have d5 : f5.DiskSize = f4.DiskSize := by simp only [f5, ite_DiskSize, ite_self]
  have i5 : f5.ImageID = f4.ImageID := by simp only [f5, ite_ImageID, ite_self]
  have c6 : f6.Cores = f5.Cores := by simp only [f6, ite_Cores, ite_self]
  have r6 : f6.RAMSize = if f5.RAMSize ≤ 0 then 15 else f5.RAMSize := by
    simp only [f6, ite_RAMSize]
  have d6 : f6.DiskSize = f5.DiskSize := by simp only [f6, ite_DiskSize, ite_self]
  have i6 : f6.ImageID = f5.ImageID := by simp only [f6, ite_ImageID, ite_self]
  have c7 : f7.Cores = f6.Cores := by simp only [f7, ite_Cores, ite_self]
  have r7 : f7.RAMSize = f6.RAMSize := by simp only [f7, ite_RAMSize, ite_self]
  have d7 : f7.DiskSize = if f6.DiskSize ≤ 0 then 100 else f6.DiskSize := by
    simp only [f7, ite_DiskSize]
  have i7 : f7.ImageID = f6.ImageID := by simp only [f7, ite_ImageID, ite_self]
  refine ⟨?_, ?_, ?_, ?_⟩
  · rw [c7, c6, c5, c4, c3, c2, c1]; exact fallback_eq 0 req.Cores def_.Cores 4
  · rw [r7, r6, r5, r4, r3, r2]; exact fallback_float32 req.RAMSize def_.RAMSize 15
  · rw [d7, d6, d5, d4, d3]; exact fallback_eq 0 req.DiskSize def_.DiskSize 100
  · rw [i7, i6, i5, i4]

/-- C2 (as stated, refuted): for a request whose RAMSize is NaN and the tier default
2 cores / 7 RAM / 60 disk, both tests made on RAMSize (lines 454 and 474) are false and the
result keeps NaN, which is not positive, while the tier default's RAMSize 7 is positive: the
result is neither the tier default's value nor the baseline 15. -/
theorem C2_counterexample :
    complementHostDefinition (some ⟨0, .nan, 0, 0, 0, ""⟩) ⟨2, 7, 60, 0, 0, "img"⟩
      = ⟨2, .nan, 60, 0, 0, "img"⟩
    ∧ ¬ (0 : Float32) < .nan
    ∧ (0 : Float32) < 7
    ∧ (complementHostDefinition (some ⟨0, .nan, 0, 0, 0, ""⟩) ⟨2, 7, 60, 0, 0, "img"⟩).RAMSize
        ≠ 7
    ∧ (complementHostDefinition (some ⟨0, .nan, 0, 0, 0, ""⟩) ⟨2, 7, 60, 0, 0, "img"⟩).RAMSize
        ≠ 15 := by
  refine ⟨by decide, by decide, by decide, by decide, by decide⟩

/-- C2 (amended): for a present request, each of Cores and DiskSize of the result is the
request's value if positive, otherwise the tier default's value if positive, otherwise the
baseline 4 / 100; RAMSize follows the same rule with the baseline 15 when the request's
RAMSize is not NaN, and is NaN when the request's RAMSize is NaN; ImageID is the request's if
non-empty, otherwise the default's. -/
theorem C2_complement_three_level_fallback (req def_ : HostDefinition) :
    (complementHostDefinition (some req) def_).Cores
        = (if 0 < req.Cores then req.Cores else if 0 < def_.Cores then def_.Cores else 4)
    ∧ (req.RAMSize ≠ .nan →
        (complementHostDefinition (some req) def_).RAMSize
          = (if 0 < req.RAMSize then req.RAMSize
              else if 0 < def_.RAMSize then def_.RAMSize else 15))
    ∧ (req.RAMSize = .nan → (complementHostDefinition (some req) def_).RAMSize = .nan)
    ∧ (complementHostDefinition (some req) def_).DiskSize
        = (if 0 < req.DiskSize then req.DiskSize
            else if 0 < def_.DiskSize then def_.DiskSize else 100)
    ∧ (complementHostDefinition (some req) def_).ImageID
        = (if req.ImageID ≠ "" then req.ImageID else def_.ImageID) := by
  obtain ⟨h1, h2, h3, h4⟩ := complementHostDefinition_some req def_
  refine ⟨h1, ?_, ?_, h3, h4⟩
  · intro hr
    rw [h2]
    by_cases hx : req.RAMSize ≤ 0
    · have hp : ¬ 0 < req.RAMSize := fun hp => Float32.not_le_zero_of_pos _ hp hx
      simp only [hx, hp, if_true, if_false]
    · have hp : 0 < req.RAMSize := (Float32.not_le_zero_iff _ hr).mp hx
      simp only [hx, hp, if_true, if_false]
  · intro hr
    rw [h2, hr]
    rfl

theorem C2_complement_three_level_fallback_witness :
    (⟨0, 0, 50, 0, 0, ""⟩ : HostDefinition).RAMSize ≠ .nan
    ∧ (complementHostDefinition (some ⟨0, 0, 50, 0, 0, ""⟩) ⟨2, 7, 60, 0, 0, "img"⟩).RAMSize = 7
    ∧ (complementHostDefinition (some ⟨0, 32, 50, 0, 0, ""⟩) ⟨2, 7, 60, 0, 0, "img"⟩).RAMSize
        = 32 :=
  ⟨by decide,
    ((C2_complement_three_level_fallback ⟨0, 0, 50, 0, 0, ""⟩ ⟨2, 7, 60, 0, 0, "img"⟩).2.1
      (by decide)).trans (by decide),
    ((C2_complement_three_level_fallback ⟨0, 32, 50, 0, 0, ""⟩ ⟨2, 7, 60, 0, 0, "img"⟩).2.1
      (by decide)).trans (by decide)⟩

/-- C3 (as stated, refuted): a request with only DiskSize set and a tier default without
positive Cores gives Cores = 4, not the tier default's Cores. -/
theorem C3_counterexample :
    ¬ (∀ req def_ : HostDefinition,
        0 < req.DiskSize → req.Cores = 0 → req.RAMSize = 0 →
        (complementHostDefinition (some req) def_).Cores = def_.Cores
        ∧ (complementHostDefinition (some req) def_).RAMSize = def_.RAMSize
        ∧ (complementHostDefinition (some req) def_).DiskSize = req.DiskSize) := by
  intro h
  have h1 := (h ⟨0, 0, 50, 0, 0, ""⟩ ⟨0, 0, 0, 0, 0, ""⟩ (by decide) rfl rfl).1
  have h2 := (complementHostDefinition_some ⟨0, 0, 50, 0, 0, ""⟩ ⟨0, 0, 0, 0, 0, ""⟩).1
  rw [h2] at h1
  simp at h1

/-- C3 (amended): for a request with only DiskSize set, DiskSize is the request's value, and
Cores and RAMSize are the tier default's values whenever these are positive (the baseline
4 / 15 otherwise). -/
theorem C3_only_disk_set (req def_ : HostDefinition)
    (hd : 0 < req.DiskSize) (hc : req.Cores = 0) (hr : req.RAMSize = 0) :
    (complementHostDefinition (some req) def_).DiskSize = req.DiskSize
    ∧ (complementHostDefinition (some req) def_).Cores
        = (if 0 < def_.Cores then def_.Cores else 4)
    ∧ (complementHostDefinition (some req) def_).RAMSize
        = (if 0 < def_.RAMSize then def_.RAMSize else 15)
    ∧ (0 < def_.Cores → 0 < def_.RAMSize →
        (complementHostDefinition (some req) def_).Cores = def_.Cores
        ∧ (complementHostDefinition (some req) def_).RAMSize = def_.RAMSize) := by
  obtain ⟨h1, h2, h3, -⟩ := complementHostDefinition_some req def_
  have h0 : (0 : Float32) ≤ 0 := by decide
  rw [h1, h2, h3, hc, hr]
  simp only [lt_self_iff_false, if_false, hd, if_true, true_and, h0]
  intro hdc hdr
  simp [hdc, hdr]

theorem C3_only_disk_set_witness :
    (complementHostDefinition (some ⟨0, 0, 50, 0, 0, ""⟩) ⟨2, 7, 60, 0, 0, "img"⟩).DiskSize = 50
    ∧ (complementHostDefinition (some ⟨0, 0, 50, 0, 0, ""⟩) ⟨2, 7, 60, 0, 0, "img"⟩).Cores = 2
    ∧ (complementHostDefinition (some ⟨0, 0, 50, 0, 0, ""⟩) ⟨2, 7, 60, 0, 0, "img"⟩).RAMSize = 7 := by
  obtain ⟨h1, h2, h3, -⟩ :=
    C3_only_disk_set ⟨0, 0, 50, 0, 0, ""⟩ ⟨2, 7, 60, 0, 0, "img"⟩ (by decide) rfl rfl
  refine ⟨h1, ?_, ?_⟩
  · rw [h2]; decide
  · rw [h3]; decide

/-- C4 (as stated, refuted): with an empty request and the tier default 2 cores / 7 RAM /
60 disk the result is 2 / 7 / 60, not the baseline 4 / 15 / 100. -/
theorem C4_counterexample :
    ¬ (∀ req def_ : HostDefinition,
        req.Cores = 0 → req.RAMSize = 0 → req.DiskSize = 0 →
        (complementHostDefinition (some req) def_).Cores = 4
        ∧ (complementHostDefinition (some req) def_).RAMSize = 15
        ∧ (complementHostDefinition (some req) def_).DiskSize = 100) := by
  intro h
  have h1 := (h ⟨0, 0, 0, 0, 0, ""⟩ ⟨2, 7, 60, 0, 0, ""⟩ rfl rfl rfl).1
  have h2 := (complementHostDefinition_some ⟨0, 0, 0, 0, 0, ""⟩ ⟨2, 7, 60, 0, 0, ""⟩).1
  rw [h2] at h1
  simp at h1

/-- C4 (amended): for an empty request each of Cores, RAMSize and DiskSize is the tier
default's value when that is positive and the baseline 4 / 15 / 100 otherwise; in particular
all three are the baseline when the tier default has no positive field, and when `Construct`
computes the node sizing without a `DefaultNodeSizing` actor. -/
theorem C4_empty_request (req def_ : HostDefinition)
    (hc : req.Cores = 0) (hr : req.RAMSize = 0) (hd : req.DiskSize = 0) :
    ((complementHostDefinition (some req) def_).Cores
        = (if 0 < def_.Cores then def_.Cores else 4)
      ∧ (complementHostDefinition (some req) def_).RAMSize
        = (if 0 < def_.RAMSize then def_.RAMSize else 15)
      ∧ (complementHostDefinition (some req) def_).DiskSize
        = (if 0 < def_.DiskSize then def_.DiskSize else 100))
    ∧ (def_.Cores ≤ 0 → def_.RAMSize ≤ 0 → def_.DiskSize ≤ 0 →
        (complementHostDefinition (some req) def_).Cores = 4
        ∧ (complementHostDefinition (some req) def_).RAMSize = 15
        ∧ (complementHostDefinition (some req) def_).DiskSize = 100)
    ∧ (∀ imageID : String,
        (Construct.nodeSizing none imageID (some req)).Cores = 4
        ∧ (Construct.nodeSizing none imageID (some req)).RAMSize = 15
        ∧ (Construct.nodeSizing none imageID (some req)).DiskSize = 100) := by
  obtain ⟨h1, h2, h3, -⟩ := complementHostDefinition_some req def_
  have h0 : (0 : Float32) ≤ 0 := by decide
  refine ⟨?_, ?_, ?_⟩
  · rw [h1, h2, h3, hc, hr, hd]
    simp only [lt_self_iff_false, if_false, and_self, h0, if_true]
  · intro a b c
    have b2 : ¬ 0 < def_.RAMSize := fun hp => Float32.not_le_zero_of_pos _ hp b
    rw [h1, h2, h3, hc, hr, hd]
    simp only [lt_self_iff_false, if_false, not_lt.mpr a, b2, not_lt.mpr c, and_self, h0,
      if_true]
  · intro imageID
    obtain ⟨g1, g2, g3, -⟩ :=
      complementHostDefinition_some req ⟨4, 15, 100, 0, 0, imageID⟩
    have h15 : (0 : Float32) < 15 := by decide
    simp only [Construct.nodeSizing, ite_Cores, ite_RAMSize, ite_DiskSize, ite_self]
    rw [g1, g2, g3, hc, hr, hd]
    simp only [h0, h15, if_true]
    norm_num

theorem C4_empty_request_witness :
    (complementHostDefinition (some ⟨0, 0, 0, 0, 0, ""⟩) ⟨0, 0, 0, 0, 0, "img"⟩).Cores = 4
    ∧ (complementHostDefinition (some ⟨0, 0, 0, 0, 0, ""⟩) ⟨0, 0, 0, 0, 0, "img"⟩).RAMSize = 15
    ∧ (complementHostDefinition (some ⟨0, 0, 0, 0, 0, ""⟩) ⟨0, 0, 0, 0, 0, "img"⟩).DiskSize = 100 :=
  (C4_empty_request ⟨0, 0, 0, 0, 0, ""⟩ ⟨0, 0, 0, 0, 0, "img"⟩ rfl rfl rfl).2.1
    (by decide) (by decide) (by decide)

/-! ### Hostname allocation -/

theorem wrapInt_succ (x : Int) (h1 : -2 ^ 63 ≤ x) (h2 : x + 1 ≤ maxInt) :
    wrapInt (x + 1) = x + 1 := by
  unfold wrapInt
  unfold maxInt at h2
  omega

theorem digitChar_toNat (d : Nat) (h : d < 10) : (digitChar d).toNat - 48 = d := by
  interval_cases d <;> rfl

theorem digitChar_ne_minus (d : Nat) (h : d < 10) : digitChar d ≠ '-' := by
  interval_cases d <;> decide

theorem foldl_formatDigits (fuel : Nat) :
    ∀ (n : Nat) (acc : List Char), n < fuel →
      List.foldl (fun a c => 10 * a + (c.toNat - 48)) 0 (formatDigits fuel n acc)
        = List.foldl (fun a c => 10 * a + (c.toNat - 48)) n acc := by
  induction fuel with
  | zero => intro n acc h; omega
  | succ fuel ih =>
    intro n acc h
    unfold formatDigits
    have hd : (digitChar (n % 10)).toNat - 48 = n % 10 :=
      digitChar_toNat (n % 10) (Nat.mod_lt _ (by decide))
    split_ifs with h0
    · simp only [List.foldl_cons, hd]
      congr 1
      omega
    · rw [ih (n / 10) _ (by omega)]
      simp only [List.foldl_cons, hd]
      congr 1
      omega

theorem formatNat_injective : Function.Injective formatNat := by
  intro a b h
  have ha := foldl_formatDigits (a + 1) a [] (by omega)
  have hb := foldl_formatDigits (b + 1) b [] (by omega)
  simp only [List.foldl_nil] at ha hb
  unfold formatNat at h
  rw [h] at ha
  omega

theorem formatDigits_head (fuel : Nat) :
    ∀ (n : Nat) (acc : List Char),
      ∃ d rest, d < 10 ∧ formatDigits (fuel + 1) n acc = digitChar d :: rest := by
  induction fuel with
  | zero =>
    intro n acc
    refine ⟨n % 10, acc, Nat.mod_lt _ (by decide), ?_⟩
    simp [formatDigits]
  | succ fuel ih =>
    intro n acc
    by_cases h0 : n / 10 = 0
    · exact ⟨n % 10, acc, Nat.mod_lt _ (by decide), by rw [formatDigits, if_pos h0]⟩
    · obtain ⟨d, rest, hd, h⟩ := ih (n / 10) (digitChar (n % 10) :: acc)
      exact ⟨d, rest, hd, by rw [formatDigits, if_neg h0, h]⟩

theorem Itoa_injective : Function.Injective Itoa := by
  intro a b h
  have hdata := congrArg String.data h
  unfold Itoa at hdata
  obtain ⟨da, ra, hda, ea⟩ := formatDigits_head a.natAbs a.natAbs []
  obtain ⟨db, rb, hdb, eb⟩ := formatDigits_head b.natAbs b.natAbs []
  split_ifs at hdata with ha hb hb
  · simp only [List.cons.injEq, true_and] at hdata
    have := formatNat_injective hdata
    omega
  · exfalso
    simp only [formatNat, eb, List.cons.injEq] at hdata
    exact digitChar_ne_minus db hdb hdata.1.symm
  · exfalso
    simp only [formatNat, ea, List.cons.injEq] at hdata
    exact digitChar_ne_minus da hda hdata.1
  · have := formatNat_injective hdata
    omega

theorem hostname_injective (cn : String) (c c' : Creation) (i j : Int)
    (h : hostname cn c i = hostname cn c' j) : c = c' ∧ i = j := by
  have hdata := congrArg String.data h
  simp only [hostname, String.data_append, List.append_assoc, List.append_cancel_left_eq]
    at hdata
  have hm : ("master" : String).data = ['m', 'a', 's', 't', 'e', 'r'] := rfl
  have hn : ("node" : String).data = ['n', 'o', 'd', 'e'] := rfl
  have hp : ("pub" : String).data = ['p', 'u', 'b'] := rfl
  have hd : ("-" : String).data = ['-'] := rfl
  rcases c with _ | _ | _ <;> rcases c' with _ | _ | _ <;>
    simp only [hm, hn, hp, hd, String.data_append, List.cons_append, List.nil_append,
      List.cons.injEq, true_and, Char.reduceEq, false_and, and_false] at hdata
  all_goals exact ⟨rfl, Itoa_injective (String.ext hdata)⟩

theorem buildHostname_creation (cn : String) (c : Creation) (lock : LockOutcome) (s : Nodes) :
    buildHostname cn c.core c.nodeType lock s =
      match lock with
      | .ok => ((hostname cn c (c.counter (buildHostname.scope c.nodeType s)), none),
          buildHostname.scope c.nodeType s)
      | .failedAfter m => (("", some m), buildHostname.scope c.nodeType s) := by
  rcases c with _ | _ | _ <;> cases lock <;> rfl

theorem counter_scope (c c' : Creation) (s : Nodes) :
    c'.counter (buildHostname.scope c.nodeType s)
      = if c' = c then wrapInt (c'.counter s + 1) else c'.counter s := by
  rcases c with _ | _ | _ <;> rcases c' with _ | _ | _ <;> simp [Creation.counter,
    buildHostname.scope, Creation.nodeType]

theorem allocate_cons (cn : String) (c : Creation) (lock : LockOutcome)
    (rest : List (Creation × LockOutcome)) (s : Nodes) :
    allocate cn ((c, lock) :: rest) s =
      match lock with
      | .ok =>
        { creation := c, index := c.counter (buildHostname.scope c.nodeType s),
          name := hostname cn c (c.counter (buildHostname.scope c.nodeType s)) }
          :: allocate cn rest (buildHostname.scope c.nodeType s)
      | .failedAfter _ => allocate cn rest (buildHostname.scope c.nodeType s) := by
  rw [allocate, buildHostname_creation]
  cases lock <;> rfl

theorem NoOverflow.tail_same {s : Nodes} {c : Creation} {lock : LockOutcome}
    {rest : List (Creation × LockOutcome)} (h : NoOverflow s ((c, lock) :: rest)) :
    NoOverflow s rest := by
  intro c'
  have h' := h c'
  refine ⟨h'.1, ?_⟩
  have := h'.2
  simp only [List.filter_cons] at this
  split_ifs at this with hc
  · simp only [List.length_cons, Nat.cast_add, Nat.cast_one] at this
    omega
  · exact this

theorem NoOverflow.head {s : Nodes} {c : Creation} {lock : LockOutcome}
    {rest : List (Creation × LockOutcome)} (h : NoOverflow s ((c, lock) :: rest)) :
    c.counter (buildHostname.scope c.nodeType s) = c.counter s + 1 := by
  have h' := h c
  rw [counter_scope, if_pos rfl]
  apply wrapInt_succ _ h'.1
  have := h'.2
  simp only [List.filter_cons, decide_True, if_true, List.length_cons, Nat.cast_add,
    Nat.cast_one] at this
  omega

theorem NoOverflow.tail_scope {s : Nodes} {c : Creation} {lock : LockOutcome}
    {rest : List (Creation × LockOutcome)} (h : NoOverflow s ((c, lock) :: rest)) :
    NoOverflow (buildHostname.scope c.nodeType s) rest := by
  intro c'
  have h' := h c'
  by_cases hc : c' = c
  · subst hc
    rw [h.head]
    have := h'.2
    simp only [List.filter_cons, decide_True, if_true, List.length_cons, Nat.cast_add,
      Nat.cast_one] at this
    constructor <;> omega
  · rw [counter_scope, if_neg hc]
    exact (h.tail_same) c'

/-- Every hostname handed out carries an index above the counter value at the start, is the
name built from that index, indices of one kind increase and names are pairwise distinct. -/
theorem allocate_spec (cn : String) (calls : List (Creation × LockOutcome)) :
    ∀ s : Nodes, NoOverflow s calls →
      (∀ a ∈ allocate cn calls s,
        a.creation.counter s < a.index ∧ a.name = hostname cn a.creation a.index)
      ∧ (∀ c, (indicesOf c (allocate cn calls s)).Pairwise (· < ·))
      ∧ ((allocate cn calls s).map Allocation.name).Nodup := by
  induction calls with
  | nil =>
    intro s _
    simp [allocate, indicesOf]
  | cons call rest ih =>
    obtain ⟨c, lock⟩ := call
    intro s h
    have mono : ∀ c' : Creation, c'.counter s ≤ c'.counter (buildHostname.scope c.nodeType s) := by
      intro c'
      by_cases hc : c' = c
      · subst hc; rw [h.head]; omega
      · rw [counter_scope, if_neg hc]
    rw [allocate_cons]
    cases lock with
    | failedAfter m =>
      obtain ⟨i1, i2, i3⟩ := ih _ h.tail_scope
      refine ⟨fun a ha => ⟨lt_of_le_of_lt (mono _) (i1 a ha).1, (i1 a ha).2⟩, i2, i3⟩
    | ok =>
      obtain ⟨i1, i2, i3⟩ := ih _ h.tail_scope
      refine ⟨?_, ?_, ?_⟩
      · intro a ha
        rcases List.mem_cons.mp ha with rfl | ha
        · exact ⟨by simp only [h.head]; omega, rfl⟩
        · exact ⟨lt_of_le_of_lt (mono _) (i1 a ha).1, (i1 a ha).2⟩
      · intro c'
        simp only [indicesOf, List.filter_cons]
        split_ifs with hc
        · simp only [List.map_cons, List.pairwise_cons]
          refine ⟨?_, i2 c'⟩
          intro j hj
          obtain ⟨a, ha, rfl⟩ := List.mem_map.mp hj
          have hacr : a.creation = c' := by simpa using (List.mem_filter.mp ha).2
          have hcc : c = c' := by simpa using hc
          have := (i1 a (List.mem_filter.mp ha).1).1
          rw [hacr, ← hcc] at this
          exact this
        · exact i2 c'
      · simp only [List.map_cons, List.nodup_cons]
        refine ⟨?_, i3⟩
        intro hmem
        obtain ⟨a, ha, hname⟩ := List.mem_map.mp hmem
        obtain ⟨hlt, hnm⟩ := i1 a ha
        rw [hnm] at hname
        obtain ⟨hc, hi⟩ := hostname_injective cn _ _ _ _ hname
        rw [hc, hi] at hlt
        exact lt_irrefl _ hlt

/-- C5 (as stated, refuted): starting from a master counter of 2^63 - 2, two successive master
allocations return the indices 2^63 - 1 and then -2^63 (the Go `int` wraps around), which is
not an increasing sequence. -/
theorem C5_counterexample :
    ¬ (indicesOf .master
        (allocate "c" [(.master, .ok), (.master, .ok)]
          ⟨[], [], [], 2 ^ 63 - 2, 0, 0⟩)).Pairwise (· < ·) := by
  decide

/-- C5 (amended): for every initial value of the Nodes counters and every sequence of hostname
allocations that does not take a counter past the largest `int`, each allocation being one
complete write-lock scope, the indices handed out to one kind of creation are strictly
increasing, all hostnames handed out are pairwise distinct, and each hostname is the cluster
name, the core name and the decimal index joined by dashes. -/
theorem C5_hostnames_increasing_distinct (clusterName : String)
    (calls : List (Creation × LockOutcome)) (nodesV1 : Nodes)
    (h : NoOverflow nodesV1 calls) :
    (∀ c, (indicesOf c (allocate clusterName calls nodesV1)).Pairwise (· < ·))
    ∧ ((allocate clusterName calls nodesV1).map Allocation.name).Nodup
    ∧ (∀ a ∈ allocate clusterName calls nodesV1,
        a.name = hostname clusterName a.creation a.index) :=
  ⟨(allocate_spec clusterName calls nodesV1 h).2.1, (allocate_spec clusterName calls nodesV1 h).2.2,
    fun a ha => ((allocate_spec clusterName calls nodesV1 h).1 a ha).2⟩

theorem C5_hostnames_increasing_distinct_witness :
    (indicesOf .master
        (allocate "c1" [(.master, .ok), (.node true, .ok), (.node false, .ok), (.master, .ok)]
          ⟨[], [], [], 0, 0, 0⟩)).Pairwise (· < ·)
    ∧ ((allocate "c1" [(.master, .ok), (.node true, .ok), (.node false, .ok), (.master, .ok)]
          ⟨[], [], [], 0, 0, 0⟩).map Allocation.name)
        = ["c1-master-1", "c1-pubnode-1", "c1-node-1", "c1-master-2"]
    ∧ ((allocate "c1" [(.master, .ok), (.node true, .ok), (.node false, .ok), (.master, .ok)]
          ⟨[], [], [], 0, 0, 0⟩).map Allocation.name).Nodup :=
  have h := C5_hostnames_increasing_distinct "c1"
    [(.master, .ok), (.node true, .ok), (.node false, .ok), (.master, .ok)]
    ⟨[], [], [], 0, 0, 0⟩
    (by intro c; rcases c with _ | _ | _ <;> decide)
  ⟨h.1 .master, by decide, h.2.1⟩

/-! ### Aggregate error of the master fan-out -/

/-- C6 (evaluation at the failing input): of three master-creation tasks the first fails with
"A: disk 100% full" and the second with "B"; the aggregate error sent by `asyncCreateMasters`
(four turns end the loop of the launches) has the text "A: disk 100%!f(MISSING)ull", a line
break, "B", which does not contain the message of the first task. -/
theorem C6_aggregate_error_alters_message :
    asyncCreateMasters 4 3
        (fun i => if i = 1 then some "A: disk 100% full" else if i = 2 then some "B" else none)
      = some (some "A: disk 100%!f(MISSING)ull\nB")
    ∧ ¬ ("A: disk 100% full".data <:+: "A: disk 100%!f(MISSING)ull\nB".data) := by
  constructor
  · decide
  · decide

/-! ### Construction: traces -/

@[simp] theorem Run.after_trace (evs : List Event) (r : Run) :
    (Run.after evs r).trace = evs ++ r.trace := rfl

@[simp] theorem Run.after_result (evs : List Event) (r : Run) :
    (Run.after evs r).result = r.result := rfl

@[simp] theorem Construct.leave_result (w : World) (req : Request) (defers : List Deferred)
    (err ret : Err) : (Construct.leave w req defers err ret).result = ret := rfl

@[simp] theorem Construct.leave_trace (w : World) (req : Request) (defers : List Deferred)
    (err ret : Err) :
    (Construct.leave w req defers err ret).trace = Construct.runDeferred w req err defers := rfl

theorem Construct.runDeferred_keep (w : World) (req : Request) (err : Err)
    (hk : req.KeepOnFailure = true) (defers : List Deferred) :
    Construct.runDeferred w req err defers = [] := by
  induction defers with
  | nil => rfl
  | cons d rest ih =>
    cases d <;> simp [Construct.runDeferred, Construct.deferred, hk, ih]

theorem Run.after_after (evs1 evs2 : List Event) (r : Run) :
    Run.after evs1 (Run.after evs2 r) = Run.after (evs1 ++ evs2) r := by
  simp [Run.after]

theorem Run.after_nil (r : Run) : Run.after [] r = r := rfl

/-! #### Unfolding of the pieces of `Construct` -/

theorem Construct.clusterConfiguration_eq (w : World) (req : Request) (defers : List Deferred) :
    Construct.clusterConfiguration w req defers =
      match w.finalUpdate, w.configureCluster, w.finalState with
      | .failedBefore m, _, _ => Construct.leave w req defers none (some m)
      | _, some e, _ => Run.after [.configureCluster] (Construct.leave w req defers none (some e))
      | _, none, .failedAfter m =>
        Run.after [.configureCluster, .setState .Created]
          (Construct.leave w req defers none (some m))
      | .failedAfter m, none, .ok =>
        Run.after [.configureCluster, .setState .Created]
          (Construct.leave w req defers none (some m))
      | .ok, none, .ok =>
        Run.after [.configureCluster, .setState .Created]
          (Construct.leave w req defers none none) := by
  unfold Construct.clusterConfiguration Construct.clusterConfiguration.updatefn
  rcases w.finalUpdate with _ | m | m <;> rcases w.configureCluster with _ | e <;>
    rcases w.finalState with _ | m' <;> rfl

theorem Construct.nodesConfiguration_updatefn_eq (w : World) (gs ms ps pubs : Err) :
    Construct.nodesConfiguration.updatefn w gs ms ps pubs =
      match gs, ms, ps, pubs with
      | none, none, none, none =>
        (none, [.start (.configureNodes false), .start (.configureNodes true),
          .receive (.configureNodes false) (w.configureNodes false),
          .receive (.configureNodes true) (w.configureNodes true)],
          w.configureNodes false, w.configureNodes true)
      | none, none, none, some p =>
        (none, [.start (.configureNodes false),
          .receive (.configureNodes false) (w.configureNodes false)],
          w.configureNodes false, some p)
      | none, none, some p, none =>
        (none, [.start (.configureNodes true),
          .receive (.configureNodes true) (w.configureNodes true)],
          some p, w.configureNodes true)
      | none, none, some p, some q => (none, [], some p, some q)
      | _, _, _, _ => (none, [], ps, pubs) := by
  unfold Construct.nodesConfiguration.updatefn
  rcases gs with _ | g <;> rcases ms with _ | g' <;> rcases ps with _ | p <;>
    rcases pubs with _ | p' <;> simp

theorem Construct.configuration_updatefn_eq (w : World) (gs ms : Err) :
    Construct.configuration.updatefn w gs ms =
      match gs, ms, w.configureGateway with
      | none, none, none =>
        (none, [.start .configureGateway, .receive .configureGateway none,
          .start .configureMasters, .receive .configureMasters w.configureMasters,
          .receive (.createNodes false) (w.createNodes false),
          .receive (.createNodes true) (w.createNodes true)],
          none, w.configureMasters, w.createNodes false, w.createNodes true)
      | none, none, some e =>
        (none, [.start .configureGateway, .receive .configureGateway (some e),
          .receive (.createNodes false) (w.createNodes false),
          .receive (.createNodes true) (w.createNodes true)],
          some e, none, w.createNodes false, w.createNodes true)
      | _, _, _ =>
        (none, [.receive (.createNodes false) (w.createNodes false),
          .receive (.createNodes true) (w.createNodes true)],
          gs, ms, w.createNodes false, w.createNodes true) := by
  unfold Construct.configuration.updatefn
  rcases gs with _ | g <;> rcases ms with _ | g' <;> rcases w.configureGateway with _ | c <;>
    simp

theorem Construct.nodesConfiguration_updatefn_fst (w : World) (gs ms ps pubs : Err) :
    (Construct.nodesConfiguration.updatefn w gs ms ps pubs).1 = none := by
  rw [Construct.nodesConfiguration_updatefn_eq]
  rcases gs with _ | g <;> rcases ms with _ | g' <;> rcases ps with _ | p <;>
    rcases pubs with _ | p' <;> rfl

theorem Construct.configuration_updatefn_fst (w : World) (gs ms : Err) :
    (Construct.configuration.updatefn w gs ms).1 = none := by
  rw [Construct.configuration_updatefn_eq]
  rcases gs with _ | g <;> rcases ms with _ | g' <;> rcases w.configureGateway with _ | c <;>
    rfl

theorem Construct.nodesConfiguration_eq (w : World) (req : Request) (defers : List Deferred)
    (gs ms ps pubs : Err) :
    Construct.nodesConfiguration w req defers gs ms ps pubs =
      match w.nodesUpdate with
      | .failedBefore m => Construct.leave w req (.nodes :: defers) (some m) (some m)
      | .failedAfter m =>
        Run.after (Construct.nodesConfiguration.updatefn w gs ms ps pubs).2.1
          (Construct.leave w req (.nodes :: defers) (some m) (some m))
      | .ok =>
        Run.after (Construct.nodesConfiguration.updatefn w gs ms ps pubs).2.1
          (Construct.propagateStatus w req (.nodes :: defers) gs ms
            (Construct.nodesConfiguration.updatefn w gs ms ps pubs).2.2.1
            (Construct.nodesConfiguration.updatefn w gs ms ps pubs).2.2.2) := by
  unfold Construct.nodesConfiguration
  have h := Construct.nodesConfiguration_updatefn_fst w gs ms ps pubs
  generalize Construct.nodesConfiguration.updatefn w gs ms ps pubs = fn at h ⊢
  obtain ⟨e, evs, p, q⟩ := fn
  simp only at h
  subst h
  rcases w.nodesUpdate with _ | m | m <;> simp [UpdateMetadata, Run.after_nil]

theorem Construct.configuration_eq (w : World) (req : Request) (defers : List Deferred)
    (gs ms : Err) :
    Construct.configuration w req defers gs ms =
      match w.configurationUpdate with
      | .failedBefore m => Construct.leave w req (.masters :: defers) (some m) (some m)
      | .failedAfter m =>
        Run.after (Construct.configuration.updatefn w gs ms).2.1
          (Construct.leave w req (.masters :: defers) (some m) (some m))
      | .ok =>
        Run.after (Construct.configuration.updatefn w gs ms).2.1
          (Construct.nodesConfiguration w req (.masters :: defers)
            (Construct.configuration.updatefn w gs ms).2.2.1
            (Construct.configuration.updatefn w gs ms).2.2.2.1
            (Construct.configuration.updatefn w gs ms).2.2.2.2.1
            (Construct.configuration.updatefn w gs ms).2.2.2.2.2) := by
  unfold Construct.configuration
  have h := Construct.configuration_updatefn_fst w gs ms
  generalize Construct.configuration.updatefn w gs ms = fn at h ⊢
  obtain ⟨e, evs, a, b, c, d⟩ := fn
  simp only at h
  subst h
  rcases w.configurationUpdate with _ | m | m <;> simp [UpdateMetadata, Run.after_nil]

theorem Construct.topology_eq (w : World) (req : Request) (defers : List Deferred) :
    Construct.topology w req defers =
      match w.topologyUpdate with
      | .failedBefore m => Construct.leave w req defers (some m) (some m)
      | .failedAfter m =>
        Run.after (Construct.topology.updatefn w).2.1
          (Construct.leave w req defers (some m) (some m))
      | .ok =>
        Run.after (Construct.topology.updatefn w).2.1
          (Construct.configuration w req defers w.installGateway w.createMasters) := by
  unfold Construct.topology Construct.topology.updatefn
  rcases w.topologyUpdate with _ | m | m <;> simp [UpdateMetadata, Run.after_nil]

/-- The callback that seeds the metadata performs events of the setup only, and has set State
to Creating when it returns `nil`. -/
theorem Construct.seedMetadata_updatefn_spec (w : World) (req : Request)
    (networkID imageID : String) (gatewayDef masterDef nodeDef : HostDefinition) :
    (∀ e ∈ (Construct.seedMetadata.updatefn w req networkID imageID gatewayDef masterDef
        nodeDef).2.1, e.isSetup = true)
    ∧ ((Construct.seedMetadata.updatefn w req networkID imageID gatewayDef masterDef
        nodeDef).1 = none →
      Event.setState .Creating ∈ (Construct.seedMetadata.updatefn w req networkID imageID
        gatewayDef masterDef nodeDef).2.1) := by
  unfold Construct.seedMetadata.updatefn
  rcases w.seedDefaults with _ | m1 <;> rcases w.seedState with _ | m2 <;>
    rcases w.seedComposite with _ | m3 <;> rcases w.seedNetwork with _ | m4 <;>
    simp [Construct.scope, LockForWrite.ThenUse, Event.isSetup]

theorem Construct.SetupThen.leave (w : World) (req : Request) (defers : List Deferred)
    (err : Err) (ret : String) :
    Construct.SetupThen w req (Construct.leave w req defers err (some ret)) :=
  ⟨[], by simp, Or.inl ⟨defers, err, some ret, by simp, rfl⟩⟩

theorem Construct.SetupThen.after {w : World} {req : Request} {r : Run} (pre : List Event)
    (hpre : ∀ e ∈ pre, e.isSetup = true) (h : Construct.SetupThen w req r) :
    Construct.SetupThen w req (Run.after pre r) := by
  obtain ⟨evs, h1, h2⟩ := h
  refine ⟨pre ++ evs, ?_, ?_⟩
  · intro e he
    rcases List.mem_append.mp he with he | he
    · exact hpre e he
    · exact h1 e he
  · rcases h2 with ⟨defers, err, ret, hr, h⟩ | ⟨networkID, hc, h⟩
    · exact Or.inl ⟨defers, err, ret, hr, by rw [h, Run.after_after]⟩
    · exact Or.inr ⟨networkID, List.mem_append_right _ hc, by rw [h, Run.after_after]⟩

theorem Construct.seedMetadata_setup (w : World) (req : Request)
    (name nid networkID imageID : String) (gatewayDef masterDef nodeDef : HostDefinition) :
    Construct.SetupThen w req
      (Construct.seedMetadata w req [.network nid] name networkID imageID gatewayDef masterDef
        nodeDef) := by
  unfold Construct.seedMetadata
  obtain ⟨h1, h2⟩ :=
    Construct.seedMetadata_updatefn_spec w req networkID imageID gatewayDef masterDef nodeDef
  generalize Construct.seedMetadata.updatefn w req networkID imageID gatewayDef masterDef
    nodeDef = fn at h1 h2 ⊢
  obtain ⟨e, evs, u⟩ := fn
  simp only at h1 h2
  rcases w.seedUpdate with _ | m | m
  · rcases e with _ | e
    · exact ⟨evs, h1, Or.inr ⟨nid, h2 rfl, rfl⟩⟩
    · exact Construct.SetupThen.after evs h1 (Construct.SetupThen.leave _ _ _ _ _)
  · exact Construct.SetupThen.leave _ _ _ _ _
  · rcases e with _ | e
    · exact Construct.SetupThen.after evs h1 (Construct.SetupThen.leave _ _ _ _ _)
    · exact Construct.SetupThen.after evs h1 (Construct.SetupThen.leave _ _ _ _ _)

theorem Construct.gateway_setup (w : World) (req : Request)
    (name nid networkID imageID : String) (gatewayDef masterDef nodeDef : HostDefinition) :
    Construct.SetupThen w req
      (Construct.gateway w req [.network nid] name networkID imageID gatewayDef masterDef
        nodeDef) := by
  unfold Construct.gateway
  split
  · exact Construct.SetupThen.leave _ _ _ _ _
  split
  · exact Construct.SetupThen.leave _ _ _ _ _
  split
  · exact Construct.SetupThen.leave _ _ _ _ _
  split
  · exact Construct.SetupThen.leave _ _ _ _ _
  · exact Construct.SetupThen.leave _ _ _ _ _
  split
  · exact Construct.SetupThen.leave _ _ _ _ _
  refine Construct.SetupThen.after _ (by simp [Event.isSetup]) ?_
  split
  · exact Construct.SetupThen.leave _ _ _ _ _
  · exact Construct.seedMetadata_setup _ _ _ _ _ _ _ _ _

/-- Every run of `Construct` either returns an error after events of the setup only, or reaches the launch
of the tasks after having set State to Creating. -/
theorem Construct_setup (w : World) (req : Request) :
    Construct.SetupThen w req (Construct w req) := by
  unfold Construct
  split
  · exact Construct.SetupThen.leave _ _ _ _ _
  · simp only []
    refine Construct.SetupThen.after _ (by simp [Event.isSetup]) ?_
    split
    · exact Construct.SetupThen.leave _ _ _ _ _
    · exact Construct.gateway_setup _ _ _ _ _ _ _ _ _

/-! #### Properties of all the events of a run -/

theorem Run.forall_after {P : Event → Prop} {evs : List Event} {r : Run}
    (h1 : ∀ e ∈ evs, P e) (h2 : ∀ e ∈ r.trace, P e) : ∀ e ∈ (Run.after evs r).trace, P e := by
  intro e he
  rcases List.mem_append.mp he with h | h
  · exact h1 e h
  · exact h2 e h

theorem Construct.runDeferred_isDeletion (w : World) (req : Request) (err : Err)
    (defers : List Deferred) :
    ∀ e ∈ Construct.runDeferred w req err defers, e.isDeletion = true := by
  induction defers with
  | nil => intro e he; cases he
  | cons d rest ih =>
    intro e he
    rcases List.mem_append.mp he with h | h
    · cases d <;> simp only [Construct.deferred] at h <;> split_ifs at h <;>
        simp only [List.mem_cons, List.mem_nil_iff, or_false, List.not_mem_nil] at h
      · subst h; rfl
      · subst h; rfl
      · subst h; rfl
      · rcases h with rfl | rfl <;> rfl
    · exact ih e h

theorem Construct.clusterConfiguration_forall (w : World) (req : Request) (P : Event → Prop)
    (hP : ∀ e, 5 ≤ e.phase → e.phase ≤ 5 → P e)
    (hL : ∀ defers err ret, ∀ e ∈ (Construct.leave w req defers err ret).trace, P e)
    (defers : List Deferred) :
    ∀ e ∈ (Construct.clusterConfiguration w req defers).trace, P e := by
  rw [Construct.clusterConfiguration_eq]
  rcases w.finalUpdate with _ | m | m <;> rcases w.configureCluster with _ | e <;>
    rcases w.finalState with _ | m' <;>
    first
    | exact hL _ _ _
    | refine Run.forall_after ?_ (hL _ _ _)
      simp only [List.forall_mem_cons, List.not_mem_nil, false_imp_iff, implies_true, and_true]
      repeat' constructor
      all_goals exact hP _ (by simp [Event.phase]) (by simp [Event.phase])

theorem Construct.propagateStatus_forall (w : World) (req : Request) (P : Event → Prop)
    (hP : ∀ e, 5 ≤ e.phase → e.phase ≤ 5 → P e)
    (hL : ∀ defers err ret, ∀ e ∈ (Construct.leave w req defers err ret).trace, P e)
    (defers : List Deferred) (gs ms ps pubs : Err) :
    ∀ e ∈ (Construct.propagateStatus w req defers gs ms ps pubs).trace, P e := by
  unfold Construct.propagateStatus
  split_ifs
  · exact hL _ _ _
  · exact hL _ _ _
  · exact hL _ _ _
  · exact hL _ _ _
  · exact Construct.clusterConfiguration_forall w req P hP hL _

theorem Construct.nodesConfiguration_forall (w : World) (req : Request) (P : Event → Prop)
    (hP : ∀ e, 4 ≤ e.phase → e.phase ≤ 5 → P e)
    (hL : ∀ defers err ret, ∀ e ∈ (Construct.leave w req defers err ret).trace, P e)
    (defers : List Deferred) (gs ms ps pubs : Err) :
    ∀ e ∈ (Construct.nodesConfiguration w req defers gs ms ps pubs).trace, P e := by
  have hev : ∀ e ∈ (Construct.nodesConfiguration.updatefn w gs ms ps pubs).2.1, P e := by
    rw [Construct.nodesConfiguration_updatefn_eq]
    rcases gs with _ | g <;> rcases ms with _ | g' <;> rcases ps with _ | p <;>
      rcases pubs with _ | p' <;>
      simp only [List.forall_mem_cons, List.not_mem_nil, false_imp_iff, implies_true,
        and_true] <;>
      repeat' constructor
    all_goals exact hP _ (by simp [Event.phase]) (by simp [Event.phase])
  rw [Construct.nodesConfiguration_eq]
  rcases w.nodesUpdate with _ | m | m
  · exact Run.forall_after hev
      (Construct.propagateStatus_forall w req P (fun e h1 h2 => hP e (by omega) h2) hL _ _ _ _ _)
  · exact hL _ _ _
  · exact Run.forall_after hev (hL _ _ _)

theorem Construct.configuration_forall (w : World) (req : Request) (P : Event → Prop)
    (hP : ∀ e, 3 ≤ e.phase → e.phase ≤ 5 → P e)
    (hL : ∀ defers err ret, ∀ e ∈ (Construct.leave w req defers err ret).trace, P e)
    (defers : List Deferred) (gs ms : Err) :
    ∀ e ∈ (Construct.configuration w req defers gs ms).trace, P e := by
  have hev : ∀ e ∈ (Construct.configuration.updatefn w gs ms).2.1, P e := by
    rw [Construct.configuration_updatefn_eq]
    rcases gs with _ | g <;> rcases ms with _ | g' <;> rcases w.configureGateway with _ | c <;>
      simp only [List.forall_mem_cons, List.not_mem_nil, false_imp_iff, implies_true,
        and_true] <;>
      repeat' constructor
    all_goals exact hP _ (by simp [Event.phase]) (by simp [Event.phase])
  rw [Construct.configuration_eq]
  rcases w.configurationUpdate with _ | m | m
  · exact Run.forall_after hev
      (Construct.nodesConfiguration_forall w req P (fun e h1 h2 => hP e (by omega) h2) hL
        _ _ _ _ _)
  · exact hL _ _ _
  · exact Run.forall_after hev (hL _ _ _)

theorem Construct.topology_forall (w : World) (req : Request) (P : Event → Prop)
    (hP : ∀ e, 2 ≤ e.phase → e.phase ≤ 5 → P e)
    (hL : ∀ defers err ret, ∀ e ∈ (Construct.leave w req defers err ret).trace, P e)
    (defers : List Deferred) :
    ∀ e ∈ (Construct.topology w req defers).trace, P e := by
  have hev : ∀ e ∈ (Construct.topology.updatefn w).2.1, P e := by
    simp only [Construct.topology.updatefn, List.forall_mem_cons, List.not_mem_nil,
      false_imp_iff, implies_true, and_true]
    repeat' constructor
    all_goals exact hP _ (by simp [Event.phase]) (by simp [Event.phase])
  rw [Construct.topology_eq]
  rcases w.topologyUpdate with _ | m | m
  · exact Run.forall_after hev
      (Construct.configuration_forall w req P (fun e h1 h2 => hP e (by omega) h2) hL _ _ _)
  · exact hL _ _ _
  · exact Run.forall_after hev (hL _ _ _)

/-- Every event of a run of `Construct` satisfies `P` as soon as the events of the setup, the
events of the later parts and the deferred deletions do. -/
theorem Construct_forall (w : World) (req : Request) (P : Event → Prop)
    (hS : ∀ e, e.isSetup = true → P e)
    (hP : ∀ e, 2 ≤ e.phase → e.phase ≤ 5 → P e)
    (hL : ∀ defers err ret, ∀ e ∈ (Construct.leave w req defers err ret).trace, P e) :
    ∀ e ∈ (Construct w req).trace, P e := by
  obtain ⟨evs, h1, h2⟩ := Construct_setup w req
  rcases h2 with ⟨defers, err, ret, -, h⟩ | ⟨networkID, -, h⟩
  · rw [h]
    exact Run.forall_after (fun e he => hS e (h1 e he)) (hL _ _ _)
  · rw [h]
    exact Run.forall_after (fun e he => hS e (h1 e he))
      (Construct.topology_forall w req P hP hL _)

theorem Event.phase_of_isDeletion (e : Event) (h : e.isDeletion = true) : e.phase = 6 := by
  cases e <;> simp_all [Event.isDeletion, Event.phase]

theorem Event.phase_of_isSetup (e : Event) (h : e.isSetup = true) : e.phase = 1 := by
  cases e with
  | setState st => cases st <;> simp_all [Event.isSetup, Event.phase]
  | _ => simp_all [Event.isSetup, Event.phase]

theorem Construct.leave_phase (w : World) (req : Request) (defers : List Deferred)
    (err ret : Err) : ∀ e ∈ (Construct.leave w req defers err ret).trace, e.phase = 6 :=
  fun e he => e.phase_of_isDeletion (Construct.runDeferred_isDeletion w req err defers e he)

theorem Construct.propagateStatus_phase (w : World) (req : Request) (defers : List Deferred)
    (gs ms ps pubs : Err) :
    ∀ e ∈ (Construct.propagateStatus w req defers gs ms ps pubs).trace, 5 ≤ e.phase :=
  Construct.propagateStatus_forall w req (fun e => 5 ≤ e.phase) (fun _ h _ => h)
    (fun _ _ _ e he => by
      show _ ≤ e.phase
      rw [Construct.leave_phase w req _ _ _ e he]; decide) _ _ _ _ _

theorem Construct.nodesConfiguration_phase (w : World) (req : Request) (defers : List Deferred)
    (gs ms ps pubs : Err) :
    ∀ e ∈ (Construct.nodesConfiguration w req defers gs ms ps pubs).trace, 4 ≤ e.phase :=
  Construct.nodesConfiguration_forall w req (fun e => 4 ≤ e.phase) (fun _ h _ => h)
    (fun _ _ _ e he => by
      show _ ≤ e.phase
      rw [Construct.leave_phase w req _ _ _ e he]; decide) _ _ _ _ _

/-! #### Order of events -/

theorem precededBy_of_not_mem (a b : Event) (l : List Event) (h : b ∉ l) :
    precededBy a b l = true := by
  induction l with
  | nil => rfl
  | cons e rest ih =>
    have h1 : e ≠ b := fun h' => h (h' ▸ List.mem_cons_self _ _)
    have h2 : b ∉ rest := fun h' => h (List.mem_cons_of_mem _ h')
    simp only [precededBy, h1, if_false, ih h2]
    split_ifs <;> rfl

theorem precededBy_append_left (a b : Event) (l1 l2 : List Event) (h : b ∉ l1)
    (h2 : precededBy a b l2 = true) : precededBy a b (l1 ++ l2) = true := by
  induction l1 with
  | nil => exact h2
  | cons e rest ih =>
    have h1 : e ≠ b := fun h' => h (h' ▸ List.mem_cons_self _ _)
    have h3 : b ∉ rest := fun h' => h (List.mem_cons_of_mem _ h')
    rw [List.cons_append, precededBy, if_neg h1, ih h3]
    split_ifs <;> rfl

theorem precededBy_append_of_mem (a b : Event) (l1 l2 : List Event) (hm : a ∈ l1)
    (h : precededBy a b l1 = true) : precededBy a b (l1 ++ l2) = true := by
  induction l1 with
  | nil => cases hm
  | cons e rest ih =>
    simp only [List.cons_append, precededBy] at h ⊢
    by_cases h1 : e = a
    · simp [h1]
    · simp only [h1, if_false] at h ⊢
      by_cases h2 : e = b
      · simp [h2] at h
      · simp only [h2, if_false] at h ⊢
        rcases List.mem_cons.mp hm with h3 | h3
        · exact absurd h3.symm h1
        · exact ih h3 h

theorem Construct.leave_precededBy (w : World) (req : Request) (defers : List Deferred)
    (err ret : Err) (a b : Event) (hb : b.phase < 6) :
    precededBy a b (Construct.leave w req defers err ret).trace = true :=
  precededBy_of_not_mem a b _ (fun h => by
    have := Construct.leave_phase w req defers err ret b h
    omega)

theorem Construct.propagateStatus_precededBy (w : World) (req : Request)
    (defers : List Deferred) (gs ms ps pubs : Err) (a b : Event) (hb : b.phase < 5) :
    precededBy a b (Construct.propagateStatus w req defers gs ms ps pubs).trace = true :=
  precededBy_of_not_mem a b _ (fun h => by
    have := Construct.propagateStatus_phase w req defers gs ms ps pubs b h
    omega)

theorem Construct.nodesConfiguration_precededBy (w : World) (req : Request)
    (defers : List Deferred) (gs ms ps pubs : Err) (a b : Event) (hb : b.phase < 4) :
    precededBy a b (Construct.nodesConfiguration w req defers gs ms ps pubs).trace = true :=
  precededBy_of_not_mem a b _ (fun h => by
    have := Construct.nodesConfiguration_phase w req defers gs ms ps pubs b h
    omega)

/-- In the part of `Construct` that starts at line 339, the configuration of the masters is
started only after the gateway configuration has reported success, and not at all when the
gateway installation or the master creation has failed. -/
theorem Construct.configuration_masters (w : World) (req : Request) (defers : List Deferred)
    (gs ms : Err) :
    precededBy (.receive .configureGateway none) (.start .configureMasters)
        (Construct.configuration w req defers gs ms).trace = true
    ∧ ((gs ≠ none ∨ ms ≠ none) →
        ∀ a, precededBy a (.start .configureMasters)
          (Construct.configuration w req defers gs ms).trace = true) := by
  have hN := fun a d g m p q => Construct.nodesConfiguration_precededBy w req d g m p q a
    (.start .configureMasters) (by decide)
  have hL : ∀ a d e, precededBy a (.start .configureMasters)
      (Construct.runDeferred w req e d) = true :=
    fun a d e => Construct.leave_precededBy w req d e none a _ (by decide)
  rw [Construct.configuration_eq, Construct.configuration_updatefn_eq]
  rcases w.configurationUpdate with _ | m | m <;> rcases gs with _ | g <;>
    rcases ms with _ | g' <;> rcases w.configureGateway with _ | c <;>
    simp [precededBy, hN, hL]

theorem Construct.topology_masters (w : World) (req : Request) (defers : List Deferred) :
    precededBy (.receive .installGateway none) (.start .configureMasters)
        (Construct.topology w req defers).trace = true
    ∧ precededBy (.receive .createMasters none) (.start .configureMasters)
        (Construct.topology w req defers).trace = true
    ∧ precededBy (.receive .configureGateway none) (.start .configureMasters)
        (Construct.topology w req defers).trace = true := by
  have hC1 := fun d g m => (Construct.configuration_masters w req d g m).1
  have hC2 : ∀ d g m a, (g ≠ none ∨ m ≠ none) → precededBy a (.start .configureMasters)
      (Construct.configuration w req d g m).trace = true :=
    fun d g m a h => (Construct.configuration_masters w req d g m).2 h a
  have hL : ∀ a d e, precededBy a (.start .configureMasters)
      (Construct.runDeferred w req e d) = true :=
    fun a d e => Construct.leave_precededBy w req d e none a _ (by decide)
  rw [Construct.topology_eq]
  rcases w.topologyUpdate with _ | m | m <;> rcases hg : w.installGateway with _ | g <;>
    rcases hm : w.createMasters with _ | g' <;>
    simp [precededBy, Construct.topology.updatefn, hC1, hC2, hL, hg, hm]

/-- A run that has the shape described by `SetupThen` satisfies an order property as soon as
the part that starts with the launch of the tasks does. -/
theorem Construct.precededBy_of_topology (w : World) (req : Request) (a b : Event)
    (hb1 : b.isSetup = false) (hb2 : b.phase < 6)
    (h : ∀ defers, precededBy a b (Construct.topology w req defers).trace = true) :
    precededBy a b (Construct w req).trace = true := by
  obtain ⟨evs, h1, h2⟩ := Construct_setup w req
  have hbe : b ∉ evs := fun hm => by simp [h1 b hm] at hb1
  rcases h2 with ⟨defers, err, ret, -, h'⟩ | ⟨networkID, -, h'⟩
  · rw [h']
    exact precededBy_append_left a b _ _ hbe (Construct.leave_precededBy w req _ _ _ a b hb2)
  · rw [h']
    exact precededBy_append_left a b _ _ hbe (h _)

/-- C7: in every run of `Construct`, every launch of the configuration of the masters comes
after a receive of `nil` from the gateway installation, after a receive of `nil` from the
master creation and after a receive of `nil` from the gateway configuration; the launch does
occur in the run where every call succeeds. -/
theorem C7_masters_configuration_gated (w : World) (req : Request) :
    precededBy (.receive .installGateway none) (.start .configureMasters)
        (Construct w req).trace = true
    ∧ precededBy (.receive .createMasters none) (.start .configureMasters)
        (Construct w req).trace = true
    ∧ precededBy (.receive .configureGateway none) (.start .configureMasters)
        (Construct w req).trace = true
    ∧ Event.start .configureMasters ∈ (Construct World.success (Request.sample false)).trace :=
  ⟨Construct.precededBy_of_topology w req _ _ rfl (by decide)
      (fun d => (Construct.topology_masters w req d).1),
    Construct.precededBy_of_topology w req _ _ rfl (by decide)
      (fun d => (Construct.topology_masters w req d).2.1),
    Construct.precededBy_of_topology w req _ _ rfl (by decide)
      (fun d => (Construct.topology_masters w req d).2.2),
    by decide⟩

/-- C10 (as stated, refuted): with KeepOnFailure = true and the gateway never ready for SSH
(line 232), `Construct` returns an error after having created the network and performs no
deletion, but it has written nothing to the Network group (lines 281-289 are not reached):
the network created is listed in no property group. Likewise a node whose host was created
and whose append scope reports an error is removed again from the Nodes group (lines
1137-1147), whatever KeepOnFailure is. -/
theorem C10_counterexample :
    (Construct { World.success with WaitReady := some "ssh timeout" }
        (Request.sample true)).result = some "ssh timeout"
    ∧ (Construct { World.success with WaitReady := some "ssh timeout" }
        (Request.sample true)).trace = [.createNetwork "net-c1" "192.168.0.0/24"]
    ∧ (asyncCreateNode { TaskWorld.requirementsFail with appendLock := .failedAfter "write failed" }
        "c1" .PrivateNode Nodes.empty ⟨[]⟩).done = some "failed to create node: write failed"
    ∧ (asyncCreateNode { TaskWorld.requirementsFail with appendLock := .failedAfter "write failed" }
        "c1" .PrivateNode Nodes.empty ⟨[]⟩).nodes.PrivateNodes = [] := by
  refine ⟨by decide, by decide, by decide, by decide⟩

/-- C10 (amended): with KeepOnFailure = true no run of `Construct`, whatever it returns,
performs a deletion of the network, of the metadata, of the masters or of the nodes. -/
theorem C10_keep_on_failure_no_deletion (w : World) (req : Request)
    (hk : req.KeepOnFailure = true) :
    ∀ e ∈ (Construct w req).trace, e.isDeletion = false := by
  apply Construct_forall w req (fun e => e.isDeletion = false)
  · intro e he
    cases e <;> simp_all [Event.isSetup, Event.isDeletion]
  · intro e h1 h2
    cases e <;> simp_all [Event.phase, Event.isDeletion]
  · intro defers err ret e he
    rw [Construct.leave_trace, Construct.runDeferred_keep w req err hk] at he
    cases he

theorem C10_keep_on_failure_no_deletion_witness :
    (Construct { World.success with createMasters := some "quota exceeded" }
        (Request.sample true)).result = some "quota exceeded"
    ∧ ∀ e ∈ (Construct { World.success with createMasters := some "quota exceeded" }
        (Request.sample true)).trace, e.isDeletion = false :=
  ⟨by decide, C10_keep_on_failure_no_deletion _ _ rfl⟩


/-- In the part of `Construct` that starts at line 372, the configuration of a category of
nodes is not started when the gateway status, the masters status or the status of the creation
of that category is an error. -/
theorem Construct.nodesConfiguration_nodes (w : World) (req : Request) (defers : List Deferred)
    (gs ms ps pubs : Err) (public_ : Bool)
    (h : gs ≠ none ∨ ms ≠ none ∨ (if public_ then pubs else ps) ≠ none) (a : Event) :
    precededBy a (.start (.configureNodes public_))
      (Construct.nodesConfiguration w req defers gs ms ps pubs).trace = true := by
  have hP : ∀ d g m p q, precededBy a (.start (.configureNodes public_))
      (Construct.propagateStatus w req d g m p q).trace = true :=
    fun d g m p q => Construct.propagateStatus_precededBy w req d g m p q a _
      (by cases public_ <;> decide)
  have hL : ∀ d e, precededBy a (.start (.configureNodes public_))
      (Construct.runDeferred w req e d) = true :=
    fun d e => Construct.leave_precededBy w req d e none a _ (by cases public_ <;> decide)
  rw [Construct.nodesConfiguration_eq, Construct.nodesConfiguration_updatefn_eq]
  cases public_ <;> rcases w.nodesUpdate with _ | m | m <;> rcases gs with _ | g <;>
    rcases ms with _ | g' <;> rcases ps with _ | p <;> rcases pubs with _ | p' <;>
    simp [precededBy, hP, hL] at h ⊢

/-- In the part of `Construct` that starts at line 339, the configuration of a category of
nodes is started only after the gateway configuration and the master configuration have been
started and have reported success, and after the creation of that category has reported
success. -/
theorem Construct.configuration_nodes (w : World) (req : Request) (defers : List Deferred)
    (gs ms : Err) (public_ : Bool) :
    precededBy (.start .configureGateway) (.start (.configureNodes public_))
        (Construct.configuration w req defers gs ms).trace = true
    ∧ precededBy (.receive .configureGateway none) (.start (.configureNodes public_))
        (Construct.configuration w req defers gs ms).trace = true
    ∧ precededBy (.start .configureMasters) (.start (.configureNodes public_))
        (Construct.configuration w req defers gs ms).trace = true
    ∧ precededBy (.receive .configureMasters none) (.start (.configureNodes public_))
        (Construct.configuration w req defers gs ms).trace = true
    ∧ precededBy (.receive (.createNodes public_) none) (.start (.configureNodes public_))
        (Construct.configuration w req defers gs ms).trace = true := by
  have hN : ∀ a d g m p q, (g ≠ none ∨ m ≠ none ∨ (if public_ then q else p) ≠ none) →
      precededBy a (.start (.configureNodes public_))
        (Construct.nodesConfiguration w req d g m p q).trace = true :=
    fun a d g m p q h => Construct.nodesConfiguration_nodes w req d g m p q public_ h a
  have hL : ∀ a d e, precededBy a (.start (.configureNodes public_))
      (Construct.runDeferred w req e d) = true :=
    fun a d e => Construct.leave_precededBy w req d e none a _ (by cases public_ <;> decide)
  rw [Construct.configuration_eq, Construct.configuration_updatefn_eq]
  cases public_
  · rcases w.configurationUpdate with _ | m | m <;> rcases gs with _ | g <;>
      rcases ms with _ | g' <;> rcases hcg : w.configureGateway with _ | c <;>
      rcases hcm : w.configureMasters with _ | c' <;>
      rcases hp : w.createNodes false with _ | p <;>
      simp [precededBy, hN, hL, hcg, hcm, hp]
  · rcases w.configurationUpdate with _ | m | m <;> rcases gs with _ | g <;>
      rcases ms with _ | g' <;> rcases hcg : w.configureGateway with _ | c <;>
      rcases hcm : w.configureMasters with _ | c' <;>
      rcases hp : w.createNodes true with _ | p <;>
      simp [precededBy, hN, hL, hcg, hcm, hp]

theorem Construct.topology_nodes (w : World) (req : Request) (defers : List Deferred)
    (public_ : Bool) (a : Event)
    (h : ∀ d g m, precededBy a (.start (.configureNodes public_))
      (Construct.configuration w req d g m).trace = true) :
    precededBy a (.start (.configureNodes public_))
      (Construct.topology w req defers).trace = true := by
  have hb : Event.start (.configureNodes public_) ∉ (Construct.topology.updatefn w).2.1 := by
    cases public_ <;> simp [Construct.topology.updatefn]
  rw [Construct.topology_eq]
  rcases w.topologyUpdate with _ | m | m
  · exact precededBy_append_left _ _ _ _ hb (h _ _ _)
  · exact Construct.leave_precededBy w req _ _ _ _ _ (by cases public_ <;> decide)
  · exact precededBy_append_left _ _ _ _ hb
      (Construct.leave_precededBy w req _ _ _ _ _ (by cases public_ <;> decide))

/-- C8: in every run of `Construct`, every launch of the configuration of a category of nodes
(private or public) comes after the launch of the gateway configuration and a receive of
`nil` from it, after the launch of the master configuration and a receive of `nil` from it,
and after a receive of `nil` from the creation of the nodes of that category; the launch does
occur in the run where every call succeeds. -/
theorem C8_nodes_configuration_gated (w : World) (req : Request) (public_ : Bool) :
    precededBy (.start .configureGateway) (.start (.configureNodes public_))
        (Construct w req).trace = true
    ∧ precededBy (.receive .configureGateway none) (.start (.configureNodes public_))
        (Construct w req).trace = true
    ∧ precededBy (.start .configureMasters) (.start (.configureNodes public_))
        (Construct w req).trace = true
    ∧ precededBy (.receive .configureMasters none) (.start (.configureNodes public_))
        (Construct w req).trace = true
    ∧ precededBy (.receive (.createNodes public_) none) (.start (.configureNodes public_))
        (Construct w req).trace = true
    ∧ Event.start (.configureNodes public_)
        ∈ (Construct World.success (Request.sample false)).trace := by
  have hs : (Event.start (.configureNodes public_)).isSetup = false := by cases public_ <;> rfl
  have hp : (Event.start (.configureNodes public_)).phase < 6 := by cases public_ <;> decide
  refine ⟨?_, ?_, ?_, ?_, ?_, ?_⟩
  · exact Construct.precededBy_of_topology w req _ _ hs hp (fun d =>
      Construct.topology_nodes w req d public_ _
        (fun d g m => (Construct.configuration_nodes w req d g m public_).1))
  · exact Construct.precededBy_of_topology w req _ _ hs hp (fun d =>
      Construct.topology_nodes w req d public_ _
        (fun d g m => (Construct.configuration_nodes w req d g m public_).2.1))
  · exact Construct.precededBy_of_topology w req _ _ hs hp (fun d =>
      Construct.topology_nodes w req d public_ _
        (fun d g m => (Construct.configuration_nodes w req d g m public_).2.2.1))
  · exact Construct.precededBy_of_topology w req _ _ hs hp (fun d =>
      Construct.topology_nodes w req d public_ _
        (fun d g m => (Construct.configuration_nodes w req d g m public_).2.2.2.1))
  · exact Construct.precededBy_of_topology w req _ _ hs hp (fun d =>
      Construct.topology_nodes w req d public_ _
        (fun d g m => (Construct.configuration_nodes w req d g m public_).2.2.2.2))
  · cases public_ <;> decide

theorem Construct.runDeferred_not_created (w : World) (req : Request) (err : Err)
    (defers : List Deferred) :
    Event.setState .Created ∉ Construct.runDeferred w req err defers :=
  fun h => by simpa [Event.isDeletion] using Construct.runDeferred_isDeletion w req err defers _ h

theorem Construct.clusterConfiguration_created (w : World) (req : Request)
    (defers : List Deferred)
    (h : Event.setState .Created ∈ (Construct.clusterConfiguration w req defers).trace) :
    w.configureCluster = none
      ∧ ((Construct.clusterConfiguration w req defers).result ≠ none → w.PersistFailed) := by
  have hL := Construct.runDeferred_not_created w req
  rw [Construct.clusterConfiguration_eq] at h ⊢
  unfold World.PersistFailed
  rcases hfu : w.finalUpdate with _ | m | m <;> rcases hcc : w.configureCluster with _ | e <;>
    rcases hfs : w.finalState with _ | m' <;>
    simp [hfu, hcc, hfs, hL] at h ⊢

theorem Construct.propagateStatus_created (w : World) (req : Request) (defers : List Deferred)
    (gs ms ps pubs : Err)
    (h : Event.setState .Created ∈ (Construct.propagateStatus w req defers gs ms ps pubs).trace) :
    gs = none ∧ ms = none ∧ ps = none ∧ pubs = none ∧ w.configureCluster = none
      ∧ ((Construct.propagateStatus w req defers gs ms ps pubs).result ≠ none
          → w.PersistFailed) := by
  have hL := Construct.runDeferred_not_created w req
  unfold Construct.propagateStatus at h ⊢
  rcases gs with _ | g <;> rcases ms with _ | g' <;> rcases ps with _ | p <;>
    rcases pubs with _ | p' <;> simp [hL] at h ⊢
  exact Construct.clusterConfiguration_created w req defers h

theorem Construct.nodesConfiguration_created (w : World) (req : Request)
    (defers : List Deferred) (gs ms ps pubs : Err)
    (h : Event.setState .Created
      ∈ (Construct.nodesConfiguration w req defers gs ms ps pubs).trace) :
    gs = none ∧ ms = none ∧ ps = none ∧ pubs = none
      ∧ (∀ p, w.configureNodes p = none) ∧ w.configureCluster = none
      ∧ ((Construct.nodesConfiguration w req defers gs ms ps pubs).result ≠ none
          → w.PersistFailed) := by
  have hL := Construct.runDeferred_not_created w req
  rw [Construct.nodesConfiguration_eq, Construct.nodesConfiguration_updatefn_eq] at h ⊢
  rcases hnu : w.nodesUpdate with _ | m | m <;> rcases gs with _ | g <;>
    rcases ms with _ | g' <;> rcases ps with _ | p <;> rcases pubs with _ | p' <;>
    simp [hnu, hL, Bool.forall_bool] at h ⊢ <;>
    (have h' := Construct.propagateStatus_created w req _ _ _ _ _ h
     simp_all)

theorem Construct.configuration_created (w : World) (req : Request)
    (defers : List Deferred) (gs ms : Err)
    (h : Event.setState .Created ∈ (Construct.configuration w req defers gs ms).trace) :
    gs = none ∧ ms = none ∧ w.configureGateway = none ∧ w.configureMasters = none
      ∧ (∀ p, w.createNodes p = none)
      ∧ (∀ p, w.configureNodes p = none) ∧ w.configureCluster = none
      ∧ ((Construct.configuration w req defers gs ms).result ≠ none → w.PersistFailed) := by
  have hL := Construct.runDeferred_not_created w req
  rw [Construct.configuration_eq, Construct.configuration_updatefn_eq] at h ⊢
  rcases hnu : w.configurationUpdate with _ | m | m <;> rcases gs with _ | g <;>
    rcases ms with _ | g' <;> rcases hcg : w.configureGateway with _ | c <;>
    simp [hnu, hcg, hL, Bool.forall_bool] at h ⊢ <;>
    (have h' := Construct.nodesConfiguration_created w req _ _ _ _ _ h
     simp_all)

theorem Construct.topology_created (w : World) (req : Request) (defers : List Deferred)
    (h : Event.setState .Created ∈ (Construct.topology w req defers).trace) :
    w.AllSucceeded ∧ ((Construct.topology w req defers).result ≠ none → w.PersistFailed) := by
  have hL := Construct.runDeferred_not_created w req
  rw [Construct.topology_eq] at h ⊢
  unfold World.AllSucceeded
  rcases hnu : w.topologyUpdate with _ | m | m <;>
    simp [hnu, hL, Construct.topology.updatefn] at h ⊢
  have h' := Construct.configuration_created w req _ _ _ h
  simp_all

theorem Construct_created (w : World) (req : Request)
    (h : Event.setState .Created ∈ (Construct w req).trace) :
    w.AllSucceeded ∧ ((Construct w req).result ≠ none → w.PersistFailed) := by
  obtain ⟨evs, h1, h2⟩ := Construct_setup w req
  have hne : Event.setState .Created ∉ evs := fun hm => by simpa [Event.isSetup] using h1 _ hm
  rcases h2 with ⟨defers, err, ret, -, h'⟩ | ⟨networkID, -, h'⟩
  · rw [h'] at h
    rcases List.mem_append.mp h with h | h
    · exact absurd h hne
    · exact absurd h (Construct.runDeferred_not_created w req _ _)
  · rw [h'] at h ⊢
    rcases List.mem_append.mp h with h | h
    · exact absurd h hne
    · exact Construct.topology_created w req _ h

theorem Construct_creating_first (w : World) (req : Request) (task : Task) :
    precededBy (.setState .Creating) (.start task) (Construct w req).trace = true := by
  obtain ⟨evs, h1, h2⟩ := Construct_setup w req
  have hne : Event.start task ∉ evs := fun hm => by simpa [Event.isSetup] using h1 _ hm
  rcases h2 with ⟨defers, err, ret, -, h'⟩ | ⟨networkID, hc, h'⟩
  · rw [h']
    exact precededBy_append_left _ _ _ _ hne
      (Construct.leave_precededBy w req _ _ _ _ _ (by cases task <;> simp [Event.phase]))
  · rw [h']
    exact precededBy_append_of_mem _ _ _ _ hc (precededBy_of_not_mem _ _ _ hne)

/-- C9 (as stated, refuted): when every call succeeds except the persisting of the metadata at
the end of the last update (line 428), `Construct` returns that error although the callback has
set State to Created. -/
theorem C9_counterexample :
    (Construct { World.success with finalUpdate := .failedAfter "metadata write failed" }
        (Request.sample false)).result = some "metadata write failed"
    ∧ Event.setState .Created
        ∈ (Construct { World.success with finalUpdate := .failedAfter "metadata write failed" }
            (Request.sample false)).trace := by
  constructor <;> decide

/-- C9 (amended): in every run of `Construct`, State is set to Creating before any task is
launched; State is set to Created only if the gateway installation and configuration, the
master creation and configuration, the creation and configuration of the private and of the
public nodes and `configureCluster` all succeeded; and when `Construct` returns an error after
State was set to Created, persisting that last write has failed. -/
theorem C9_state_creating_then_created (w : World) (req : Request) :
    (∀ task, precededBy (.setState .Creating) (.start task) (Construct w req).trace = true)
    ∧ (Event.setState .Created ∈ (Construct w req).trace → w.AllSucceeded)
    ∧ (Event.setState .Created ∈ (Construct w req).trace → (Construct w req).result ≠ none →
        w.PersistFailed) :=
  ⟨Construct_creating_first w req, fun h => (Construct_created w req h).1,
    fun h => (Construct_created w req h).2⟩

theorem C9_state_creating_then_created_witness :
    World.success.AllSucceeded
    ∧ World.PersistFailed
        { World.success with finalUpdate := .failedAfter "metadata write failed" } :=
  ⟨(C9_state_creating_then_created World.success (Request.sample false)).2.1 (by decide),
    (C9_state_creating_then_created
      { World.success with finalUpdate := .failedAfter "metadata write failed" }
      (Request.sample false)).2.2 (by decide) (by decide)⟩

/-- C1 (evaluation at the failing input): every call succeeds except `configureCluster`, and
KeepOnFailure is false. `Construct` returns the error of `configureCluster`, the network was
created and the tasks creating masters and nodes were run, and no deletion is performed: the
last `return` does not assign the variable `err` read by the deferred functions. The same
holds when the gateway metadata is not found (line 228): the network is not deleted. When
instead the master creation fails, the error goes through `err` (line 416) and the nodes, the
masters, the metadata and the network are deleted. -/
theorem C1_failure_without_rollback :
    (Construct { World.success with configureCluster := some "remotedesktop failed" }
        (Request.sample false)).result = some "remotedesktop failed"
    ∧ Event.createNetwork "net-c1" "192.168.0.0/24"
        ∈ (Construct { World.success with configureCluster := some "remotedesktop failed" }
            (Request.sample false)).trace
    ∧ Event.receive .createMasters none
        ∈ (Construct { World.success with configureCluster := some "remotedesktop failed" }
            (Request.sample false)).trace
    ∧ (∀ e ∈ (Construct { World.success with configureCluster := some "remotedesktop failed" }
            (Request.sample false)).trace, e.isDeletion = false)
    ∧ (Construct { World.success with GatewayRead := (false, none) }
        (Request.sample false)).result = some "[cluster c1] failed to load gateway metadata"
    ∧ (Construct { World.success with GatewayRead := (false, none) }
        (Request.sample false)).trace = [Event.createNetwork "net-c1" "192.168.0.0/24"]
    ∧ (Construct { World.success with createMasters := some "quota exceeded" }
        (Request.sample false)).trace.filter Event.isDeletion
      = [.deleteNodes false ["node-1"], .deleteNodes true ["pubnode-1"],
          .deleteMasters ["master-1", "master-2"], .deleteMetadata, .deleteNetwork "net-id"] := by
  refine ⟨by decide, by decide, by decide, by decide, by decide, by decide, by decide⟩

/-! ### Rollback order and returned error -/

theorem Construct_reaches_topology (w : World) (req : Request) (networkID : String)
    (h : w.Reaches networkID) :
    ∃ evs, (∀ e ∈ evs, e.isSetup = true)
      ∧ Construct w req
        = Run.after evs (Construct.topology w req [.metadata, .network networkID]) := by
  obtain ⟨h1, h2, h3, h4, h5, h6, h7, h8, h9, h10, h11, h12, h13, -, -⟩ := h
  apply Exists.intro
  constructor
  swap
  · simp only [Construct, Construct.gateway, Construct.seedMetadata,
      Construct.seedMetadata.updatefn, Construct.scope, LockForWrite.ThenUse, UpdateMetadata,
      h1, h2, h3, h4, h5, h6, h7, h8, h9, h10, h11, h12, h13, Run.after_after]
    simp only [ne_eq, not_true_eq_false, if_false, Run.after_after]
    rfl
  · simp [Event.isSetup]

theorem Run.exists_after {target : Run} (pre : List Event) (r : Run)
    (hpre : ∀ x ∈ pre, x.isDeletion = false)
    (h : ∃ evs, (∀ x ∈ evs, x.isDeletion = false) ∧ r = Run.after evs target) :
    ∃ evs, (∀ x ∈ evs, x.isDeletion = false) ∧ Run.after pre r = Run.after evs target := by
  obtain ⟨evs, h1, h2⟩ := h
  exact ⟨pre ++ evs, List.forall_mem_append.mpr ⟨hpre, h1⟩, by rw [h2, Run.after_after]⟩

theorem Construct.propagateStatus_firstError (w : World) (req : Request)
    (defers : List Deferred) (gs ms ps pubs : Err) (e : String)
    (hf : firstError [gs, ms, ps, pubs] = some e) :
    Construct.propagateStatus w req defers gs ms ps pubs
      = Construct.leave w req defers (some e) (some e) := by
  unfold Construct.propagateStatus
  rcases gs with _ | a1 <;> rcases ms with _ | a2 <;> rcases ps with _ | a3 <;>
    rcases pubs with _ | a4 <;> simp [firstError] at hf ⊢ <;> simp [hf]

theorem Construct.nodesConfiguration_firstError (w : World) (req : Request)
    (defers : List Deferred) (gs ms ps pubs : Err) (hn : w.nodesUpdate = .ok) (e : String)
    (hf : firstError [gs, ms, ps, w.configureNodes false, pubs, w.configureNodes true]
      = some e) :
    ∃ evs, (∀ x ∈ evs, x.isDeletion = false)
      ∧ Construct.nodesConfiguration w req defers gs ms ps pubs
        = Run.after evs (Construct.leave w req (.nodes :: defers) (some e) (some e)) := by
  rw [Construct.nodesConfiguration_eq]
  simp only [hn]
  rw [Construct.nodesConfiguration_updatefn_eq]
  rcases gs with _ | a1 <;> rcases ms with _ | a2 <;> rcases ps with _ | a3 <;>
    rcases pubs with _ | a4 <;> rcases hx : w.configureNodes false with _ | z <;>
    simp only [firstError, hx] at hf ⊢ <;>
    exact ⟨_, by simp [Event.isDeletion],
      congrArg _ (Construct.propagateStatus_firstError w req _ _ _ _ _ e
        (by simp_all [firstError]))⟩

theorem Construct.configuration_firstError (w : World) (req : Request)
    (defers : List Deferred) (gs ms : Err) (hc : w.configurationUpdate = .ok)
    (hn : w.nodesUpdate = .ok) (e : String)
    (hf : firstError [gs, ms, w.configureGateway, w.configureMasters, w.createNodes false,
      w.configureNodes false, w.createNodes true, w.configureNodes true] = some e) :
    ∃ evs, (∀ x ∈ evs, x.isDeletion = false)
      ∧ Construct.configuration w req defers gs ms
        = Run.after evs
            (Construct.leave w req (.nodes :: .masters :: defers) (some e) (some e)) := by
  rw [Construct.configuration_eq]
  simp only [hc]
  rw [Construct.configuration_updatefn_eq]
  rcases gs with _ | a1 <;> rcases ms with _ | a2 <;>
    rcases h3 : w.configureGateway with _ | a3 <;>
    simp only [firstError, h3] at hf ⊢ <;>
    refine Run.exists_after _ _ (by simp [Event.isDeletion])
      (Construct.nodesConfiguration_firstError w req _ _ _ _ _ hn e ?_) <;>
    simp_all [firstError]

theorem Construct.topology_firstFailure (w : World) (req : Request) (defers : List Deferred)
    (ht : w.topologyUpdate = .ok) (hc : w.configurationUpdate = .ok) (hn : w.nodesUpdate = .ok)
    (e : String) (hf : w.firstFailure = some e) :
    ∃ evs, (∀ x ∈ evs, x.isDeletion = false)
      ∧ Construct.topology w req defers
        = Run.after evs
            (Construct.leave w req (.nodes :: .masters :: defers) (some e) (some e)) := by
  rw [Construct.topology_eq]
  simp only [ht]
  exact Run.exists_after _ _ (by simp [Construct.topology.updatefn, Event.isDeletion])
    (Construct.configuration_firstError w req defers _ _ hc hn e hf)

theorem Construct.nodesConfiguration_updatefn_noDeletion (w : World) (gs ms ps pubs : Err) :
    ∀ x ∈ (Construct.nodesConfiguration.updatefn w gs ms ps pubs).2.1,
      x.isDeletion = false := by
  rw [Construct.nodesConfiguration_updatefn_eq]
  rcases gs with _ | a1 <;> rcases ms with _ | a2 <;> rcases ps with _ | a3 <;>
    rcases pubs with _ | a4 <;> simp [Event.isDeletion]

theorem Construct.configuration_updatefn_noDeletion (w : World) (gs ms : Err) :
    ∀ x ∈ (Construct.configuration.updatefn w gs ms).2.1, x.isDeletion = false := by
  rw [Construct.configuration_updatefn_eq]
  rcases gs with _ | a1 <;> rcases ms with _ | a2 <;>
    rcases w.configureGateway with _ | a3 <;> simp [Event.isDeletion]

theorem Construct.topology_nodesUpdate_failed (w : World) (req : Request)
    (defers : List Deferred) (ht : w.topologyUpdate = .ok) (hc : w.configurationUpdate = .ok)
    (hn : w.nodesUpdate ≠ .ok) :
    ∃ m evs, (∀ x ∈ evs, x.isDeletion = false)
      ∧ Construct.topology w req defers
        = Run.after evs
            (Construct.leave w req (.nodes :: .masters :: defers) (some m) (some m)) := by
  rw [Construct.topology_eq]
  simp only [ht]
  rw [Construct.configuration_eq]
  simp only [hc]
  rw [Construct.nodesConfiguration_eq]
  rcases hnu : w.nodesUpdate with _ | m | m
  · exact absurd hnu hn
  · refine ⟨m, ?_⟩
    refine Run.exists_after _ _ (by simp [Construct.topology.updatefn, Event.isDeletion]) ?_
    exact ⟨_, Construct.configuration_updatefn_noDeletion w _ _, rfl⟩
  · refine ⟨m, ?_⟩
    refine Run.exists_after _ _ (by simp [Construct.topology.updatefn, Event.isDeletion]) ?_
    refine Run.exists_after _ _ (Construct.configuration_updatefn_noDeletion w _ _) ?_
    exact ⟨_, Construct.nodesConfiguration_updatefn_noDeletion w _ _ _ _, rfl⟩

/-- The deletions of a run that ends, after events that are no deletions, with a `return`. -/
theorem Run.filter_after_leave (w : World) (req : Request) (defers : List Deferred)
    (err ret : Err) (evs : List Event) (h : ∀ x ∈ evs, x.isDeletion = false) :
    (Run.after evs (Construct.leave w req defers err ret)).trace.filter Event.isDeletion
      = Construct.runDeferred w req err defers := by
  rw [Run.after_trace, List.filter_append, Construct.leave_trace,
    List.filter_eq_nil_iff.mpr (fun x hx => by simp [h x hx]),
    List.filter_eq_self.mpr (Construct.runDeferred_isDeletion w req err defers)]
  rfl

/-- A run that reaches line 372 and ends with a non-nil `err` is a sequence of events that are
no deletions followed by a `return` with the four deferred functions registered. -/
theorem Construct_endsWithErr (w : World) (req : Request) (networkID : String)
    (hr : w.Reaches networkID) (hf : w.EndsWithErr) :
    ∃ m evs, (∀ x ∈ evs, x.isDeletion = false)
      ∧ Construct w req = Run.after evs
          (Construct.leave w req [.nodes, .masters, .metadata, .network networkID]
            (some m) (some m)) := by
  obtain ⟨evs0, h0, heq⟩ := Construct_reaches_topology w req networkID hr
  have h0' : ∀ x ∈ evs0, x.isDeletion = false := fun x hx => by
    have := h0 x hx
    cases x <;> simp_all [Event.isSetup, Event.isDeletion]
  have ht := hr.2.2.2.2.2.2.2.2.2.2.2.2.2.1
  have hc := hr.2.2.2.2.2.2.2.2.2.2.2.2.2.2
  rw [heq]
  by_cases hn : w.nodesUpdate = .ok
  · rcases hf with hf | hf
    · exact absurd hn hf
    · obtain ⟨e, he⟩ := Option.ne_none_iff_exists'.mp hf
      exact ⟨e, Run.exists_after _ _ h0' (Construct.topology_firstFailure w req _ ht hc hn e he)⟩
  · obtain ⟨m, h⟩ := Construct.topology_nodesUpdate_failed w req
      [.metadata, .network networkID] ht hc hn
    exact ⟨m, Run.exists_after _ _ h0' h⟩

/-- C11 (as stated, refuted): when the master creation fails, with KeepOnFailure = false, the
deletions are performed in the order private nodes, public nodes, masters, metadata, network:
the metadata are deleted before the network, not after. -/
theorem C11_counterexample :
    (Construct { World.success with createMasters := some "quota exceeded" }
        (Request.sample false)).trace.filter Event.isDeletion
      = [.deleteNodes false ["node-1"], .deleteNodes true ["pubnode-1"],
          .deleteMasters ["master-1", "master-2"], .deleteMetadata, .deleteNetwork "net-id"]
    ∧ (Construct { World.success with createMasters := some "quota exceeded" }
        (Request.sample false)).trace.filter Event.isDeletion
      ≠ [.deleteNodes false ["node-1"], .deleteNodes true ["pubnode-1"],
          .deleteMasters ["master-1", "master-2"], .deleteNetwork "net-id", .deleteMetadata] := by
  constructor <;> decide

/-- C11 (amended): when `Construct`, with KeepOnFailure = false, has registered its four
deferred functions and ends with a non-nil `err` (a task reported an error, or the metadata
update of step 6 failed), the deletions performed are, in this order: the private nodes, the
public nodes, the masters, the metadata of the cluster, the network. -/
theorem C11_rollback_order (w : World) (req : Request) (networkID : String)
    (hk : req.KeepOnFailure = false) (hr : w.Reaches networkID) (hf : w.EndsWithErr) :
    (Construct w req).trace.filter Event.isDeletion
      = [.deleteNodes false (w.ListNodeIDs false), .deleteNodes true (w.ListNodeIDs true),
          .deleteMasters w.ListMasterIDs, .deleteMetadata, .deleteNetwork networkID] := by
  obtain ⟨m, evs, h1, h2⟩ := Construct_endsWithErr w req networkID hr hf
  rw [h2, Run.filter_after_leave w req _ _ _ evs h1]
  simp [Construct.runDeferred, Construct.deferred, hk]

theorem C11_rollback_order_witness :
    (Request.sample false).KeepOnFailure = false
    ∧ World.Reaches { World.success with configureMasters := some "ssh timeout" } "net-id"
    ∧ World.EndsWithErr { World.success with configureMasters := some "ssh timeout" }
    ∧ (Construct { World.success with configureMasters := some "ssh timeout" }
        (Request.sample false)).trace.filter Event.isDeletion
      = [.deleteNodes false ["node-1"], .deleteNodes true ["pubnode-1"],
          .deleteMasters ["master-1", "master-2"], .deleteMetadata, .deleteNetwork "net-id"] :=
  ⟨rfl, by simp [World.Reaches, World.success], Or.inr (by decide),
    C11_rollback_order { World.success with configureMasters := some "ssh timeout" }
      (Request.sample false) "net-id" rfl (by simp [World.Reaches, World.success])
      (Or.inr (by decide))⟩

/-- C13 (as stated, refuted): when the gateway installation and the master creation both
fail, `Construct` returns the error of the gateway installation alone; the message of the
master creation is not in it. -/
theorem C13_counterexample :
    (Construct { World.success with
        installGateway := some "gateway: ssh unreachable",
        createMasters := some "masters: quota exceeded" }
      (Request.sample false)).result = some "gateway: ssh unreachable"
    ∧ ¬ ("masters: quota exceeded".data <:+: "gateway: ssh unreachable".data) := by
  constructor <;> decide

/-- C13 (amended): when several tasks of `Construct` fail (and the metadata updates
succeed), the error returned is the error of one of them, unchanged: the first in the order
gateway installation, master creation, gateway configuration, master configuration, creation
then configuration of the private nodes, creation then configuration of the public nodes. -/
theorem C13_first_failure_returned (w : World) (req : Request) (networkID : String)
    (hr : w.Reaches networkID) (hn : w.nodesUpdate = .ok) (e : String)
    (hf : w.firstFailure = some e) :
    (Construct w req).result = some e := by
  obtain ⟨evs0, -, heq⟩ := Construct_reaches_topology w req networkID hr
  obtain ⟨evs, -, h⟩ := Construct.topology_firstFailure w req [.metadata, .network networkID]
    hr.2.2.2.2.2.2.2.2.2.2.2.2.2.1 hr.2.2.2.2.2.2.2.2.2.2.2.2.2.2 hn e hf
  rw [heq, h]
  rfl

theorem C13_first_failure_returned_witness :
    World.Reaches { World.success with
        createMasters := some "masters: quota exceeded",
        createNodes := fun _ => some "nodes: quota exceeded" } "net-id"
    ∧ World.firstFailure { World.success with
        createMasters := some "masters: quota exceeded",
        createNodes := fun _ => some "nodes: quota exceeded" } = some "masters: quota exceeded"
    ∧ (Construct { World.success with
        createMasters := some "masters: quota exceeded",
        createNodes := fun _ => some "nodes: quota exceeded" }
      (Request.sample false)).result = some "masters: quota exceeded" :=
  ⟨by simp [World.Reaches, World.success], by decide,
    C13_first_failure_returned _ (Request.sample false) "net-id"
      (by simp [World.Reaches, World.success]) rfl _ (by decide)⟩

/-! ### Fan-out of the creation tasks -/

/-- The indices of the tasks of a fan-out of `count` tasks are 1, ..., count. -/
theorem mem_fan_indices (count : Int) (i : Nat) :
    i ∈ (List.range count.toNat).map (fun k => k + 1) ↔ 1 ≤ i ∧ (i : Int) ≤ count := by
  simp only [List.mem_map, List.mem_range]
  constructor
  · rintro ⟨k, hk, rfl⟩
    omega
  · rintro ⟨h1, h2⟩
    exact ⟨i - 1, by omega, by omega⟩

/-- No error message is collected exactly when every state received is nil. -/
theorem filterMap_id_length_pos (states : List Err) :
    ¬ (states.filterMap id).length > 0 ↔ ∀ s ∈ states, s = none := by
  induction states with
  | nil => simp
  | cons s rest ih =>
    cases s with
    | none => simp [ih]
    | some e => simp

theorem wrapInt_range (x : Int) : -2 ^ 63 ≤ wrapInt x ∧ wrapInt x ≤ maxInt := by
  unfold wrapInt maxInt
  omega

/-- With the largest Go `int` as bound the loop of the launches never ends: the counter
wraps around and stays below the bound. -/
theorem fanOut.indices_maxInt (fuel : Nat) (i : Int) (h : i ≤ maxInt) :
    fanOut.indices fuel i maxInt = none := by
  induction fuel generalizing i with
  | zero => rfl
  | succ fuel ih =>
    unfold fanOut.indices
    simp [h, ih _ (wrapInt_range (i + 1)).2]

/-- Below the largest Go `int` the loop of the launches ends and runs its body for the
values `i`, `i + 1`, ..., `count` of the counter. -/
theorem fanOut.indices_eq (m : Nat) :
    ∀ (fuel : Nat) (i count : Int), -2 ^ 63 ≤ i → i + m = count + 1 → count < maxInt →
      m + 1 ≤ fuel →
      fanOut.indices fuel i count = some ((List.range m).map (fun (k : Nat) => i + (k : Int))) := by
  induction m with
  | zero =>
    intro fuel i count _ h2 _ h4
    obtain ⟨f, rfl⟩ : ∃ f, fuel = f + 1 := ⟨fuel - 1, by omega⟩
    unfold fanOut.indices
    have : ¬ i ≤ count := by omega
    simp [this]
  | succ m ih =>
    intro fuel i count h1 h2 h3 h4
    obtain ⟨f, rfl⟩ : ∃ f, fuel = f + 1 := ⟨fuel - 1, by omega⟩
    unfold fanOut.indices
    have hle : i ≤ count := by omega
    have hw : wrapInt (i + 1) = i + 1 := wrapInt_succ i h1 (by omega)
    rw [hw, ih f (i + 1) count (by omega) (by push_cast at h2 ⊢; omega) h3 (by omega)]
    simp only [hle, if_true, Option.map_some', Option.some.injEq]
    rw [List.range_succ_eq_map]
    simp only [List.map_cons, List.map_map, Nat.cast_zero, add_zero, List.cons.injEq, true_and]
    apply List.map_congr_left
    intro k _
    simp only [Function.comp, Nat.cast_succ]
    ring

/-- The tasks launched by a fan-out of `count` tasks, `0 < count < 2^63 - 1`, are the tasks
1, ..., count. -/
theorem fanOut.indices_toNat (fuel : Nat) (count : Int) (h0 : 0 < count) (h : count < maxInt)
    (hf : count.toNat + 1 ≤ fuel) :
    (fanOut.indices fuel 1 count).map (fun indices => indices.map Int.toNat)
      = some ((List.range count.toNat).map (fun k => k + 1)) := by
  rw [fanOut.indices_eq count.toNat fuel 1 count (by norm_num) (by omega) h hf]
  simp only [Option.map_some', List.map_map, Option.some.injEq]
  apply List.map_congr_left
  intro k _
  simp only [Function.comp]
  omega

theorem asyncCreateMasters.collect_all_masters (count : Int) (task : Nat → Err) :
    ∃ pre res, asyncCreateMasters.collect ((List.range count.toNat).map (fun k => k + 1)) task
        = (pre ++ [.send res], res)
      ∧ (∀ e ∈ pre, e.isSend = false)
      ∧ (∀ i : Nat, 1 ≤ i → (i : Int) ≤ count → .receiveDone i ∈ pre)
      ∧ (res = none ↔ ∀ i : Nat, 1 ≤ i → (i : Int) ≤ count → task i = none) := by
  have hall : (∀ s ∈ ((List.range count.toNat).map (fun k => k + 1)).map task, s = none)
      ↔ ∀ i : Nat, 1 ≤ i → (i : Int) ≤ count → task i = none := by
    constructor
    · intro hs i h1 h2
      exact hs _ (List.mem_map_of_mem _ ((mem_fan_indices count i).mpr ⟨h1, h2⟩))
    · intro hs s hm
      obtain ⟨i, hi, rfl⟩ := List.mem_map.mp hm
      obtain ⟨h1, h2⟩ := (mem_fan_indices count i).mp hi
      exact hs i h1 h2
  have hpre : ∀ i : Nat, 1 ≤ i → (i : Int) ≤ count →
      FanEvent.receiveDone i ∈ ((List.range count.toNat).map (fun k => k + 1)).map .launch
        ++ ((List.range count.toNat).map (fun k => k + 1)).map .receiveDone := by
    intro i h1 h2
    exact List.mem_append_right _
      (List.mem_map_of_mem _ ((mem_fan_indices count i).mpr ⟨h1, h2⟩))
  have hns : ∀ e ∈ ((List.range count.toNat).map (fun k => k + 1)).map FanEvent.launch
        ++ ((List.range count.toNat).map (fun k => k + 1)).map .receiveDone,
      e.isSend = false := by
    intro e he
    rcases List.mem_append.mp he with he | he <;>
      obtain ⟨i, -, rfl⟩ := List.mem_map.mp he <;> rfl
  unfold asyncCreateMasters.collect
  by_cases hl : (List.filterMap id
      (((List.range count.toNat).map (fun k => k + 1)).map task)).length > 0
  · simp only [hl, if_true]
    refine ⟨_, _, rfl, hns, hpre, ?_⟩
    constructor
    · intro hc
      cases hc
    · intro hs
      exact absurd hl ((filterMap_id_length_pos _).mpr (hall.mpr hs))
  · simp only [hl, if_false]
    refine ⟨_, _, rfl, hns, hpre, ?_⟩
    simp only [true_iff]
    exact hall.mp ((filterMap_id_length_pos _).mp hl)

theorem asyncCreateNodes.collect_all_nodes (count : Int) (nodeType : NodeType)
    (task : Nat → NodeType → Err) :
    ∃ pre res, asyncCreateNodes.collect ((List.range count.toNat).map (fun k => k + 1))
          nodeType task
        = (pre ++ [.send res], res)
      ∧ (∀ e ∈ pre, e.isSend = false)
      ∧ (∀ i : Nat, 1 ≤ i → (i : Int) ≤ count → .receiveDone i ∈ pre)
      ∧ (res = none ↔ ∀ i : Nat, 1 ≤ i → (i : Int) ≤ count → task i nodeType = none) := by
  have hall : (∀ s ∈ ((List.range count.toNat).map (fun k => k + 1)).map
        (fun i => task i nodeType), s = none)
      ↔ ∀ i : Nat, 1 ≤ i → (i : Int) ≤ count → task i nodeType = none := by
    constructor
    · intro hs i h1 h2
      exact hs _ (List.mem_map.mpr ⟨i, (mem_fan_indices count i).mpr ⟨h1, h2⟩, rfl⟩)
    · intro hs s hm
      obtain ⟨i, hi, rfl⟩ := List.mem_map.mp hm
      obtain ⟨h1, h2⟩ := (mem_fan_indices count i).mp hi
      exact hs i h1 h2
  have hpre : ∀ i : Nat, 1 ≤ i → (i : Int) ≤ count →
      FanEvent.receiveDone i ∈ ((List.range count.toNat).map (fun k => k + 1)).map .launch
        ++ ((List.range count.toNat).map (fun k => k + 1)).flatMap
            (fun i => [FanEvent.receiveResult i, .receiveDone i]) := by
    intro i h1 h2
    refine List.mem_append_right _ (List.mem_flatMap.mpr
      ⟨i, (mem_fan_indices count i).mpr ⟨h1, h2⟩, by simp⟩)
  have hns : ∀ e ∈ ((List.range count.toNat).map (fun k => k + 1)).map FanEvent.launch
        ++ ((List.range count.toNat).map (fun k => k + 1)).flatMap
            (fun i => [FanEvent.receiveResult i, .receiveDone i]),
      e.isSend = false := by
    intro e he
    rcases List.mem_append.mp he with he | he
    · obtain ⟨i, -, rfl⟩ := List.mem_map.mp he
      rfl
    · obtain ⟨i, -, hi⟩ := List.mem_flatMap.mp he
      simp only [List.mem_cons, List.mem_singleton, List.not_mem_nil, or_false] at hi
      rcases hi with rfl | rfl <;> rfl
  unfold asyncCreateNodes.collect
  by_cases hl : (List.filterMap id (((List.range count.toNat).map (fun k => k + 1)).map
      (fun i => task i nodeType))).length > 0
  · simp only [hl, if_true]
    refine ⟨_, _, rfl, hns, hpre, ?_⟩
    constructor
    · intro hc
      cases hc
    · intro hs
      exact absurd hl ((filterMap_id_length_pos _).mpr (hall.mpr hs))
  · simp only [hl, if_false]
    refine ⟨_, _, rfl, hns, hpre, ?_⟩
    simp only [true_iff]
    exact hall.mp ((filterMap_id_length_pos _).mp hl)

/-- The value sent by `asyncCreateMasters` is the one of its run with communications. -/
theorem asyncCreateMasters.run_snd (fuel : Nat) (count : Int) (task : Nat → Err) :
    (asyncCreateMasters.run fuel count task).map (fun r => r.2)
      = asyncCreateMasters fuel count task := by
  unfold asyncCreateMasters.run asyncCreateMasters
  by_cases h : count ≤ 0
  · simp [h]
  · simp only [h, if_false]
    rcases fanOut.indices fuel 1 count with _ | indices
    · rfl
    · simp only [Option.map_some', asyncCreateMasters.collect, List.map_map]
      by_cases hl : (List.filterMap id (List.map (task ∘ Int.toNat) indices)).length > 0
      · have hl2 : (List.filterMap id (List.map (fun i => task i.toNat) indices)).length > 0 := hl
        simp only [hl, hl2, if_true]
        rfl
      · have hl2 : ¬ (List.filterMap id (List.map (fun i => task i.toNat) indices)).length > 0 := hl
        simp only [hl, hl2, if_false]

/-- C12 (as stated, refuted): for count = 2^63 - 1, the largest Go `int`, the counter of the
loop that launches the tasks wraps around and the loop does not end: no number of turns makes
`asyncCreateMasters` or `asyncCreateNodes` send a value, also when every task sends nil. -/
theorem C12_counterexample :
    (¬ ∃ (fuel : Nat) (r : List FanEvent × Err),
        asyncCreateMasters.run fuel (2 ^ 63 - 1) (fun _ => none) = some r)
    ∧ (¬ ∃ (fuel : Nat) (r : Err),
        asyncCreateMasters fuel (2 ^ 63 - 1) (fun _ => none) = some r)
    ∧ (¬ ∃ (fuel : Nat) (r : List FanEvent × Err),
        asyncCreateNodes.run fuel (2 ^ 63 - 1) false (fun _ _ => none) = some r) := by
  have h := fun fuel => fanOut.indices_maxInt fuel 1 (by decide)
  have hm : (2 : Int) ^ 63 - 1 = maxInt := rfl
  have hp : ¬ maxInt ≤ 0 := by decide
  refine ⟨?_, ?_, ?_⟩
  · rintro ⟨fuel, r, hr⟩
    rw [hm] at hr
    simp only [asyncCreateMasters.run, hp, if_false, h fuel, Option.map_none'] at hr
    cases hr
  · rintro ⟨fuel, r, hr⟩
    rw [hm] at hr
    simp only [asyncCreateMasters, hp, if_false, h fuel] at hr
    cases hr
  · rintro ⟨fuel, r, hr⟩
    rw [hm] at hr
    simp only [asyncCreateNodes.run, hp, if_false, h fuel, Option.map_none'] at hr
    cases hr

/-- C12 (amended): for every count less than 2^63 - 1 and every outcome of the tasks, the
loop that launches the tasks ends (`fuel` turns are enough as soon as `fuel > count`), and
`asyncCreateMasters` and `asyncCreateNodes` receive the completion signal of each of the
tasks 1, ..., count before the single value they send to their caller (which is their last
communication); that value is nil if and only if every task sent nil; and for count <= 0
the only communication is the sending of nil: no task is launched. -/
theorem C12_fan_out_collects_all_signals (fuel : Nat) (count : Int) (task : Nat → Err)
    (public_ : Bool) (nodeTask : Nat → NodeType → Err)
    (hc : count < maxInt) (hf : count.toNat + 1 ≤ fuel) :
    (∃ pre res, asyncCreateMasters.run fuel count task = some (pre ++ [.send res], res)
        ∧ asyncCreateMasters fuel count task = some res
        ∧ (∀ e ∈ pre, e.isSend = false)
        ∧ (∀ i : Nat, 1 ≤ i → (i : Int) ≤ count → .receiveDone i ∈ pre)
        ∧ (res = none ↔ ∀ i : Nat, 1 ≤ i → (i : Int) ≤ count → task i = none)
        ∧ (count ≤ 0 → pre = []))
    ∧ (∃ pre res, asyncCreateNodes.run fuel count public_ nodeTask
          = some (pre ++ [.send res], res)
        ∧ asyncCreateNodes fuel count public_ nodeTask = some res
        ∧ (∀ e ∈ pre, e.isSend = false)
        ∧ (∀ i : Nat, 1 ≤ i → (i : Int) ≤ count → .receiveDone i ∈ pre)
        ∧ (res = none ↔ ∀ i : Nat, 1 ≤ i → (i : Int) ≤ count →
            nodeTask i (if public_ then .PublicNode else .PrivateNode) = none)
        ∧ (count ≤ 0 → pre = [])) := by
  by_cases h : count ≤ 0
  · constructor
    · refine ⟨[], none, ?_, ?_, by simp, fun i h1 h2 => by omega, ?_, fun _ => rfl⟩
      · simp [asyncCreateMasters.run, h]
      · simp [asyncCreateMasters, h]
      · simp only [true_iff]
        intro i h1 h2
        omega
    · refine ⟨[], none, ?_, ?_, by simp, fun i h1 h2 => by omega, ?_, fun _ => rfl⟩
      · simp [asyncCreateNodes.run, h]
      · simp [asyncCreateNodes, asyncCreateNodes.run, h]
      · simp only [true_iff]
        intro i h1 h2
        omega
  · have hi := fanOut.indices_eq count.toNat fuel 1 count (by norm_num) (by omega) hc hf
    have ht : ((List.range count.toNat).map (fun (k : Nat) => (1 : Int) + (k : Int))).map
        Int.toNat = (List.range count.toNat).map (fun k => k + 1) := by
      rw [List.map_map]
      apply List.map_congr_left
      intro k _
      simp only [Function.comp]
      omega
    constructor
    · obtain ⟨pre, res, h1, h2, h3, h4⟩ := asyncCreateMasters.collect_all_masters count task
      have hrun : asyncCreateMasters.run fuel count task = some (pre ++ [.send res], res) := by
        simp only [asyncCreateMasters.run, h, if_false, hi, Option.map_some', ht, h1]
      refine ⟨pre, res, hrun, ?_, h2, h3, h4, fun h' => absurd h' h⟩
      rw [← asyncCreateMasters.run_snd, hrun]
      rfl
    · obtain ⟨pre, res, h1, h2, h3, h4⟩ := asyncCreateNodes.collect_all_nodes count
        (if public_ then .PublicNode else .PrivateNode) nodeTask
      have hrun : asyncCreateNodes.run fuel count public_ nodeTask
          = some (pre ++ [.send res], res) := by
        simp only [asyncCreateNodes.run, h, if_false, hi, Option.map_some', ht, h1]
      refine ⟨pre, res, hrun, ?_, h2, h3, h4, fun h' => absurd h' h⟩
      simp only [asyncCreateNodes, hrun, Option.map_some']

theorem C12_fan_out_collects_all_signals_witness :
    (3 : Int) < maxInt
    ∧ asyncCreateMasters.run 4 3 (fun i => if i = 2 then some "quota exceeded" else none)
      = some ([.launch 1, .launch 2, .launch 3, .receiveDone 1, .receiveDone 2, .receiveDone 3,
          .send (some "quota exceeded")], some "quota exceeded")
    ∧ asyncCreateNodes 4 3 true (fun _ _ => none) = some none :=
  have h := C12_fan_out_collects_all_signals 4 3
    (fun i => if i = 2 then some "quota exceeded" else none) true (fun _ _ => none)
    (by decide) (by decide)
  ⟨by decide, by decide, by
    obtain ⟨pre, res, -, h2, -, -, h5, -⟩ := h.2
    rw [h2, h5.mpr (fun _ _ _ => rfl)]⟩

/-! ### Optional features -/

theorem installProxyCache_spec (name : String) (inst : Installer) (hostName : String)
    (lock : LockOutcome) (read : Err) (features : Features) :
    (installProxyCache name inst hostName lock read features).calls = []
    ∧ (installProxyCache name inst hostName lock read features).result
        = (match lock with
           | .ok => read
           | .failedAfter msg => some msg)
    ∧ (installProxyCache name inst hostName lock read features).features
        = features.disable "proxycache" := by
  cases lock <;> cases read <;>
    simp [installProxyCache, LockForWrite.ThenUse, LockForRead.ThenUse, Features.isDisabled,
      Features.disable]

/-- C15: for every initial state of the Features group, every outcome of the two lock scopes
and every behaviour of the Feature Installer, `installProxyCacheClient` and
`installProxyCacheServer` make no call into the Feature Installer, return nil when the lock
scopes succeed, and leave `"proxycache"` a key of the set `Disabled`. -/
theorem C15_proxycache_never_installed (inst : Installer) (hostName : String)
    (lock : LockOutcome) (read : Err) (features : Features) :
    ((installProxyCacheClient inst hostName lock read features).calls = []
      ∧ (lock = .ok → read = none →
          (installProxyCacheClient inst hostName lock read features).result = none)
      ∧ "proxycache"
          ∈ (installProxyCacheClient inst hostName lock read features).features.Disabled)
    ∧ ((installProxyCacheServer inst hostName lock read features).calls = []
      ∧ (lock = .ok → read = none →
          (installProxyCacheServer inst hostName lock read features).result = none)
      ∧ "proxycache"
          ∈ (installProxyCacheServer inst hostName lock read features).features.Disabled) := by
  have h := fun name => installProxyCache_spec name inst hostName lock read features
  unfold installProxyCacheClient installProxyCacheServer
  refine ⟨⟨(h _).1, ?_, ?_⟩, ⟨(h _).1, ?_, ?_⟩⟩
  · rintro rfl rfl
    exact (h _).2.1
  · rw [(h _).2.2]
    simp [Features.disable]
  · rintro rfl rfl
    exact (h _).2.1
  · rw [(h _).2.2]
    simp [Features.disable]

/-- The run of `installReverseProxy`, case by case. -/
theorem installReverseProxy_eq (inst : Installer) (hostLabel : String) (read : Err)
    (features : Features) :
    installReverseProxy inst hostLabel read features
      = match read with
        | some err => { result := some err, calls := [], features := features }
        | none =>
          if "reverseproxy" ∈ features.Disabled then
            { result := none, calls := [], features := features }
          else
            match inst.NewFeature "reverseproxy" with
            | some err =>
              { result := some (fmt.Errorf ("[" ++ hostLabel
                  ++ "] failed to prepare feature \x27reverseproxy\x27: " ++ err)),
                calls := [.NewFeature "reverseproxy"], features := features }
            | none =>
              { result :=
                  (match inst.Add "reverseproxy" with
                    | .ok => none
                    | .failed err =>
                      some (fmt.Errorf ("[" ++ hostLabel
                        ++ "] failed to install feature \x27reverseproxy\x27: " ++ err))
                    | .unsuccessful msgs =>
                      some (fmt.Errorf ("[" ++ hostLabel
                        ++ "] failed to install feature \x27reverseproxy\x27: " ++ msgs))),
                calls := [.NewFeature "reverseproxy", .Add "reverseproxy"],
                features := features } := by
  rcases read with _ | e
  · by_cases hd : "reverseproxy" ∈ features.Disabled
    · simp [installReverseProxy, LockForRead.ThenUse, Features.isDisabled, hd]
    · rcases hn : inst.NewFeature "reverseproxy" with _ | e
      · rcases ha : inst.Add "reverseproxy" with _ | e | e <;>
          simp [installReverseProxy, LockForRead.ThenUse, Features.isDisabled, hd, hn, ha]
      · simp [installReverseProxy, LockForRead.ThenUse, Features.isDisabled, hd, hn]
  · simp [installReverseProxy, LockForRead.ThenUse]

/-- The run of `installRemoteDesktop`, case by case. -/
theorem installRemoteDesktop_eq (inst : Installer) (read : Err) (features : Features) :
    installRemoteDesktop inst read features
      = match read with
        | some err => { result := some err, calls := [], features := features }
        | none =>
          if "remotedesktop" ∈ features.Disabled then
            { result := none, calls := [], features := features }
          else
            match inst.NewFeature "remotedesktop" with
            | some err =>
              { result := some err, calls := [.NewFeature "remotedesktop"],
                features := features }
            | none =>
              { result :=
                  (match inst.Add "remotedesktop" with
                    | .ok => none
                    | .failed err => some err
                    | .unsuccessful msg => some (fmt.Errorf msg)),
                calls := [.NewFeature "remotedesktop", .Add "remotedesktop"],
                features := features } := by
  rcases read with _ | e
  · by_cases hd : "remotedesktop" ∈ features.Disabled
    · simp [installRemoteDesktop, LockForRead.ThenUse, Features.isDisabled, hd]
    · rcases hn : inst.NewFeature "remotedesktop" with _ | e
      · rcases ha : inst.Add "remotedesktop" with _ | e | e <;>
          simp [installRemoteDesktop, LockForRead.ThenUse, Features.isDisabled, hd, hn, ha]
      · simp [installRemoteDesktop, LockForRead.ThenUse, Features.isDisabled, hd, hn]
  · simp [installRemoteDesktop, LockForRead.ThenUse]

/-- C16 (as stated, refuted): with `"reverseproxy"` (resp. `"remotedesktop"`) not a key of
`Disabled` and a Feature Installer whose `NewFeature` fails, `installReverseProxy` (resp.
`installRemoteDesktop`) returns an error and `feature.Add` is not called: nothing is
installed although the key is not disabled. -/
theorem C16_counterexample :
    "reverseproxy" ∉ (Features.mk []).Disabled
    ∧ installReverseProxy
        { NewFeature := fun _ => some "unknown feature", Add := fun _ => .ok } "gateway" none
        ⟨[]⟩
      = { result := some "[gateway] failed to prepare feature \x27reverseproxy\x27: unknown feature",
          calls := [.NewFeature "reverseproxy"], features := ⟨[]⟩ }
    ∧ installRemoteDesktop
        { NewFeature := fun _ => some "unknown feature", Add := fun _ => .ok } none ⟨[]⟩
      = { result := some "unknown feature", calls := [.NewFeature "remotedesktop"],
          features := ⟨[]⟩ } := by
  refine ⟨by decide, by decide, by decide⟩

/-- C16 (amended): `installReverseProxy` (resp. `installRemoteDesktop`) calls `feature.Add`
of the Feature Installer if and only if `"reverseproxy"` (resp. `"remotedesktop"`) is not a
key of the set `Disabled` of the Features group, the read-lock scope succeeds and
`NewFeature` succeeds; `Add` is then called once, after `NewFeature`, and the function
returns nil exactly when `Add` gives successful results. When the key is present (and the
scope succeeds) it returns nil without any call into the installer; when `NewFeature` fails
it returns an error after that call alone; when the scope fails it returns the error of the
scope without any call. In every case the Features group is unchanged. -/
theorem C16_feature_gating (inst : Installer) (hostLabel : String) (read : Err)
    (features : Features) :
    ((InstallCall.Add "reverseproxy" ∈ (installReverseProxy inst hostLabel read features).calls
        ↔ "reverseproxy" ∉ features.Disabled ∧ read = none
          ∧ inst.NewFeature "reverseproxy" = none)
      ∧ ("reverseproxy" ∉ features.Disabled → read = none →
          inst.NewFeature "reverseproxy" = none →
          (installReverseProxy inst hostLabel read features).calls
            = [.NewFeature "reverseproxy", .Add "reverseproxy"]
          ∧ ((installReverseProxy inst hostLabel read features).result = none
            ↔ inst.Add "reverseproxy" = .ok))
      ∧ ("reverseproxy" ∈ features.Disabled → read = none →
          (installReverseProxy inst hostLabel read features).result = none
          ∧ (installReverseProxy inst hostLabel read features).calls = [])
      ∧ (∀ err, "reverseproxy" ∉ features.Disabled → read = none →
          inst.NewFeature "reverseproxy" = some err →
          (installReverseProxy inst hostLabel read features).result ≠ none
          ∧ (installReverseProxy inst hostLabel read features).calls
            = [.NewFeature "reverseproxy"])
      ∧ (∀ err, read = some err →
          (installReverseProxy inst hostLabel read features).result = some err
          ∧ (installReverseProxy inst hostLabel read features).calls = [])
      ∧ (installReverseProxy inst hostLabel read features).features = features)
    ∧ ((InstallCall.Add "remotedesktop" ∈ (installRemoteDesktop inst read features).calls
        ↔ "remotedesktop" ∉ features.Disabled ∧ read = none
          ∧ inst.NewFeature "remotedesktop" = none)
      ∧ ("remotedesktop" ∉ features.Disabled → read = none →
          inst.NewFeature "remotedesktop" = none →
          (installRemoteDesktop inst read features).calls
            = [.NewFeature "remotedesktop", .Add "remotedesktop"]
          ∧ ((installRemoteDesktop inst read features).result = none
            ↔ inst.Add "remotedesktop" = .ok))
      ∧ ("remotedesktop" ∈ features.Disabled → read = none →
          (installRemoteDesktop inst read features).result = none
          ∧ (installRemoteDesktop inst read features).calls = [])
      ∧ (∀ err, "remotedesktop" ∉ features.Disabled → read = none →
          inst.NewFeature "remotedesktop" = some err →
          (installRemoteDesktop inst read features).result = some err
          ∧ (installRemoteDesktop inst read features).calls = [.NewFeature "remotedesktop"])
      ∧ (∀ err, read = some err →
          (installRemoteDesktop inst read features).result = some err
          ∧ (installRemoteDesktop inst read features).calls = [])
      ∧ (installRemoteDesktop inst read features).features = features) := by
  constructor
  · rw [installReverseProxy_eq]
    rcases read with _ | e
    · by_cases hd : "reverseproxy" ∈ features.Disabled
      · simp [hd]
      · rcases hn : inst.NewFeature "reverseproxy" with _ | e
        · rcases ha : inst.Add "reverseproxy" with _ | e | e <;> simp [hd, hn, ha]
        · simp [hd, hn]
    · simp
  · rw [installRemoteDesktop_eq]
    rcases read with _ | e
    · by_cases hd : "remotedesktop" ∈ features.Disabled
      · simp [hd]
      · rcases hn : inst.NewFeature "remotedesktop" with _ | e
        · rcases ha : inst.Add "remotedesktop" with _ | e | e <;> simp [hd, hn, ha]
        · simp [hd, hn]
    · simp

theorem C16_feature_gating_witness :
    (installReverseProxy { NewFeature := fun _ => none, Add := fun _ => .ok } "gateway" none
        ⟨["proxycache"]⟩).calls = [.NewFeature "reverseproxy", .Add "reverseproxy"]
    ∧ (installReverseProxy { NewFeature := fun _ => none, Add := fun _ => .ok } "gateway" none
        ⟨["proxycache"]⟩).result = none
    ∧ (installRemoteDesktop { NewFeature := fun _ => none, Add := fun _ => .ok } none
        ⟨["remotedesktop"]⟩).calls = [] :=
  have h := C16_feature_gating { NewFeature := fun _ => none, Add := fun _ => .ok } "gateway"
    none ⟨["proxycache"]⟩
  have h' := C16_feature_gating { NewFeature := fun _ => none, Add := fun _ => .ok } "gateway"
    none ⟨["remotedesktop"]⟩
  ⟨(h.1.2.1 (by decide) rfl rfl).1, (h.1.2.1 (by decide) rfl rfl).2.mpr rfl,
    (h'.2.2.2.1 (by decide) rfl).2⟩

/-! ### Creation of one master or node -/

theorem NetworkService.Create.body_calls (p : NetworkProvider) (network : api.Network)
    (net : String) (cpu : Int) (ram : ℚ) (disk : Int) (os gwname : String) :
    ∀ c ∈ (NetworkService.Create.body p network net cpu ram disk os gwname).1,
      c.isDeleteNetwork = false := by
  unfold NetworkService.Create.body
  rcases p.SelectTemplatesBySize with (_ | ⟨t, l⟩) | e <;>
    rcases p.SearchImage with i | e <;> rcases p.CreateKeyPair with k | e <;>
    rcases p.CreateGateway with _ | e <;> simp [ProviderCall.isDeleteNetwork]

theorem NetworkService.Create.body_panics (p : NetworkProvider) (network : api.Network)
    (net : String) (cpu : Int) (ram : ℚ) (disk : Int) (os gwname : String)
    (h : p.LaterStepFails) :
    ∃ r, (NetworkService.Create.body p network net cpu ram disk os gwname).2 = .panicked r := by
  unfold NetworkService.Create.body
  rcases hs : p.SelectTemplatesBySize with (_ | ⟨t, l⟩) | e <;>
    rcases hi : p.SearchImage with i | e <;> rcases hk : p.CreateKeyPair with k | e <;>
    rcases hg : p.CreateGateway with _ | e <;>
    simp_all [NetworkProvider.LaterStepFails]

/-- An example: the creation of the gateway fails; the network is deleted once and the
error of the gateway creation is returned. -/
theorem NetworkService.Create_gatewayFails :
    NetworkService.Create NetworkProvider.gatewayFails "net" "10.0.0.0/24" 2 4 50 "ubuntu" "gw"
      = { apinetwork := none, err := some "no floating IP left",
          calls := [.CreateNetwork "net" "10.0.0.0/24", .SelectTemplatesBySize 2 4 50,
            .SearchImage "ubuntu", .DeleteKeyPair "kp_net", .CreateKeyPair "kp_net",
            .CreateGateway ⟨"img-1", "net-1", "key", "tpl-1", "gw"⟩,
            .DeleteNetwork "net-1"] } := by
  rfl

/-- C17: in `NetworkService.Create`, when `CreateNetwork` fails, that error is returned with
a nil network and `DeleteNetwork` is not called; when `CreateNetwork` succeeded and a later
step fails (the template selection returns an error or an empty list, the image search, the
key pair creation or the gateway creation fails), a nil network and a non-nil error are
returned and `DeleteNetwork` is called exactly once, with the ID of the created network. -/
theorem C17_network_create_cleanup (p : NetworkProvider) (net cidr : String) (cpu : Int)
    (ram : ℚ) (disk : Int) (os gwname : String) :
    (∀ e, p.CreateNetwork = .error e →
      (NetworkService.Create p net cidr cpu ram disk os gwname).apinetwork = none
      ∧ (NetworkService.Create p net cidr cpu ram disk os gwname).err = some e
      ∧ (NetworkService.Create p net cidr cpu ram disk os gwname).calls.filter
          ProviderCall.isDeleteNetwork = [])
    ∧ (∀ network, p.CreateNetwork = .ok network → p.LaterStepFails →
      (NetworkService.Create p net cidr cpu ram disk os gwname).apinetwork = none
      ∧ (NetworkService.Create p net cidr cpu ram disk os gwname).err ≠ none
      ∧ (NetworkService.Create p net cidr cpu ram disk os gwname).calls.filter
          ProviderCall.isDeleteNetwork = [.DeleteNetwork network.ID]) := by
  constructor
  · intro e he
    simp [NetworkService.Create, he, ProviderCall.isDeleteNetwork]
  · intro network hn hf
    obtain ⟨r, hr⟩ := NetworkService.Create.body_panics p network net cpu ram disk os gwname hf
    have hc := NetworkService.Create.body_calls p network net cpu ram disk os gwname
    simp only [NetworkService.Create, hn, hr]
    refine ⟨trivial, ?_, ?_⟩
    · cases r <;> simp
    · rw [List.cons_append, List.filter_cons, List.filter_append,
        List.filter_eq_nil_iff.mpr (fun c hc' => by simp [hc c hc'])]
      simp [ProviderCall.isDeleteNetwork]

/-! ### Shares -/

theorem GoMap.get_delete {α : Type} (m : List (String × α)) (k : String) :
    GoMap.get (GoMap.delete m k) k = none := by
  unfold GoMap.get GoMap.delete
  induction m with
  | nil => rfl
  | cons kv rest ih =>
    obtain ⟨a, b⟩ := kv
    by_cases h : a = k
    · rw [List.filter_cons]
      simpa [h] using ih
    · have h' : (k == a) = false := by
        simpa using fun hk => h hk.symm
      rw [List.filter_cons]
      simp only [ne_eq, h, not_false_eq_true, decide_True, if_true, List.lookup_cons, h']
      exact ih

/-- When the share has no metadata (`LoadShare` returns a `utils.ErrNotFound`), `Inspect`
returns three nil values and an error of the type `resources.ErrResourceNotFound`, and the
check of `Create` goes on. -/
theorem ShareHandler.Inspect_no_metadata (w : InspectWorld) (shareName : String)
    (e : GoError) (h : w.LoadShare.2 = some e) (he : e.isErrNotFound = true) :
    ShareHandler.Inspect w shareName
      = .returned none none none (some (.ErrResourceNotFound "share" shareName))
    ∧ ShareHandler.Create.duplicateCheck (ShareHandler.Inspect w shareName) shareName
      = .proceeds := by
  simp [ShareHandler.Inspect, h, he, ShareHandler.Create.duplicateCheck,
    GoError.isErrResourceNotFound]

/-- When the metadata of the share name a host whose group Shares has neither the name nor
the identifier, `Inspect` returns three nil values and an error of the type of
`errors.WithStack`, which wraps the `resources.ErrResourceNotFound`; the type assertion of
`Create` does not recognise it and `Create` returns the error. -/
theorem ShareHandler.Inspect_missing_on_host (w : InspectWorld) (shareName : String)
    (server : resources.Host) (h : w.LoadShare.2 = none) (hn : w.LoadShare.1 ≠ "")
    (hs : w.ForceInspect = .ok server) (hr : w.sharesRead = none)
    (h1 : GoMap.get server.Shares.ByName shareName = none)
    (h2 : GoMap.get server.Shares.ByID shareName = none) :
    ShareHandler.Inspect w shareName
      = .returned none none none (some (.withStack (.ErrResourceNotFound "share"
          ("no share named \x27" ++ shareName ++ "\x27"))))
    ∧ ShareHandler.Create.duplicateCheck (ShareHandler.Inspect w shareName) shareName
      = .rejected (some (.withStack (.withStack (.ErrResourceNotFound "share"
          ("no share named \x27" ++ shareName ++ "\x27"))))) := by
  simp [ShareHandler.Inspect, h, hn, hs, hr, h1, h2, ShareHandler.Inspect.find,
    LockForRead.ThenUse, ShareHandler.Create.duplicateCheck, GoError.isErrResourceNotFound,
    infraErr, errors.WithStack]

/-- C19 (refuted on the code): for a share whose metadata name the host `h1` while the
group Shares of `h1` has neither the name nor the identifier `data`, `Inspect` returns
`(nil, nil, nil, err)` with `err` an `errors.WithStack` wrapper around the
`resources.ErrResourceNotFound`: the type assertion `err.(resources.ErrResourceNotFound)`
fails, and the check of `Create` returns the error instead of going on. -/
theorem C19_inspect_wraps_not_found :
    ShareHandler.Inspect InspectWorld.missingOnHost "data"
      = .returned none none none
          (some (.withStack (.ErrResourceNotFound "share" "no share named \x27data\x27")))
    ∧ (GoError.withStack (.ErrResourceNotFound "share"
        "no share named \x27data\x27")).isErrResourceNotFound = false
    ∧ ShareHandler.Create.duplicateCheck
        (ShareHandler.Inspect InspectWorld.missingOnHost "data") "data"
      = .rejected (some (.withStack (.withStack
          (.ErrResourceNotFound "share" "no share named \x27data\x27")))) := by
  refine ⟨?_, rfl, ?_⟩
  · exact (ShareHandler.Inspect_missing_on_host InspectWorld.missingOnHost "data" _ rfl
      (by decide) rfl rfl rfl rfl).1
  · exact (ShareHandler.Inspect_missing_on_host InspectWorld.missingOnHost "data" _ rfl
      (by decide) rfl rfl rfl rfl).2

/-! ### Host sizing without a request -/

/-- C24: when the request is absent (nil), `complementHostDefinition` returns the tier
default unchanged in every field, whatever the values of its Cores, RAMSize and DiskSize:
the baseline 4 / 15.0 / 100 is not applied. -/
theorem C24_nil_request_returns_default (def_ : HostDefinition) :
    complementHostDefinition none def_ = def_
    ∧ (complementHostDefinition none def_).Cores = def_.Cores
    ∧ (complementHostDefinition none def_).RAMSize = def_.RAMSize
    ∧ (complementHostDefinition none def_).DiskSize = def_.DiskSize :=
  ⟨rfl, rfl, rfl, rfl⟩

/-! ### Frame of the hostname allocation -/

/-- C25 (as stated, refuted): from a counter of masters equal to the largest Go `int`,
`buildHostname` leaves the counter at -2^63, which is not the counter plus one, and returns
the name with that negative index. -/
theorem C25_counterexample :
    (buildHostname "c1" "master" .Master .ok Nodes.lastMaster).2.MasterLastIndex = -2 ^ 63
    ∧ (buildHostname "c1" "master" .Master .ok Nodes.lastMaster).2.MasterLastIndex
      ≠ Nodes.lastMaster.MasterLastIndex + 1
    ∧ (buildHostname "c1" "master" .Master .ok Nodes.lastMaster).1
      = ("c1-master--9223372036854775808", none) := by
  refine ⟨by decide, by decide, by decide⟩

/-- C25 (amended): when the write-lock scope succeeds and the counter of the node type
allocated is less than the largest Go `int` (nothing is asked of the two other counters),
`buildHostname` for Master, PrivateNode or PublicNode adds exactly one to the counter of that
type, leaves the two other counters and the lists of nodes unchanged, and returns the name
made of the name of the cluster, `core` (preceded by `pub` for PublicNode) and the decimal
text of the new counter; when the scope reports an error that error is returned with an
empty name; for Gateway an error is returned and the payload is unchanged. -/
theorem C25_buildHostname_frame (clusterName core : String) (lock : LockOutcome)
    (nodesV1 : Nodes) :
    (-2 ^ 63 ≤ nodesV1.MasterLastIndex → nodesV1.MasterLastIndex < maxInt →
      buildHostname clusterName core .Master .ok nodesV1
        = ((clusterName ++ "-" ++ core ++ "-" ++ Itoa (nodesV1.MasterLastIndex + 1), none),
            { nodesV1 with MasterLastIndex := nodesV1.MasterLastIndex + 1 }))
    ∧ (-2 ^ 63 ≤ nodesV1.PrivateLastIndex → nodesV1.PrivateLastIndex < maxInt →
      buildHostname clusterName core .PrivateNode .ok nodesV1
        = ((clusterName ++ "-" ++ core ++ "-" ++ Itoa (nodesV1.PrivateLastIndex + 1), none),
            { nodesV1 with PrivateLastIndex := nodesV1.PrivateLastIndex + 1 }))
    ∧ (-2 ^ 63 ≤ nodesV1.PublicLastIndex → nodesV1.PublicLastIndex < maxInt →
      buildHostname clusterName core .PublicNode .ok nodesV1
        = ((clusterName ++ "-" ++ ("pub" ++ core) ++ "-"
              ++ Itoa (nodesV1.PublicLastIndex + 1), none),
            { nodesV1 with PublicLastIndex := nodesV1.PublicLastIndex + 1 }))
    ∧ (∀ nodeType msg, nodeType ≠ .Gateway →
        (buildHostname clusterName core nodeType (.failedAfter msg) nodesV1).1
          = ("", some msg))
    ∧ (buildHostname clusterName core .Gateway lock nodesV1).1.1 = ""
    ∧ (buildHostname clusterName core .Gateway lock nodesV1).1.2 ≠ none
    ∧ (buildHostname clusterName core .Gateway lock nodesV1).2 = nodesV1 := by
  refine ⟨?_, ?_, ?_, ?_, ?_, ?_, ?_⟩
  · intro h1 h2
    have h := wrapInt_succ nodesV1.MasterLastIndex h1 (by unfold maxInt at *; omega)
    simp [buildHostname, LockForWrite.ThenUse, buildHostname.scope, buildHostname.index, h]
  · intro h1 h2
    have h := wrapInt_succ nodesV1.PrivateLastIndex h1 (by unfold maxInt at *; omega)
    simp [buildHostname, LockForWrite.ThenUse, buildHostname.scope, buildHostname.index, h]
  · intro h1 h2
    have h := wrapInt_succ nodesV1.PublicLastIndex h1 (by unfold maxInt at *; omega)
    simp [buildHostname, LockForWrite.ThenUse, buildHostname.scope, buildHostname.index, h]
  · intro nodeType msg hne
    cases nodeType <;> simp_all [buildHostname, LockForWrite.ThenUse]
  · simp [buildHostname]
  · simp [buildHostname]
  · simp [buildHostname]

theorem C25_buildHostname_frame_witness :
    buildHostname "c1" "master" .Master .ok
        { Nodes.empty with PrivateLastIndex := 2 ^ 63 - 1 }
      = (("c1-master-1", none),
          { Nodes.empty with PrivateLastIndex := 2 ^ 63 - 1, MasterLastIndex := 1 })
    ∧ buildHostname "c1" "node" .PublicNode .ok Nodes.empty
      = (("c1-pubnode-1", none), { Nodes.empty with PublicLastIndex := 1 }) :=
  ⟨((C25_buildHostname_frame "c1" "master" .ok
        { Nodes.empty with PrivateLastIndex := 2 ^ 63 - 1 }).1 (by decide) (by decide)).trans
      (by decide),
    ((C25_buildHostname_frame "c1" "node" .ok Nodes.empty).2.2.1 (by decide)
      (by decide)).trans (by decide)⟩

/-! ### Status propagation -/

/-- A run that reaches line 372 with the metadata update of step 6 succeeding is a sequence
of events other than the call of `configureCluster`, followed by the propagation of the four
statuses (lines 411-426). -/
theorem Construct_reaches_propagateStatus (w : World) (req : Request) (networkID : String)
    (hr : w.Reaches networkID) (hn : w.nodesUpdate = .ok) :
    ∃ evs, Event.configureCluster ∉ evs
      ∧ Construct w req = Run.after evs
          (Construct.propagateStatus w req [.nodes, .masters, .metadata, .network networkID]
            w.statuses.1 w.statuses.2.1 w.statuses.2.2.1 w.statuses.2.2.2) := by
  obtain ⟨evs0, h0, heq⟩ := Construct_reaches_topology w req networkID hr
  have h0' : Event.configureCluster ∉ evs0 := fun hc => by
    have := h0 _ hc
    simp [Event.isSetup] at this
  have ht := hr.2.2.2.2.2.2.2.2.2.2.2.2.2.1
  have hc := hr.2.2.2.2.2.2.2.2.2.2.2.2.2.2
  have h1 : ∀ x ∈ (Construct.topology.updatefn w).2.1, x ≠ Event.configureCluster := by
    simp [Construct.topology.updatefn]
  have h2 : ∀ gs ms, ∀ x ∈ (Construct.configuration.updatefn w gs ms).2.1,
      x ≠ Event.configureCluster := by
    intro gs ms
    rw [Construct.configuration_updatefn_eq]
    rcases gs with _ | a1 <;> rcases ms with _ | a2 <;>
      rcases w.configureGateway with _ | a3 <;> simp
  have h3 : ∀ gs ms ps pubs, ∀ x ∈ (Construct.nodesConfiguration.updatefn w gs ms ps pubs).2.1,
      x ≠ Event.configureCluster := by
    intro gs ms ps pubs
    rw [Construct.nodesConfiguration_updatefn_eq]
    rcases gs with _ | a1 <;> rcases ms with _ | a2 <;> rcases ps with _ | a3 <;>
      rcases pubs with _ | a4 <;> simp
  refine ⟨evs0 ++ ((Construct.topology.updatefn w).2.1
    ++ ((Construct.configuration.updatefn w w.installGateway w.createMasters).2.1
    ++ (Construct.nodesConfiguration.updatefn w
        (Construct.configuration.updatefn w w.installGateway w.createMasters).2.2.1
        (Construct.configuration.updatefn w w.installGateway w.createMasters).2.2.2.1
        (Construct.configuration.updatefn w w.installGateway w.createMasters).2.2.2.2.1
        (Construct.configuration.updatefn w w.installGateway w.createMasters).2.2.2.2.2).2.1)),
    ?_, ?_⟩
  · simp only [List.mem_append, not_or]
    exact ⟨h0', fun h => h1 _ h rfl, fun h => h2 _ _ _ h rfl, fun h => h3 _ _ _ _ _ h rfl⟩
  · rw [heq, Construct.topology_eq]
    simp only [ht]
    rw [Construct.configuration_eq]
    simp only [hc]
    rw [Construct.nodesConfiguration_eq]
    simp only [hn, Run.after_after]
    rfl

/-- C26: when all the metadata updates succeed, `Construct` returns before the cluster-wide
configuration exactly when one of the four statuses is not nil, and the error it returns is
then the first non-nil status in the order gateway, masters, private nodes, public nodes;
`configureCluster` is called if and only if the four statuses are nil. -/
theorem C26_status_priority (w : World) (req : Request) (networkID : String)
    (hr : w.Reaches networkID) (hn : w.nodesUpdate = .ok) (hf : w.finalUpdate = .ok) :
    (∀ e, w.firstStatus = some e → (Construct w req).result = some e)
    ∧ (Event.configureCluster ∈ (Construct w req).trace
        ↔ w.statuses.1 = none ∧ w.statuses.2.1 = none ∧ w.statuses.2.2.1 = none
          ∧ w.statuses.2.2.2 = none) := by
  obtain ⟨evs, hevs, heq⟩ := Construct_reaches_propagateStatus w req networkID hr hn
  have hd : ∀ err defers, Event.configureCluster ∉ Construct.runDeferred w req err defers := by
    intro err defers hc
    have := Construct.runDeferred_isDeletion w req err defers _ hc
    simp [Event.isDeletion] at this
  rw [heq]
  unfold World.firstStatus
  rcases h1 : w.statuses.1 with _ | a1 <;> rcases h2 : w.statuses.2.1 with _ | a2 <;>
    rcases h3 : w.statuses.2.2.1 with _ | a3 <;> rcases h4 : w.statuses.2.2.2 with _ | a4 <;>
    simp only [Construct.propagateStatus, firstError, ne_eq, not_true_eq_false, if_false,
      not_false_eq_true, if_true, reduceCtorEq, Run.after_result, Run.after_trace,
      Construct.leave_result, Construct.leave_trace, List.mem_append, hevs, hd, or_self,
      false_or, and_self, and_false, false_and, iff_self, and_true, true_and,
      Option.some.injEq, forall_eq', false_implies, implies_true]
  rw [Construct.clusterConfiguration_eq]
  simp only [hf]
  rcases w.configureCluster with _ | e <;> rcases w.finalState with _ | m <;>
    simp [hd]

theorem C26_status_priority_witness :
    World.Reaches { World.success with
        createMasters := some "masters: quota exceeded",
        createNodes := fun _ => some "nodes: quota exceeded" } "net-id"
    ∧ (Construct { World.success with
        createMasters := some "masters: quota exceeded",
        createNodes := fun _ => some "nodes: quota exceeded" }
        (Request.sample false)).result = some "masters: quota exceeded"
    ∧ Event.configureCluster ∉ (Construct { World.success with
        createMasters := some "masters: quota exceeded",
        createNodes := fun _ => some "nodes: quota exceeded" }
        (Request.sample false)).trace :=
  have h := C26_status_priority { World.success with
        createMasters := some "masters: quota exceeded",
        createNodes := fun _ => some "nodes: quota exceeded" } (Request.sample false) "net-id"
      (by simp [World.Reaches, World.success]) rfl rfl
  ⟨by simp [World.Reaches, World.success], h.1 _ (by decide),
    fun hc => absurd (h.2.mp hc).2.1 (by decide)⟩

/-! ### Configuration tasks -/

/-- The tasks `asyncConfigureNode`, `asyncInstallGateway` and `asyncConfigureGateway`
execute exactly one send statement on `done` on every path. -/
theorem async_tasks_send_once (a b c d e : Err) (g : Option Err) :
    (asyncConfigureNode a b).length = 1 ∧ (asyncInstallGateway a b c d e).length = 1
    ∧ (asyncConfigureGateway a g).length = 1 := by
  refine ⟨?_, ?_, ?_⟩
  · rcases a with _ | a <;> rcases b with _ | b <;> rfl
  · rcases a with _ | a <;> rcases b with _ | b <;> rcases c with _ | c <;>
      rcases d with _ | d <;> rcases e with _ | e <;> rfl
  · rcases a with _ | a <;> rcases g with _ | _ | g <;> rfl

/-- The task `asyncConfigureMaster` executes one send statement when `installDocker` fails
or `configureMaster` succeeds, and two when `configureMaster` fails. -/
theorem asyncConfigureMaster_sends (installDocker configureMaster : Err) :
    (asyncConfigureMaster installDocker configureMaster).length
      = if installDocker = none ∧ configureMaster ≠ none then 2 else 1 := by
  rcases installDocker with _ | a <;> rcases configureMaster with _ | b <;> rfl

/-- C21 (refuted on the code): when `installDocker` succeeds and `configureMaster` returns
an error, `asyncConfigureMaster` executes two send statements on `done`: the error, then
nil. -/
theorem C21_configure_master_sends_twice :
    asyncConfigureMaster none (some "configuration of master failed")
      = [some "configuration of master failed", none]
    ∧ (asyncConfigureMaster none (some "configuration of master failed")).length ≠ 1 := by
  constructor <;> decide

/-- C22 (refuted on the code): with the actor `ConfigureMaster` defined and the actor
`ConfigureNode` not defined, `configureMaster` returns nil without calling the actor, whose
result is an error; with `ConfigureNode` defined and `ConfigureMaster` not defined, it
panics. -/
theorem C22_configureMaster_tests_other_actor :
    configureMaster
        { ConfigureMaster := some (fun _ => some "etcd failed"), ConfigureNode := none } 1
      = { ended := .returned none, calls := [] }
    ∧ configureMaster
        { ConfigureMaster := none, ConfigureNode := some (fun _ _ _ => none) } 1
      = { ended := .panicked, calls := [] } := by
  constructor <;> rfl

/-- The node type and the label that `asyncConfigureNodes` and `configureNodesFromList` give
to the tasks they launch. -/
theorem configureNodes_launch_nodeType (Inspect : String → HostCreated) (nodeType : NodeType)
    (nodeTypeStr : String) (i : Int) (list : List String) :
    ∀ l ∈ (configureNodes.launch Inspect nodeType nodeTypeStr i list).1,
      l.nodeType = nodeType ∧ l.nodeTypeStr = nodeTypeStr := by
  induction list generalizing i with
  | nil => simp [configureNodes.launch]
  | cons hostID rest ih =>
    unfold configureNodes.launch
    rcases Inspect hostID with h | e
    · intro l hl
      simp only [List.mem_cons] at hl
      rcases hl with rfl | hl
      · exact ⟨rfl, rfl⟩
      · exact ih _ l hl
    · simp

/-- C27 (refuted on the code): for `public = true`, `asyncConfigureNodes` and
`configureNodesFromList` launch `asyncConfigureNode` with `NodeType.PrivateNode` and the
label `public`, while `asyncCreateNodes` gives `NodeType.PublicNode` to its tasks. -/
theorem C27_configuration_swaps_node_type :
    (asyncConfigureNodes true ["n1"] Inspect.sample (fun _ => none)).1
      = [{ index := 1, pbHost := ⟨"n1", "host-n1", "10.0.0.5", ""⟩,
           nodeType := .PrivateNode, nodeTypeStr := "public" }]
    ∧ (configureNodesFromList true ["n1"] Inspect.sample (fun _ => none)).1
      = [{ index := 1, pbHost := ⟨"n1", "host-n1", "10.0.0.5", ""⟩,
           nodeType := .PrivateNode, nodeTypeStr := "public" }]
    ∧ (asyncConfigureNodes false ["n1"] Inspect.sample (fun _ => none)).1
      = [{ index := 1, pbHost := ⟨"n1", "host-n1", "10.0.0.5", ""⟩,
           nodeType := .PublicNode, nodeTypeStr := "private" }]
    ∧ asyncCreateNodes 2 1 true (fun _ nodeType => some nodeType.String)
      = some (some "PublicNode") := by
  refine ⟨by decide, by decide, by decide, by decide⟩

/-! ### Export paths and remote mounts -/

theorem strings.Index_eq_zero (s substr : String) :
    strings.Index s substr = 0 ↔ substr.data.isPrefixOf s.data = true := by
  have key : ∀ (l : List Char) (off : Int), 0 < off →
      strings.Index.from substr.data l off ≠ 0 := by
    intro l
    induction l with
    | nil =>
      intro off h
      unfold strings.Index.from
      split <;> omega
    | cons c cs ih =>
      intro off h
      unfold strings.Index.from
      split
      · omega
      · exact ih _ (by omega)
  unfold strings.Index
  rcases hs : s.data with _ | ⟨c, cs⟩
  · unfold strings.Index.from
    rcases hsub : substr.data with _ | ⟨d, ds⟩ <;> simp
  · unfold strings.Index.from
    by_cases hp : substr.data.isPrefixOf (c :: cs) = true
    · simp [hp]
    · simp only [hp, if_false]
      constructor
      · intro h
        exact absurd h (key cs _ (by omega))
      · intro h
        cases h

/-- The check of `Create` rejects the export exactly when the path given is a key of the
map of the remote mounts, or a key of that map is a prefix of the sanitized path. -/
theorem ShareHandler.Create.checkMounts_rejects (path sharePath : String) (v : HostMounts) :
    ShareHandler.Create.checkMounts path sharePath v ≠ none
      ↔ (GoMap.get v.RemoteMountsByPath path).isSome = true
        ∨ ∃ kv ∈ v.RemoteMountsByPath, kv.1.data.isPrefixOf sharePath.data = true := by
  unfold ShareHandler.Create.checkMounts
  by_cases h1 : (GoMap.get v.RemoteMountsByPath path).isSome = true
  · simp [h1, logicErr]
  · rw [Bool.not_eq_true] at h1
    rw [h1]
    simp only [Bool.false_eq_true, if_false, false_or]
    rcases hf : v.RemoteMountsByPath.find? (fun kv => strings.Index sharePath kv.1 = 0)
      with _ | kv
    · simp only [hf, ne_eq, not_true_eq_false, false_iff, not_exists, not_and]
      intro kv hkv hp
      have := List.find?_eq_none.mp hf kv hkv
      simp [strings.Index_eq_zero, hp] at this
    · simp only [hf, logicErr, ne_eq, reduceCtorEq, not_false_eq_true, true_iff]
      have hm := List.mem_of_find?_eq_some hf
      have hp := List.find?_some hf
      simp only [decide_eq_true_eq] at hp
      exact ⟨kv, hm, (strings.Index_eq_zero _ _).mp hp⟩

/-- C23 (refuted on the code): the export of `/data` on a host with a remote mount at
`/data/nfs`, which the export path contains, is not rejected; the export of `/data2` on a
host with a remote mount at `/data`, which only shares a prefix with it, is rejected. -/
theorem C23_mount_check_tests_prefix :
    sanitize "/data" = ("/data", none)
    ∧ ShareHandler.Create.checkMounts "/data" "/data" (HostMounts.single "/data/nfs") = none
    ∧ sanitize "/data2" = ("/data2", none)
    ∧ ShareHandler.Create.checkMounts "/data2" "/data2" (HostMounts.single "/data")
      = some (.errorString
          "export path \x27/data2\x27 contains a share mounted in \x27/data\x27") := by
  refine ⟨by decide, by decide, by decide, by decide⟩

theorem GoMap.get_set {α : Type} (m : List (String × α)) (k : String) (v : α) :
    GoMap.get (GoMap.set m k v) k = some v := by
  simp [GoMap.get, GoMap.set, List.lookup_cons]

/-- After a successful `Mount` followed by a successful `Unmount` of the same share, for
every state of the maps before: the export of the share is still a key of
`RemoteMountsByExport`, with the mount path as its value, and the mount path is no key of
`RemoteMountsByPath`. -/
theorem ShareHandler.Unmount_leaves_export (w : UnmountWorld) (lookup : Bool)
    (targetName shareID export_ mountPath : String) (v : HostMounts)
    (h1 : w.GetConfig = none) (h2 : w.NewNFSClient = none) (h3 : w.Unmount = none) :
    (ShareHandler.Unmount.forget w targetName shareID
        (ShareHandler.Mount.record lookup shareID export_ mountPath v).1).1 = none
    ∧ GoMap.get (ShareHandler.Unmount.forget w targetName shareID
        (ShareHandler.Mount.record lookup shareID export_ mountPath v).1).2.1.RemoteMountsByExport
        export_ = some mountPath
    ∧ GoMap.get (ShareHandler.Unmount.forget w targetName shareID
        (ShareHandler.Mount.record lookup shareID export_ mountPath v).1).2.1.RemoteMountsByPath
        mountPath = none := by
  simp only [ShareHandler.Unmount.forget, ShareHandler.Mount.record, GoMap.get_set,
    Option.getD_some, h1, h2, h3, GoMap.get_delete, and_self]

/-- C28 (refuted on the code): from a host without any remote mount, a successful `Mount` of
a share followed by a successful `Unmount` of it leaves the export of the share in
`RemoteMountsByExport`, so the map is not restored, and the path it refers to is no key of
`RemoteMountsByPath`; the compensation of `Mount` itself removes the three entries. -/
theorem C28_unmount_keeps_export_entry :
    (ShareHandler.Unmount.forget UnmountWorld.success "client" "share-1"
        (ShareHandler.Mount.record true "share-1" "10.0.0.1:/data" "/mnt/data"
          HostMounts.empty).1)
      = (none,
          { RemoteMountsByPath := [], RemoteMountsByShareID := [],
            RemoteMountsByExport := [("10.0.0.1:/data", "/mnt/data")] },
          "/mnt/data")
    ∧ (ShareHandler.Unmount.forget UnmountWorld.success "client" "share-1"
        (ShareHandler.Mount.record true "share-1" "10.0.0.1:/data" "/mnt/data"
          HostMounts.empty).1).2.1 ≠ HostMounts.empty
    ∧ ShareHandler.Mount.forget
        (ShareHandler.Mount.record true "share-1" "10.0.0.1:/data" "/mnt/data"
          HostMounts.empty).2
        (ShareHandler.Mount.record true "share-1" "10.0.0.1:/data" "/mnt/data"
          HostMounts.empty).1
      = HostMounts.empty := by
  refine ⟨by decide, by decide, by decide⟩

/-! ### Conversion of SSH configurations -/

/-- The conversion to `pb.SshConfig` gives ports that are values of `int32`. -/
theorem ToPBSshConfig_wellTyped : ∀ x : system.SSHConfig, (ToPBSshConfig x).WellTyped
  | .mk _ _ _ port none => by
    simp only [ToPBSshConfig, pb.SshConfig.WellTyped, wrapInt32]
    omega
  | .mk _ _ _ port (some g) => by
    simp only [ToPBSshConfig, pb.SshConfig.WellTyped, wrapInt32]
    exact ⟨by omega, ToPBSshConfig_wellTyped g⟩

/-- Every byte of a mask that is not zero counts for 8 bits in the sum `netmaskInt`, also
the bytes 128 to 254 of a prefix whose length is no multiple of 8. -/
theorem bitLength_mask_byte (value : Nat) (h1 : 128 ≤ value) (h2 : value < 256) :
    bitLength 8 value = 8 := by
  interval_cases value <;> rfl

/-- An example where the round trip holds: the network 192.168.1.0/24. -/
theorem infoFromCidr_example_24 :
    infoFromCidr (.ok { IP := ⟨192, 168, 1, 7⟩, ones := 24 })
      = (("192.168.1.0", "255.255.255.0", "192.168.1.2", "192.168.1.254"), none)
    ∧ getNetworkFromLibvirtNetwork.cidr "192.168.1.0" "255.255.255.0"
      = .cidr "192.168.1.0/24" := by
  constructor <;> decide

/-- C30 (refuted on the code): for the CIDR 10.0.16.0/20, which `infoFromCidr` accepts, the
address and the mask it returns, 10.0.16.0 and 255.255.240.0, are converted back by the
computation of `getNetworkFromLibvirtNetwork` to 10.0.16.0/24: the length of the prefix is
24 and not 20. The DHCP range returned is 10.0.16.2 to 10.0.31.254. -/
theorem C30_prefix_not_recovered :
    infoFromCidr (.ok { IP := ⟨10, 0, 16, 0⟩, ones := 20 })
      = (("10.0.16.0", "255.255.240.0", "10.0.16.2", "10.0.31.254"), none)
    ∧ getNetworkFromLibvirtNetwork.cidr "10.0.16.0" "255.255.240.0" = .cidr "10.0.16.0/24"
    ∧ getNetworkFromLibvirtNetwork.cidr "10.0.16.0" "255.255.240.0" ≠ .cidr "10.0.16.0/20" := by
  refine ⟨by decide, by decide, by decide⟩

end SafeScale
